import Mathlib

/-!
# Smart-Kuehlschrank firmware: sensor monitoring, alarm and display engine

A shallow embedding of the C sources under `src/firmware` (`sensor.c`,
`display.c`, `display_broken3.c`, `logging_broken.c`, `smart_fridge.c`,
`config_broken.h`) together with theorems about them.

Conventions of the embedding

* A C `float` is a value of `CFloat`: a NaN, an infinity or a finite number.
  Comparisons follow IEEE-754: every ordered comparison with a NaN is false.
  The sign of a zero and the payload of a NaN are not represented.
* `int`, `long` and `time_t` values are integers; the `long` subtraction
  `time(NULL) - x` wraps around at 64 bits (`long_sub`).
* `time(NULL)` is an explicit argument `jetzt`.
* A C string is the list of its characters before the terminating NUL. A
  function that would write past a fixed-size buffer returns `none`.
* Global variables are fields of explicit state records that the functions
  take and return; the log sink and the render sink are lists of events.
* A `printf`-style call is recorded as its format string and argument list;
  where the produced text matters (display line 1), the formatting functions
  of the C library are a parameter (`Libc`).
* What the file system answers (file contents, `stat`, whether a file can be
  opened for writing) is an explicit argument of the function that asks.
* The results of `rand()` are explicit arguments, and the float arithmetic of
  the simulator is a parameter (`Rechenwerk`) that the theorems constrain by
  `ieee_gerundet`. A `sleep` shows as a second environment with a later clock.
-/

namespace Kuehlschrank

/-! ## C scalar types -/

/-- A C `float`: NaN, minus infinity, a finite number, or plus infinity. -/
inductive CFloat where
  | nan : CFloat
  | negInf : CFloat
  | fin (q : ℚ) : CFloat
  | posInf : CFloat
deriving DecidableEq

namespace CFloat

/-- The C comparison `a < b` on floats; false as soon as one side is NaN. -/
def lt : CFloat → CFloat → Bool
  | fin a, fin b => decide (a < b)
  | negInf, fin _ => true
  | negInf, posInf => true
  | fin _, posInf => true
  | _, _ => false

/-- The C comparison `a > b` on floats. -/
def gt (a b : CFloat) : Bool := lt b a

/-- The C comparison `a <= b` on floats; false as soon as one side is NaN. -/
def le : CFloat → CFloat → Bool
  | nan, _ => false
  | _, nan => false
  | a, b => !(lt b a)

/-- The C comparison `a != b` on floats; true as soon as one side is NaN. -/
def ne : CFloat → CFloat → Bool
  | nan, _ => true
  | _, nan => true
  | a, b => decide (a ≠ b)

end CFloat

/-- Two's-complement reduction of an integer to the range of a 64-bit `long`. -/
def wrap_long (x : Int) : Int := (x + 2 ^ 63) % 2 ^ 64 - 2 ^ 63

/-- The C subtraction `a - b` on `long` / `time_t` operands. -/
def long_sub (a b : Int) : Int := wrap_long (a - b)

/-! ## config_broken.h (included as config.h) -/

def MAX_TEMP_THRESHOLD : CFloat := .fin 8
def MIN_TEMP_THRESHOLD : CFloat := .fin (-2)
def DOOR_OPEN_THRESHOLD : Int := 30
def MAX_ENERGY_THRESHOLD : CFloat := .fin 200
def TARGET_TEMPERATURE : CFloat := .fin 4
def TARGET_ENERGY : CFloat := .fin 120
def DISPLAY_COLS : Nat := 40

def TEMPERATURE_FILE : String := "Workspace/temperatur.txt"
def DOOR_FILE : String := "Workspace/tuer.txt"
def ENERGY_FILE : String := "Workspace/energie.txt"
def BUTTON_FILE : String := "Workspace/taster.txt"

def LOG_DEBUG : Int := 0
def LOG_INFO : Int := 1
def LOG_WARNING : Int := 2
def LOG_ERROR : Int := 3

/-- The struct `SensorDaten`. -/
structure SensorDaten where
  temperatur : CFloat
  tuer_offen : Int
  energie_verbrauch : CFloat
  tuer_offen_seit : Int
  gueltig : Int
deriving DecidableEq

/-! ## logging_broken.c -/

/-- One argument of a `printf`-style call. -/
inductive Arg where
  | f (x : CFloat) : Arg
  | d (n : Int) : Arg
  | s (t : String) : Arg
deriving DecidableEq

/-- One line that reached the log sink: level, format string, arguments. -/
structure LogEintrag where
  level : Int
  format : String
  args : List Arg
deriving DecidableEq

/-- The logger's globals: `aktuelle_log_stufe` and what the sink (log file and
console) received. `aufrufe` is a trace of every call of `log_nachricht` and
`log_formatiert` made by the firmware, whether or not it was written. -/
structure LogZustand where
  aktuelle_log_stufe : Int
  senke : List LogEintrag
  aufrufe : List LogEintrag
deriving DecidableEq

/-- The function `log_level_zu_string`. -/
def log_level_zu_string (level : Int) : String :=
  if level = LOG_DEBUG then "DEBUG"
  else if level = LOG_INFO then "INFO"
  else if level = LOG_WARNING then "WARNUNG"
  else if level = LOG_ERROR then "FEHLER"
  else "UNBEKANNT"

/-- The body of `log_nachricht`: nothing below `aktuelle_log_stufe` is
written, everything else goes to the sink. -/
def log_schreiben (level : Int) (format : String) (args : List Arg)
    (L : LogZustand) : LogZustand :=
  if level < L.aktuelle_log_stufe then L
  else { L with senke := L.senke ++ [⟨level, format, args⟩] }

/-- The function `log_nachricht`. -/
def log_nachricht (level : Int) (nachricht : String) (L : LogZustand) : LogZustand :=
  log_schreiben level nachricht [] { L with aufrufe := L.aufrufe ++ [⟨level, nachricht, []⟩] }

/-- The function `log_formatiert`: its own level check, then the body of
`log_nachricht` with the formatted text. -/
def log_formatiert (level : Int) (format : String) (args : List Arg)
    (L : LogZustand) : LogZustand :=
  let L := { L with aufrufe := L.aufrufe ++ [⟨level, format, args⟩] }
  if level < L.aktuelle_log_stufe then L
  else log_schreiben level format args L

/-- The function `log_level_setzen`. -/
def log_level_setzen (neues_level : Int) (L : LogZustand) : LogZustand :=
  if neues_level < LOG_DEBUG ∨ neues_level > LOG_ERROR then
    log_formatiert LOG_WARNING
      "Ungültiges Log-Level: %d. Behalte aktuelles Level bei." [.d neues_level] L
  else
    let altes_level := L.aktuelle_log_stufe
    let L1 := { L with aktuelle_log_stufe := neues_level }
    log_formatiert LOG_INFO "Log-Level geändert von %s zu %s"
      [.s (log_level_zu_string altes_level),
       .s (log_level_zu_string L1.aktuelle_log_stufe)] L1

/-- The function `log_level_abfragen`. -/
def log_level_abfragen (L : LogZustand) : Int := L.aktuelle_log_stufe

/-- What a poll of the button file finds: `fopen` fails, `fscanf` converts
nothing, or a number is read. -/
inductive TasterDatei where
  | fehlt : TasterDatei
  | unlesbar : TasterDatei
  | wert (taster_zustand : Int) : TasterDatei
deriving DecidableEq

/-- The logger's globals with the debounce variable `letzter_taster_zustand`;
`geschrieben` lists the texts written to files (path, content). -/
structure TasterZustand where
  log : LogZustand
  letzter_taster_zustand : Int
  geschrieben : List (String × String)
deriving DecidableEq

/-- The function `taster_pruefen_und_log_level_erhoehen`. `schreibbar` says
whether `fopen(BUTTON_FILE, "w")` succeeds; `%` is the C remainder. -/
def taster_pruefen_und_log_level_erhoehen (datei : TasterDatei) (schreibbar : Bool)
    (T : TasterZustand) : TasterZustand :=
  match datei with
  | .fehlt =>
    if schreibbar then { T with geschrieben := T.geschrieben ++ [(BUTTON_FILE, "0\n")] }
    else T
  | .unlesbar => T
  | .wert taster_zustand =>
    let T1 :=
      if taster_zustand = 1 ∧ T.letzter_taster_zustand = 0 then
        let neues_level := Int.tmod (T.log.aktuelle_log_stufe + 1) 4
        let T0 := { T with log := log_level_setzen neues_level T.log }
        if schreibbar then { T0 with geschrieben := T0.geschrieben ++ [(BUTTON_FILE, "0\n")] }
        else T0
      else T
    { T1 with letzter_taster_zustand := taster_zustand }

/-! ## sensor.c -/

/-- The function `tuer_offen_dauer_berechnen`. -/
def tuer_offen_dauer_berechnen (offen_seit : Int) (jetzt : Int) : Int :=
  if offen_seit = 0 then 0 else long_sub jetzt offen_seit

/-- The function `sensor_werte_validieren`. -/
def sensor_werte_validieren (daten : SensorDaten) (L : LogZustand) : Int × LogZustand :=
  if CFloat.lt daten.temperatur (.fin (-50)) || CFloat.gt daten.temperatur (.fin 50) then
    (0, log_formatiert LOG_WARNING
      "Temperatur außerhalb des gültigen Bereichs: %.2f°C" [.f daten.temperatur] L)
  else if daten.tuer_offen ≠ 0 ∧ daten.tuer_offen ≠ 1 then
    (0, log_formatiert LOG_WARNING "Ungültiger Tür-Status: %d" [.d daten.tuer_offen] L)
  else if CFloat.lt daten.energie_verbrauch (.fin 0)
      || CFloat.gt daten.energie_verbrauch (.fin 1000) then
    (0, log_formatiert LOG_WARNING
      "Energieverbrauch außerhalb des gültigen Bereichs: %.2fW"
      [.f daten.energie_verbrauch] L)
  else
    (1, L)

/-- The function `sensor_alarme_pruefen`. -/
def sensor_alarme_pruefen (daten : SensorDaten) (jetzt : Int) (L : LogZustand) :
    Int × LogZustand :=
  let probleme : Int := 0
  -- Temperatur zu hoch
  let (probleme, L) :=
    if CFloat.gt daten.temperatur MAX_TEMP_THRESHOLD then
      (probleme + 1, log_formatiert LOG_WARNING
        "ALARM: Temperatur zu hoch! %.2f°C (Max: %.2f°C)"
        [.f daten.temperatur, .f MAX_TEMP_THRESHOLD] L)
    else (probleme, L)
  -- Temperatur zu niedrig
  let (probleme, L) :=
    if CFloat.lt daten.temperatur MIN_TEMP_THRESHOLD then
      (probleme + 1, log_formatiert LOG_WARNING
        "ALARM: Temperatur zu niedrig! %.2f°C (Min: %.2f°C)"
        [.f daten.temperatur, .f MIN_TEMP_THRESHOLD] L)
    else (probleme, L)
  -- Tür zu lange offen
  let (probleme, L) :=
    if daten.tuer_offen ≠ 0 then
      let offen_dauer := tuer_offen_dauer_berechnen daten.tuer_offen_seit jetzt
      if offen_dauer > DOOR_OPEN_THRESHOLD then
        (probleme + 1, log_formatiert LOG_WARNING
          "ALARM: Tür zu lange offen! %ld Sekunden (Max: %d)"
          [.d offen_dauer, .d DOOR_OPEN_THRESHOLD] L)
      else (probleme, L)
    else (probleme, L)
  -- Energieverbrauch zu hoch
  let (probleme, L) :=
    if CFloat.gt daten.energie_verbrauch MAX_ENERGY_THRESHOLD then
      (probleme + 1, log_formatiert LOG_WARNING
        "ALARM: Energieverbrauch zu hoch! %.2fW (Max: %.2fW)"
        [.f daten.energie_verbrauch, .f MAX_ENERGY_THRESHOLD] L)
    else (probleme, L)
  (probleme, L)

/-- What a read of the door file finds: nothing usable, only the first
number, or both numbers. -/
inductive TuerDatei where
  | fehlt : TuerDatei
  | teilweise (tuer_offen : Int) : TuerDatei
  | voll (tuer_offen : Int) (offen_seit : Int) : TuerDatei
deriving DecidableEq

/-- The sensor files as one poll finds them. For the two float files `none`
stands for a failed `fopen` or a `fscanf` that converted nothing; `stat` gives
the `st_mtime` of a path, or `none` when `stat` fails. -/
structure Quellen where
  stat : String → Option Int
  temperatur : Option CFloat
  tuer : TuerDatei
  energie : Option CFloat

/-- The struct `DateiInfo`. -/
structure DateiInfo where
  letzte_aenderung : Int
  datei_existiert : Int
deriving DecidableEq

def TEMP_DATEI_INDEX : Fin 4 := 0
def TUER_DATEI_INDEX : Fin 4 := 1
def ENERGIE_DATEI_INDEX : Fin 4 := 2
def TASTER_DATEI_INDEX : Fin 4 := 3

/-- The function `datei_wurde_geaendert`, acting on the global array
`datei_infos`. -/
def datei_wurde_geaendert (Q : Quellen) (dateiname : String) (datei_index : Fin 4)
    (datei_infos : Fin 4 → DateiInfo) (L : LogZustand) :
    Int × (Fin 4 → DateiInfo) × LogZustand :=
  match Q.stat dateiname with
  | none =>
    if (datei_infos datei_index).datei_existiert ≠ 0 then
      (1, Function.update datei_infos datei_index
            { datei_infos datei_index with datei_existiert := 0 },
        log_formatiert LOG_WARNING "Datei %s ist verschwunden" [.s dateiname] L)
    else (0, datei_infos, L)
  | some st_mtime =>
    if (datei_infos datei_index).datei_existiert = 0 then
      (1, Function.update datei_infos datei_index
            { letzte_aenderung := st_mtime, datei_existiert := 1 },
        log_formatiert LOG_INFO "Datei %s wurde erstellt" [.s dateiname] L)
    else if st_mtime ≠ (datei_infos datei_index).letzte_aenderung then
      (1, Function.update datei_infos datei_index
            { datei_infos datei_index with letzte_aenderung := st_mtime },
        log_formatiert LOG_DEBUG "Datei %s wurde geändert" [.s dateiname] L)
    else (0, datei_infos, L)

/-- The function `temperatur_lesen`: success flag and the content of
`*temperatur` afterwards. -/
def temperatur_lesen (Q : Quellen) (temperatur : CFloat) : Int × CFloat :=
  match Q.temperatur with
  | none => (0, temperatur)
  | some t => (1, t)

/-- The function `tuer_status_lesen`: success flag and the contents of
`*tuer_offen` and `*offen_seit` afterwards. -/
def tuer_status_lesen (Q : Quellen) (tuer_offen : Int) (offen_seit : Int) :
    Int × Int × Int :=
  match Q.tuer with
  | .fehlt => (0, tuer_offen, offen_seit)
  | .teilweise o => (0, o, offen_seit)
  | .voll o t => (1, o, t)

/-- The function `energie_lesen`: success flag and the content of `*energie`
afterwards. -/
def energie_lesen (Q : Quellen) (energie : CFloat) : Int × CFloat :=
  match Q.energie with
  | none => (0, energie)
  | some e => (1, e)

/-- The function `sensor_werte_lesen`. The argument `daten` is the pointer:
`none` for NULL, otherwise what the struct holds on entry. Returns the struct
afterwards, the return value and the log. -/
def sensor_werte_lesen (Q : Quellen) (daten : Option SensorDaten) (L : LogZustand) :
    Option SensorDaten × Int × LogZustand :=
  match daten with
  | none => (none, 0, log_nachricht LOG_ERROR "Ungültiger Zeiger für Sensor-Daten" L)
  | some daten =>
    let erfolg : Int := 1
    -- Temperatur lesen
    let (ok, t) := temperatur_lesen Q daten.temperatur
    let daten := { daten with temperatur := t }
    let (daten, erfolg, L) :=
      if ok = 0 then
        ({ daten with temperatur := TARGET_TEMPERATURE }, (0 : Int),
          log_nachricht LOG_WARNING "Fehler beim Lesen der Temperatur" L)
      else (daten, erfolg, L)
    -- Tür-Status lesen
    let (ok, o, seit) := tuer_status_lesen Q daten.tuer_offen daten.tuer_offen_seit
    let daten := { daten with tuer_offen := o, tuer_offen_seit := seit }
    let (daten, erfolg, L) :=
      if ok = 0 then
        ({ daten with tuer_offen := 0, tuer_offen_seit := 0 }, (0 : Int),
          log_nachricht LOG_WARNING "Fehler beim Lesen des Tür-Status" L)
      else (daten, erfolg, L)
    -- Energieverbrauch lesen
    let (ok, e) := energie_lesen Q daten.energie_verbrauch
    let daten := { daten with energie_verbrauch := e }
    let (daten, erfolg, L) :=
      if ok = 0 then
        ({ daten with energie_verbrauch := TARGET_ENERGY }, (0 : Int),
          log_nachricht LOG_WARNING "Fehler beim Lesen des Energieverbrauchs" L)
      else (daten, erfolg, L)
    -- Daten validieren
    let (gut, L) := sensor_werte_validieren daten L
    let (erfolg, L) :=
      if gut = 0 then ((0 : Int), log_nachricht LOG_WARNING "Sensor-Werte sind nicht plausibel" L)
      else (erfolg, L)
    (some { daten with gueltig := erfolg }, erfolg, L)

/-- What stdlib.h and the float unit provide to the simulator: the constant
`RAND_MAX`, the conversion `(float) n` of an `int`, and the `float` operations
`+`, `-`, `*` and `/`, each rounded as the hardware rounds it. -/
structure Rechenwerk where
  RAND_MAX : Int
  int_zu_float : Int → CFloat
  float_add : CFloat → CFloat → CFloat
  float_sub : CFloat → CFloat → CFloat
  float_mul : CFloat → CFloat → CFloat
  float_div : CFloat → CFloat → CFloat

/-- The static variable `basis_temperatur`, which no function assigns. -/
def basis_temperatur : CFloat := .fin 4

/-- The function `zufaellige_sensor_werte_generieren`. The arguments `rand1`,
`rand2`, `rand3` are the results of its three calls of `rand()` in program
order and `jetzt` is that of `time(NULL)`; in `(float)rand() / RAND_MAX` the
`int` constant is converted to `float` before the division. Every field of
`*daten` is assigned, so the struct returned does not depend on what it held
before. -/
def zufaellige_sensor_werte_generieren (R : Rechenwerk) (rand1 rand2 rand3 : Int)
    (jetzt : Int) : SensorDaten :=
  -- Temperatur: Schwankung um Basis-Temperatur ±2°C
  let temp_schwankung := R.float_mul
    (R.float_sub (R.float_div (R.int_zu_float rand1) (R.int_zu_float R.RAND_MAX))
      (.fin (1 / 2)))
    (.fin 4)
  let temperatur := R.float_add basis_temperatur temp_schwankung
  -- Tür: 90% geschlossen, 10% offen
  let tuer_offen : Int := if Int.tmod rand2 10 = 0 then 1 else 0
  let tuer_offen_seit : Int := if tuer_offen ≠ 0 then jetzt else 0
  -- Energie: Basis-Verbrauch ±30W
  let energie_schwankung := R.float_mul
    (R.float_sub (R.float_div (R.int_zu_float rand3) (R.int_zu_float R.RAND_MAX))
      (.fin (1 / 2)))
    (.fin 60)
  let energie_verbrauch := R.float_add TARGET_ENERGY energie_schwankung
  -- Bei offener Tür höherer Energieverbrauch
  let energie_verbrauch :=
    if tuer_offen ≠ 0 then R.float_add energie_verbrauch (.fin 50) else energie_verbrauch
  ⟨temperatur, tuer_offen, energie_verbrauch, tuer_offen_seit, 1⟩

/-! ## display.h, display.c -/

/-- The struct `DisplayPuffer`; a line is the C string its buffer holds. -/
structure DisplayPuffer where
  zeile1 : List Char
  zeile2 : List Char
  aktualisiert : Int
  initialisiert : Int
deriving DecidableEq

def DISPLAY_DATEI : String := "Workspace/display.txt"

/-- What the display driver sends out: a console frame (`display_ausgeben`) or
the content of the display file (`display_in_datei_schreiben`). -/
inductive Ausgabe where
  | konsole (zeile1 zeile2 : List Char) : Ausgabe
  | datei (dateiname : String) (zeile1 zeile2 : List Char) (jetzt : Int) : Ausgabe
deriving DecidableEq

/-- What the C runtime provides to the firmware: text formatting and the
float subtraction. -/
structure Libc where
  /-- The text of `%.Nf` for precision `N`. -/
  printf_f : Nat → CFloat → List Char
  /-- The text of `%ld`. -/
  printf_ld : Int → List Char
  /-- The float operation `a - b`, rounded as the hardware rounds it. -/
  float_sub : CFloat → CFloat → CFloat

/-- What the operating system answers during one call: the clock and whether
the display file can be opened for writing. -/
structure Umgebung where
  jetzt : Int
  libc : Libc
  display_datei_schreibbar : Bool

/-- The display driver's globals together with the sinks it writes to. -/
structure Anzeige where
  display_puffer : DisplayPuffer
  ausgaben : List Ausgabe
  log : LogZustand
deriving DecidableEq

/-- The function `zeile_auffuellen`: blanks from the end of the string up to
column 40, terminator at index 40. -/
def zeile_auffuellen (zeile : List Char) : List Char :=
  (zeile ++ List.replicate (DISPLAY_COLS - zeile.length) ' ').take DISPLAY_COLS

/-- The function `text_zentrieren`. -/
def text_zentrieren (text : List Char) : List Char :=
  let text_laenge := text.length
  let padding := (DISPLAY_COLS - text_laenge) / 2
  if text_laenge ≤ DISPLAY_COLS then
    List.replicate padding ' ' ++ text
      ++ List.replicate (DISPLAY_COLS - padding - text_laenge) ' '
  else
    List.replicate DISPLAY_COLS ' '

/-- The function `log_level_zu_zeichen`. -/
def log_level_zu_zeichen (log_level : Int) : Char :=
  if log_level = LOG_DEBUG then '0'
  else if log_level = LOG_INFO then '1'
  else if log_level = LOG_WARNING then '2'
  else if log_level = LOG_ERROR then '3'
  else '?'

/-- The function `display_ausgeben`. -/
def display_ausgeben (A : Anzeige) : Anzeige :=
  { A with ausgaben := (A.ausgaben ++
      [.konsole A.display_puffer.zeile1 A.display_puffer.zeile2]) }

/-- The function `display_in_datei_schreiben`. -/
def display_in_datei_schreiben (U : Umgebung) (dateiname : String) (A : Anzeige) : Anzeige :=
  if !U.display_datei_schreibbar then
    { A with log := (log_formatiert LOG_WARNING
        "Konnte Display-Datei nicht schreiben: %s" [.s dateiname] A.log) }
  else
    { A with ausgaben := (A.ausgaben ++
        [.datei dateiname A.display_puffer.zeile1 A.display_puffer.zeile2 U.jetzt]) }

/-- The function `display_zeile1_formatieren` of display.c. The result is
`none` when `sprintf` writes past `temp_str[10]` or `energie_str[10]`, or the
assembled text does not fit the 41-byte line. -/
def display_zeile1_formatieren (C : Libc) (daten : SensorDaten) (log_level : Int) :
    Option (List Char) :=
  let log_char := log_level_zu_zeichen log_level
  let temp_str := C.printf_f 1 daten.temperatur
  let energie_str := C.printf_f 0 daten.energie_verbrauch
  if temp_str.length ≥ 10 ∨ energie_str.length ≥ 10 then none
  else
    let zeile := [log_char] ++ " T:".toList ++ temp_str ++ "C D:".toList
      ++ (if daten.tuer_offen ≠ 0 then "OFFEN" else "ZU").toList
      ++ " E:".toList ++ energie_str ++ "W".toList
    if zeile.length > DISPLAY_COLS then none else some (zeile_auffuellen zeile)

def TEXT_SENSOR_FEHLER : String := "SENSOR-FEHLER!"
def TEXT_TEMPERATUR_ZU_HOCH : String := "TEMPERATUR ZU HOCH!"
def TEXT_TEMPERATUR_ZU_NIEDRIG : String := "TEMPERATUR ZU NIEDRIG!"
def TEXT_TUER_ZU_LANGE_OFFEN : String := "TUER ZU LANGE OFFEN!"
def TEXT_TUER_IST_OFFEN : String := "Tuer ist offen"
def TEXT_ENERGIEVERBRAUCH_ZU_HOCH : String := "ENERGIEVERBRAUCH ZU HOCH!"
def TEXT_STATUS_OK : String := "Status: OK - Alle Werte normal"

/-- The function `display_zeile2_formatieren` of display.c. -/
def display_zeile2_formatieren (daten : SensorDaten) (jetzt : Int) : List Char :=
  let zeile :=
    if daten.gueltig = 0 then TEXT_SENSOR_FEHLER.toList
    else if CFloat.gt daten.temperatur MAX_TEMP_THRESHOLD then TEXT_TEMPERATUR_ZU_HOCH.toList
    else if CFloat.lt daten.temperatur MIN_TEMP_THRESHOLD then
      TEXT_TEMPERATUR_ZU_NIEDRIG.toList
    else if daten.tuer_offen ≠ 0 then
      let offen_dauer := long_sub jetzt daten.tuer_offen_seit
      if offen_dauer > DOOR_OPEN_THRESHOLD then TEXT_TUER_ZU_LANGE_OFFEN.toList
      else TEXT_TUER_IST_OFFEN.toList
    else if CFloat.gt daten.energie_verbrauch MAX_ENERGY_THRESHOLD then
      TEXT_ENERGIEVERBRAUCH_ZU_HOCH.toList
    else TEXT_STATUS_OK.toList
  zeile_auffuellen zeile

/-- The call `snprintf(zeile, DISPLAY_COLS + 1, ...)`: at most 40 characters
of the formatted text are stored. -/
def snprintf_zeile (text : List Char) : List Char := text.take DISPLAY_COLS

/-- The status texts of display_broken3.c, before `snprintf` cuts them. -/
def TEXT3_SENSOR_FEHLER : String := "SENSOR-FEHLER! Daten ungueltig         "
def TEXT3_STATUS_OK : String := "Status: OK - Alle Werte normal         "

def text3_temp_hoch (C : Libc) (temperatur : CFloat) : List Char :=
  "TEMP HOCH! ".toList ++ C.printf_f 1 temperatur ++ "C > ".toList
    ++ C.printf_f 1 MAX_TEMP_THRESHOLD ++ "C               ".toList

def text3_temp_niedrig (C : Libc) (temperatur : CFloat) : List Char :=
  "TEMP NIEDRIG! ".toList ++ C.printf_f 1 temperatur ++ "C < ".toList
    ++ C.printf_f 1 MIN_TEMP_THRESHOLD ++ "C            ".toList

def text3_tuer_zu_lange (C : Libc) (offen_dauer : Int) : List Char :=
  "TUER ZU LANGE OFFEN! ".toList ++ C.printf_ld offen_dauer ++ "s              ".toList

def text3_tuer_offen (C : Libc) (offen_dauer : Int) : List Char :=
  "Tuer offen ".toList ++ C.printf_ld offen_dauer ++ "s                        ".toList

def text3_energie_hoch (C : Libc) (energie : CFloat) : List Char :=
  "ENERGIE HOCH! ".toList ++ C.printf_f 0 energie ++ "W > ".toList
    ++ C.printf_f 0 MAX_ENERGY_THRESHOLD ++ "W             ".toList

/-- The function `display_zeile2_formatieren` of display_broken3.c, whose
texts carry the measured values. -/
def display_zeile2_formatieren_broken3 (C : Libc) (daten : SensorDaten) (jetzt : Int) :
    List Char :=
  let zeile :=
    if daten.gueltig = 0 then TEXT3_SENSOR_FEHLER.toList.take DISPLAY_COLS
    else if CFloat.gt daten.temperatur MAX_TEMP_THRESHOLD then
      snprintf_zeile (text3_temp_hoch C daten.temperatur)
    else if CFloat.lt daten.temperatur MIN_TEMP_THRESHOLD then
      snprintf_zeile (text3_temp_niedrig C daten.temperatur)
    else if daten.tuer_offen ≠ 0 then
      let offen_dauer := long_sub jetzt daten.tuer_offen_seit
      if offen_dauer > DOOR_OPEN_THRESHOLD then
        snprintf_zeile (text3_tuer_zu_lange C offen_dauer)
      else
        snprintf_zeile (text3_tuer_offen C offen_dauer)
    else if CFloat.gt daten.energie_verbrauch MAX_ENERGY_THRESHOLD then
      snprintf_zeile (text3_energie_hoch C daten.energie_verbrauch)
    else
      snprintf_zeile TEXT3_STATUS_OK.toList
  zeile_auffuellen (zeile.take DISPLAY_COLS)

/-- The function `display_aktualisieren`; the pointer `daten` may be NULL
(`none`). The result is `none` when formatting line 1 overruns a buffer. -/
def display_aktualisieren (U : Umgebung) (daten : Option SensorDaten) (log_level : Int)
    (A : Anzeige) : Option Anzeige :=
  if A.display_puffer.initialisiert = 0 then
    some { A with log := log_nachricht LOG_WARNING "Display nicht initialisiert!" A.log }
  else
    match daten with
    | none =>
      some { A with log :=
        (log_nachricht LOG_ERROR "Ungültige Sensor-Daten für Display-Update" A.log) }
    | some daten =>
      match display_zeile1_formatieren U.libc daten log_level with
      | none => none
      | some neue_zeile1 =>
        let neue_zeile2 := display_zeile2_formatieren daten U.jetzt
        if A.display_puffer.zeile1 ≠ neue_zeile1 ∨ A.display_puffer.zeile2 ≠ neue_zeile2 then
          let A1 := { A with display_puffer :=
            { A.display_puffer with
              zeile1 := neue_zeile1, zeile2 := neue_zeile2, aktualisiert := 1 } }
          let A2 := display_ausgeben A1
          let A3 := display_in_datei_schreiben U DISPLAY_DATEI A2
          some { A3 with log := log_nachricht LOG_DEBUG "Display aktualisiert" A3.log }
        else some A

/-- The function `display_fehler_anzeigen`; the pointer `fehler_text` may be
NULL (`none`). -/
def display_fehler_anzeigen (U : Umgebung) (fehler_text : Option String) (A : Anzeige) :
    Anzeige :=
  match fehler_text with
  | none => A
  | some fehler_text =>
    let zeile1 := "FEHLER: ".toList ++ fehler_text.toList.take (DISPLAY_COLS - 8)
    let zeile2 := "System pruefen!".toList
    let A1 := { A with display_puffer :=
      { A.display_puffer with
        zeile1 := zeile_auffuellen zeile1, zeile2 := zeile_auffuellen zeile2,
        aktualisiert := 1 } }
    let A2 := display_ausgeben A1
    let A3 := display_in_datei_schreiben U DISPLAY_DATEI A2
    { A3 with log := (log_formatiert LOG_ERROR "Fehler auf Display angezeigt: %s"
        [.s fehler_text] A3.log) }

/-- The function `display_startbildschirm_anzeigen`. -/
def display_startbildschirm_anzeigen (U : Umgebung) (A : Anzeige) : Anzeige :=
  let A1 := { A with display_puffer :=
    { A.display_puffer with
      zeile1 := text_zentrieren "Smart Kuehlschrank v1.0".toList,
      zeile2 := text_zentrieren "System wird gestartet...".toList } }
  let A2 := display_ausgeben A1
  let A3 := display_in_datei_schreiben U DISPLAY_DATEI A2
  { A3 with log := log_nachricht LOG_INFO "Startbildschirm angezeigt" A3.log }

/-- The function `display_initialisieren`. -/
def display_initialisieren (U : Umgebung) (A : Anzeige) : Anzeige :=
  let A0 := { A with log := log_nachricht LOG_INFO "Display-System wird initialisiert..." A.log }
  let A1 := { A0 with display_puffer := ⟨[], [], 0, 0⟩ }
  let A2 := display_startbildschirm_anzeigen U A1
  let A3 := { A2 with display_puffer :=
    { A2.display_puffer with initialisiert := 1, aktualisiert := 1 } }
  let A4 := display_ausgeben A3
  { A4 with log := log_nachricht LOG_INFO "Display-System erfolgreich initialisiert" A4.log }

/-- The macro `LEER_ZEILE`: 40 blanks. -/
def LEER_ZEILE : String := "                                        "

/-- The function `display_warnung_anzeigen` of display.c; the pointer
`warnung_text` may be NULL (`none`). `strncpy` stores the prefix and fills the
first 40 bytes with NUL, `strncat` appends at most `DISPLAY_COLS - 9`
characters. -/
def display_warnung_anzeigen (U : Umgebung) (warnung_text : Option String) (A : Anzeige) :
    Anzeige :=
  match warnung_text with
  | none => A
  | some warnung_text =>
    let zeile2 := "WARNUNG: ".toList.take DISPLAY_COLS
      ++ warnung_text.toList.take (DISPLAY_COLS - 9)
    let A1 := { A with display_puffer :=
      { A.display_puffer with zeile2 := zeile_auffuellen zeile2, aktualisiert := 1 } }
    let A2 := display_ausgeben A1
    let A3 := display_in_datei_schreiben U DISPLAY_DATEI A2
    { A3 with log := (log_formatiert LOG_DEBUG "Warnung auf Display angezeigt: %s"
        [.s warnung_text] A3.log) }

/-- The function `display_loeschen`. -/
def display_loeschen (A : Anzeige) : Anzeige :=
  let A1 := { A with display_puffer :=
    { A.display_puffer with
      zeile1 := LEER_ZEILE.toList, zeile2 := LEER_ZEILE.toList, aktualisiert := 1 } }
  let A2 := display_ausgeben A1
  { A2 with log := log_nachricht LOG_DEBUG "Display gelöscht" A2.log }

/-- The function `display_systeminfo_anzeigen` of display.c: two `strcpy` of
string literals, no call of `zeile_auffuellen`. -/
def display_systeminfo_anzeigen (U : Umgebung) (A : Anzeige) : Anzeige :=
  let A1 := { A with display_puffer :=
    { A.display_puffer with
      zeile1 := "Soll: 4.0C | Max: 8.0C | Min: -2.0C     ".toList,
      zeile2 := "Energie Soll: 120W | Max: 200W         ".toList } }
  let A2 := display_ausgeben A1
  display_in_datei_schreiben U DISPLAY_DATEI A2

/-- The function `display_systeminfo_anzeigen` of display_broken3.c: both
lines are formatted with `snprintf` and then padded by `zeile_auffuellen`. -/
def display_systeminfo_anzeigen_broken3 (U : Umgebung) (A : Anzeige) : Anzeige :=
  let zeile1 := snprintf_zeile ("Soll: ".toList ++ U.libc.printf_f 1 TARGET_TEMPERATURE
    ++ "C | Max: ".toList ++ U.libc.printf_f 1 MAX_TEMP_THRESHOLD
    ++ "C | Min: ".toList ++ U.libc.printf_f 1 MIN_TEMP_THRESHOLD ++ "C".toList)
  let zeile2 := snprintf_zeile ("Energie Soll: ".toList ++ U.libc.printf_f 0 TARGET_ENERGY
    ++ "W | Max: ".toList ++ U.libc.printf_f 0 MAX_ENERGY_THRESHOLD ++ "W".toList)
  let A1 := { A with display_puffer :=
    { A.display_puffer with
      zeile1 := zeile_auffuellen zeile1, zeile2 := zeile_auffuellen zeile2 } }
  let A2 := display_ausgeben A1
  display_in_datei_schreiben U DISPLAY_DATEI A2

/-- The function `display_beenden`. -/
def display_beenden (U : Umgebung) (A : Anzeige) : Anzeige :=
  let A1 := { A with display_puffer :=
    { A.display_puffer with
      zeile1 := text_zentrieren "System wird beendet...".toList,
      zeile2 := text_zentrieren "Auf Wiedersehen!".toList } }
  let A2 := display_ausgeben A1
  let A3 := display_in_datei_schreiben U DISPLAY_DATEI A2
  { A3 with log := log_nachricht LOG_INFO "Display-System beendet" A3.log }

/-- Rounding of the fraction `z / n` to the nearest natural number, ties to
the even neighbour. -/
def runde_halb_gerade (z n : Nat) : Nat :=
  let f := z / n
  let r := z % n
  if 2 * r < n then f
  else if 2 * r > n then f + 1
  else if f % 2 = 0 then f else f + 1

/-- The decimal text of a finite number at `stellen` decimals. -/
def dezimal_text (stellen : Nat) (q : ℚ) : List Char :=
  let n := runde_halb_gerade (q.num.natAbs * 10 ^ stellen) q.den
  let ganz := Nat.toDigits 10 (n / 10 ^ stellen)
  let bruch := Nat.toDigits 10 (n % 10 ^ stellen)
  let kopf := if q.num < 0 then '-' :: ganz else ganz
  if stellen = 0 then kopf
  else kopf ++ '.' :: (List.replicate (stellen - bruch.length) '0' ++ bruch)

/-- A model of the C library's `%.Nf` and `%ld` on the values of `CFloat`. -/
def libc_modell : Libc where
  printf_f := fun stellen x =>
    match x with
    | .nan => "nan".toList
    | .negInf => "-inf".toList
    | .posInf => "inf".toList
    | .fin q => dezimal_text stellen q
  printf_ld := fun n =>
    if n < 0 then '-' :: Nat.toDigits 10 n.natAbs else Nat.toDigits 10 n.natAbs
  float_sub := fun a b =>
    match a, b with
    | .nan, _ => .nan
    | _, .nan => .nan
    | .fin x, .fin y => .fin (x - y)
    | .posInf, .posInf => .nan
    | .negInf, .negInf => .nan
    | .posInf, _ => .posInf
    | .negInf, _ => .negInf
    | .fin _, .posInf => .negInf
    | .fin _, .negInf => .posInf

/-! ## smart_fridge.c -/

/-- The globals of the program: the display driver with the log, the
remembered sample, the file tracker, the debounce variable, the files written
and the run flag. -/
structure System where
  anzeige : Anzeige
  aktuelle_sensordaten : SensorDaten
  datei_infos : Fin 4 → DateiInfo
  letzter_taster_zustand : Int
  geschrieben : List (String × String)
  programm_laeuft : Int

/-- What one sensor tick meets: the environment, the sensor files, the
content of the uninitialised local `neue_daten`, and whether those bytes of
the two structs that the field values do not determine (padding, sign of a
zero, NaN payload) compare equal. All calls of `time(NULL)` within the tick
see `umgebung.jetzt`. -/
structure Abfrage where
  umgebung : Umgebung
  quellen : Quellen
  stapel : SensorDaten
  restbytes_gleich : Bool

/-- The test `memcmp(&aktuelle_sensordaten, &neue_daten, sizeof(SensorDaten)) != 0`. -/
def memcmp_ungleich (E : Abfrage) (aktuelle neue : SensorDaten) : Bool :=
  decide (aktuelle ≠ neue) || !E.restbytes_gleich

/-- The log calls of the change branch of `sensor_daten_verarbeiten`, from
"Sensor-Daten aktualisiert" to the energy line; `alt` is
`aktuelle_sensordaten`, `neue_daten` the fresh sample. -/
def aenderung_protokollieren (C : Libc) (alt neue_daten : SensorDaten) (L : LogZustand) :
    LogZustand :=
  let L := log_nachricht LOG_DEBUG "Sensor-Daten aktualisiert" L
  -- Temperatur-Änderung loggen
  let L :=
    if CFloat.ne alt.temperatur neue_daten.temperatur then
      log_formatiert LOG_INFO "Temperatur geändert: %.2f°C -> %.2f°C"
        [.f alt.temperatur, .f neue_daten.temperatur] L
    else L
  -- Tür-Status-Änderung loggen
  let L :=
    if alt.tuer_offen ≠ neue_daten.tuer_offen then
      log_formatiert LOG_INFO "Tür-Status geändert: %s -> %s"
        [.s (if alt.tuer_offen ≠ 0 then "offen" else "geschlossen"),
         .s (if neue_daten.tuer_offen ≠ 0 then "offen" else "geschlossen")] L
    else L
  -- Energie-Änderung loggen (nur bei größeren Änderungen)
  let energie_diff := C.float_sub neue_daten.energie_verbrauch alt.energie_verbrauch
  if CFloat.gt energie_diff (.fin 10) || CFloat.lt energie_diff (.fin (-10)) then
    log_formatiert LOG_INFO "Energieverbrauch geändert: %.1fW -> %.1fW (Δ%.1fW)"
      [.f alt.energie_verbrauch, .f neue_daten.energie_verbrauch, .f energie_diff] L
  else L

/-- The function `sensor_daten_verarbeiten`. The result is `none` when the
display refresh overruns a buffer. -/
def sensor_daten_verarbeiten (E : Abfrage) (S : System) : Option System :=
  let Q := E.quellen
  let U := E.umgebung
  -- Prüfen ob sich Sensor-Dateien geändert haben
  let aenderungen : Int := 0
  let (g, infos, L) :=
    datei_wurde_geaendert Q TEMPERATURE_FILE TEMP_DATEI_INDEX S.datei_infos S.anzeige.log
  let aenderungen := aenderungen + g
  let (g, infos, L) := datei_wurde_geaendert Q DOOR_FILE TUER_DATEI_INDEX infos L
  let aenderungen := aenderungen + g
  let (g, infos, L) := datei_wurde_geaendert Q ENERGY_FILE ENERGIE_DATEI_INDEX infos L
  let aenderungen := aenderungen + g
  -- Sensor-Werte lesen
  let (daten, ok, L) := sensor_werte_lesen Q (some E.stapel) L
  let neue_daten := daten.getD E.stapel
  if ok ≠ 0 then
    let alt := S.aktuelle_sensordaten
    let (aktuelle, L) :=
      if memcmp_ungleich E alt neue_daten = true ∨ aenderungen > 0 then
        (neue_daten, aenderung_protokollieren U.libc alt neue_daten L)
      else (alt, L)
    -- Alarme prüfen
    let (probleme, L) := sensor_alarme_pruefen neue_daten U.jetzt L
    let L :=
      if probleme > 0 then
        log_formatiert LOG_WARNING "Sensor-Alarme erkannt: %d Problem(e)" [.d probleme] L
      else L
    -- Display aktualisieren
    match display_aktualisieren U (some neue_daten) (log_level_abfragen L)
        { S.anzeige with log := L } with
    | none => none
    | some A =>
      some { S with anzeige := A, aktuelle_sensordaten := aktuelle, datei_infos := infos }
  else
    let L := log_nachricht LOG_ERROR "Fehler beim Lesen der Sensor-Daten" L
    let A := display_fehler_anzeigen U (some "Sensor-Lesefehler") { S.anzeige with log := L }
    some { S with anzeige := A, datei_infos := infos }

/-- The signal numbers `SIGINT` and `SIGTERM` of signal.h, with their values
on Linux. -/
def SIGINT : Int := 2
def SIGTERM : Int := 15

/-- The function `signal_handler`. -/
def signal_handler (signal : Int) (S : System) : System :=
  let L :=
    if signal = SIGINT then
      log_nachricht LOG_INFO "SIGINT empfangen - Programm wird beendet" S.anzeige.log
    else if signal = SIGTERM then
      log_nachricht LOG_INFO "SIGTERM empfangen - Programm wird beendet" S.anzeige.log
    else
      log_formatiert LOG_WARNING "Unbekanntes Signal empfangen: %d" [.d signal] S.anzeige.log
  { S with anzeige := { S.anzeige with log := L }, programm_laeuft := 0 }

/-- What one button tick meets: the environment up to the `sleep(2)`, what the
poll of the button file finds and whether that file can be rewritten, and the
environment after the pause. -/
structure TasterAbfrage where
  umgebung : Umgebung
  taster : TasterDatei
  taster_schreibbar : Bool
  nach_pause : Umgebung

/-- The call `snprintf(meldung, sizeof(meldung), "Log-Level: %s", name)` into
`char meldung[40]`: at most 39 characters are stored. -/
def meldung_formatieren (name : String) : String :=
  String.mk (("Log-Level: ".toList ++ name.toList).take 39)

/-- The function `taster_verarbeiten`. The result is `none` when a display
refresh overruns a buffer. -/
def taster_verarbeiten (E : TasterAbfrage) (S : System) : Option System :=
  let altes_level := log_level_abfragen S.anzeige.log
  -- Taster prüfen und Log-Level ggf. erhöhen
  let T := taster_pruefen_und_log_level_erhoehen E.taster E.taster_schreibbar
    ⟨S.anzeige.log, S.letzter_taster_zustand, S.geschrieben⟩
  let S := { S with
    anzeige := { S.anzeige with log := T.log },
    letzter_taster_zustand := T.letzter_taster_zustand,
    geschrieben := T.geschrieben }
  let neues_level := log_level_abfragen S.anzeige.log
  -- Bei Änderung Display aktualisieren
  if altes_level ≠ neues_level then
    let L := log_formatiert LOG_INFO "Log-Level durch Taster geändert: %d -> %d"
      [.d altes_level, .d neues_level] S.anzeige.log
    match display_aktualisieren E.umgebung (some S.aktuelle_sensordaten) neues_level
        { S.anzeige with log := L } with
    | none => none
    | some A =>
      -- Kurze Bestätigung auf Display
      let meldung := meldung_formatieren (log_level_zu_string neues_level)
      let A := display_warnung_anzeigen E.umgebung (some meldung) A
      -- Nach 2 Sekunden normales Display wiederherstellen
      match display_aktualisieren E.nach_pause (some S.aktuelle_sensordaten) neues_level A with
      | none => none
      | some A => some { S with anzeige := A }
  else some S


/-! ## Vocabulary of the statements -/

/-- Membership of a float in the closed interval `[lo, hi]`, with the C
comparisons: `lo <= x && x <= hi`. -/
def im_bereich (x : CFloat) (lo hi : ℚ) : Bool :=
  CFloat.le (.fin lo) x && CFloat.le x (.fin hi)

/-- The text that display_broken3.c stores for a status text `t`. -/
def zeile3 (t : List Char) : List Char :=
  zeile_auffuellen ((snprintf_zeile t).take DISPLAY_COLS)

/-- None of the three sub-reads of `sensor_werte_lesen` failed: each of
`temperatur_lesen`, `tuer_status_lesen` and `energie_lesen` returned nonzero. -/
def kein_lesefehler (Q : Quellen) (alt : SensorDaten) : Prop :=
  (temperatur_lesen Q alt.temperatur).1 ≠ 0
  ∧ (tuer_status_lesen Q alt.tuer_offen alt.tuer_offen_seit).1 ≠ 0
  ∧ (energie_lesen Q alt.energie_verbrauch).1 ≠ 0

/-- An environment for concrete runs: clock at 100, display file writable. -/
def bsp_umgebung : Umgebung := ⟨100, libc_modell, true⟩

/-- A valid sample with a temperature of 9.0 degrees, door closed, 120 W. -/
def bsp_daten : SensorDaten := ⟨.fin 9, 0, .fin 120, 0, 1⟩

/-- An initialised display that already shows the status of `bsp_daten` at
level 1, as it does after one earlier refresh. -/
def bsp_anzeige : Anzeige :=
  ⟨⟨"1 T:9.0C D:ZU E:120W                    ".toList,
    "TEMPERATUR ZU HOCH!                     ".toList, 1, 1⟩, [], ⟨1, [], []⟩⟩

/-- The display right after `display_initialisieren` on a zeroed buffer. -/
def bsp_startanzeige : Anzeige :=
  display_initialisieren bsp_umgebung ⟨⟨[], [], 0, 0⟩, [], ⟨1, [], []⟩⟩

/-- The state after a sequence of polls, each a number read together with
whether the button file can be rewritten. -/
def taster_abfragen : TasterZustand → List (Int × Bool) → TasterZustand
  | T, [] => T
  | T, (v, w) :: rest =>
    taster_abfragen (taster_pruefen_und_log_level_erhoehen (.wert v) w T) rest

/-- The positions, counted from `pos`, of the polls at which the code bumped
the log level. -/
def taster_ereignisse : TasterZustand → Nat → List (Int × Bool) → List Nat
  | _, _, [] => []
  | T, pos, (v, w) :: rest =>
    (if (taster_pruefen_und_log_level_erhoehen (.wert v) w T).log.aktuelle_log_stufe
          ≠ T.log.aktuelle_log_stufe then [pos] else [])
      ++ taster_ereignisse (taster_pruefen_und_log_level_erhoehen (.wert v) w T) (pos + 1) rest

/-- The positions, counted from `pos`, at which a sequence of raw values has a
1 that follows a 0, `prev` being the value before the first one. -/
def steigende_flanken : Int → Nat → List Int → List Nat
  | _, _, [] => []
  | prev, pos, v :: rest =>
    (if v = 1 ∧ prev = 0 then [pos] else []) ++ steigende_flanken v (pos + 1) rest

/-- The last value of a sequence of raw values, `prev` when it is empty. -/
def letzter_wert : Int → List Int → Int
  | prev, [] => prev
  | _, v :: rest => letzter_wert v rest

/-- The level reached from `l` by moving to the cyclic successor at every 1
that follows a 0 in a sequence of raw values. -/
def stufe_nach : Int → Int → List Int → Int
  | l, _, [] => l
  | l, prev, v :: rest =>
    stufe_nach (if v = 1 ∧ prev = 0 then (l + 1) % 4 else l) v rest

/-- The log call that marks the change branch of `sensor_daten_verarbeiten`. -/
def e_aktualisiert : LogEintrag := ⟨LOG_DEBUG, "Sensor-Daten aktualisiert", []⟩

/-- A step of the logger that keeps the level and makes no call with the text
of `e_aktualisiert`. -/
def ruhig (L L1 : LogZustand) : Prop :=
  L1.aktuelle_log_stufe = L.aktuelle_log_stufe
  ∧ L1.aufrufe.count e_aktualisiert = L.aufrufe.count e_aktualisiert

/-- The verdict of `sensor_werte_validieren` as a function of the three
fields it inspects. -/
def plausibel (t : CFloat) (o : Int) (e : CFloat) : Int :=
  (sensor_werte_validieren ⟨t, o, e, 0, 0⟩ ⟨0, [], []⟩).1

/-- Sensor files for a concrete tick: every file present with marker 50,
temperature 9.0, door closed, 120 W. -/
def bsp_quellen : Quellen := ⟨fun _ => some 50, some (.fin 9), .voll 0 0, some (.fin 120)⟩

/-- A concrete tick over `bsp_quellen`; the padding bytes compare equal. -/
def bsp_abfrage : Abfrage := ⟨bsp_umgebung, bsp_quellen, ⟨.nan, 7, .nan, 7, 7⟩, true⟩

/-- Program state before the tick: start screen shown, remembered sample at
4.0 degrees, every file already tracked with marker 50. -/
def bsp_system : System :=
  ⟨bsp_startanzeige, ⟨.fin 4, 0, .fin 120, 0, 1⟩, fun _ => ⟨50, 1⟩, 0, [], 1⟩

/-- The NUL character. -/
def NUL : Char := Char.ofNat 0

/-- A display line as the data model wants it: exactly `DISPLAY_COLS`
characters, none of them NUL. -/
def zeile_gueltig (zeile : List Char) : Prop :=
  zeile.length = DISPLAY_COLS ∧ NUL ∉ zeile

/-- Both lines of the display buffer are as the data model wants them. -/
def puffer_gueltig (P : DisplayPuffer) : Prop :=
  zeile_gueltig P.zeile1 ∧ zeile_gueltig P.zeile2

/-- A C library whose formatted texts contain no NUL. -/
def libc_ohne_nul (C : Libc) : Prop :=
  (∀ n x, NUL ∉ C.printf_f n x) ∧ (∀ n, NUL ∉ C.printf_ld n)

/-- The three alarm conditions of `sensor_alarme_pruefen` that do not look at
the door, counted: temperature above 8.0, temperature below -2.0, energy
above 200.0. -/
def alarme_ohne_tuer (daten : SensorDaten) : Int :=
  (if CFloat.gt daten.temperatur (.fin 8) = true then 1 else 0)
  + (if CFloat.lt daten.temperatur (.fin (-2)) = true then 1 else 0)
  + (if CFloat.gt daten.energie_verbrauch (.fin 200) = true then 1 else 0)

/-- The door condition of `sensor_alarme_pruefen`, counted: door open and the
computed open duration above 30 seconds. -/
def alarm_tuer (daten : SensorDaten) (jetzt : Int) : Int :=
  if daten.tuer_offen ≠ 0
      ∧ tuer_offen_dauer_berechnen daten.tuer_offen_seit jetzt > 30 then 1 else 0

/-- A concrete button tick: the button file holds 1 and can be rewritten, the
clock stands at 100 before the pause and at 102 after it. -/
def bsp_taster_abfrage : TasterAbfrage :=
  ⟨bsp_umgebung, .wert 1, true, ⟨102, libc_modell, true⟩⟩

/-- A concrete tick in which the temperature file cannot be read; the door
file says closed, the energy file 120 W. -/
def bsp_abfrage_fehler : Abfrage :=
  ⟨bsp_umgebung, ⟨fun _ => some 50, none, .voll 0 0, some (.fin 120)⟩, ⟨.nan, 7, .nan, 7, 7⟩,
    true⟩

/-- One operation on the logger's globals: a call `log_level_setzen(n)` or a
poll of the button file, which finds the file missing, unreadable or holding
a number, and can rewrite it or not. -/
inductive LogAktion where
  | setzen (neues_level : Int) : LogAktion
  | abfrage (datei : TasterDatei) (schreibbar : Bool) : LogAktion

/-- The globals after one operation. -/
def aktion_ausfuehren (T : TasterZustand) : LogAktion → TasterZustand
  | .setzen neues_level => { T with log := log_level_setzen neues_level T.log }
  | .abfrage datei schreibbar => taster_pruefen_und_log_level_erhoehen datei schreibbar T

/-- The globals after a sequence of operations, carried out from left to
right. -/
def aktionen_ausfuehren (T : TasterZustand) (aktionen : List LogAktion) : TasterZustand :=
  aktionen.foldl aktion_ausfuehren T

/-- The globals of logging_broken.c as their initialisers leave them: level
`LOG_INFO`, previous button value 0, nothing written yet. -/
def logging_start : TasterZustand := ⟨⟨LOG_INFO, [], []⟩, 0, []⟩

/-- A float unit that rounds as IEEE 754 asks, as far as the simulator meets
it: `RAND_MAX` is a positive `int`, and there is a rounding `rd` of the exact
results, monotone and leaving 1/2, -1/2 and the integers of magnitude up to
200 as they are (all of them are `float` values), such that the conversion of
a non-negative `int` and each operation on finite operands whose exact result
has magnitude at most 2147483648 give the rounded exact result. -/
def ieee_gerundet (R : Rechenwerk) : Prop :=
  0 < R.RAND_MAX ∧ R.RAND_MAX ≤ 2147483647
  ∧ ∃ rd : ℚ → ℚ,
      (∀ a b : ℚ, a ≤ b → rd a ≤ rd b)
      ∧ rd (1 / 2) = 1 / 2 ∧ rd (-(1 / 2)) = -(1 / 2)
      ∧ (∀ n : Int, -200 ≤ n → n ≤ 200 → rd n = n)
      ∧ (∀ n : Int, 0 ≤ n → n ≤ 2147483647 → R.int_zu_float n = .fin (rd n))
      ∧ (∀ a b : ℚ, |a + b| ≤ 2147483648 →
          R.float_add (.fin a) (.fin b) = .fin (rd (a + b)))
      ∧ (∀ a b : ℚ, |a - b| ≤ 2147483648 →
          R.float_sub (.fin a) (.fin b) = .fin (rd (a - b)))
      ∧ (∀ a b : ℚ, |a * b| ≤ 2147483648 →
          R.float_mul (.fin a) (.fin b) = .fin (rd (a * b)))
      ∧ (∀ a b : ℚ, b ≠ 0 → |a / b| ≤ 2147483648 →
          R.float_div (.fin a) (.fin b) = .fin (rd (a / b)))

/-- A float unit without rounding error, for concrete runs: `RAND_MAX` as in
glibc, exact arithmetic on finite operands; operands that are not finite and
a division by zero, which the simulator does not meet, give NaN. -/
def rechenwerk_exakt : Rechenwerk where
  RAND_MAX := 2147483647
  int_zu_float := fun n => .fin n
  float_add := fun a b =>
    match a, b with
    | .fin x, .fin y => .fin (x + y)
    | _, _ => .nan
  float_sub := fun a b =>
    match a, b with
    | .fin x, .fin y => .fin (x - y)
    | _, _ => .nan
  float_mul := fun a b =>
    match a, b with
    | .fin x, .fin y => .fin (x * y)
    | _, _ => .nan
  float_div := fun a b =>
    match a, b with
    | .fin x, .fin y => if y = 0 then .nan else .fin (x / y)
    | _, _ => .nan

/-- Sensor files that do not change between ticks: every file present with
marker 50, temperature 4.0, door closed, 120 W. -/
def bsp_quellen_ruhe : Quellen :=
  ⟨fun _ => some 50, some (.fin 4), .voll 0 0, some (.fin 120)⟩

/-- Program state after an earlier tick over `bsp_quellen_ruhe` at level
Debug: the display shows the status of the sample, the sample is remembered,
every file is tracked with marker 50, the sinks are still empty. -/
def bsp_system_ruhe : System :=
  ⟨⟨⟨"0 T:4.0C D:ZU E:120W                    ".toList,
      "Status: OK - Alle Werte normal          ".toList, 1, 1⟩, [], ⟨0, [], []⟩⟩,
    ⟨.fin 4, 0, .fin 120, 0, 1⟩, fun _ => ⟨50, 1⟩, 0, [], 1⟩

/-- A tick over `bsp_quellen_ruhe`; `fuellbytes_gleich` says whether the
padding bytes of the local `neue_daten` (offsets 12 to 15 and 28 to 31 of the
struct on LP64) equal those of `aktuelle_sensordaten`. -/
def bsp_abfrage_ruhe (fuellbytes_gleich : Bool) : Abfrage :=
  ⟨bsp_umgebung, bsp_quellen_ruhe, ⟨.nan, 7, .nan, 7, 7⟩, fuellbytes_gleich⟩

/-! ## Theorems -/

/-- Without overflow the `long` subtraction is the subtraction of integers. -/
theorem long_sub_eq (a b : Int) (hlo : -(2 ^ 63) ≤ a - b) (hhi : a - b < 2 ^ 63) :
    long_sub a b = a - b := by
  unfold long_sub wrap_long
  omega

theorem im_bereich_iff (x : CFloat) (lo hi : ℚ) :
    im_bereich x lo hi = true ↔
      x ≠ .nan ∧ CFloat.lt x (.fin lo) = false ∧ CFloat.gt x (.fin hi) = false := by
  cases x <;> simp [im_bereich, CFloat.le, CFloat.lt, CFloat.gt]

/-- The return value of `sensor_werte_validieren` is 1 exactly when none of
its three rejecting tests fires, and 0 otherwise. -/
theorem sensor_werte_validieren_wert (daten : SensorDaten) (L : LogZustand) :
    ((sensor_werte_validieren daten L).1 = 1 ↔
      (CFloat.lt daten.temperatur (.fin (-50)) = false
        ∧ CFloat.gt daten.temperatur (.fin 50) = false)
      ∧ (daten.tuer_offen = 0 ∨ daten.tuer_offen = 1)
      ∧ (CFloat.lt daten.energie_verbrauch (.fin 0) = false
        ∧ CFloat.gt daten.energie_verbrauch (.fin 1000) = false))
    ∧ ((sensor_werte_validieren daten L).1 = 1 ∨ (sensor_werte_validieren daten L).1 = 0) := by
  unfold sensor_werte_validieren
  cases h1 : CFloat.lt daten.temperatur (.fin (-50)) <;>
  cases h2 : CFloat.gt daten.temperatur (.fin 50) <;>
  cases h3 : CFloat.lt daten.energie_verbrauch (.fin 0) <;>
  cases h4 : CFloat.gt daten.energie_verbrauch (.fin 1000) <;>
  by_cases h5 : daten.tuer_offen = 0 <;>
  by_cases h6 : daten.tuer_offen = 1 <;>
  simp [h5, h6]

/-- C1. `display_zeile2_formatieren` picks the status text by first match in
the order: invalid sample, temperature above 8.0, temperature below -2.0, door
open (too long when `jetzt - tuer_offen_seit` exceeds 30, plain otherwise),
energy above 200.0, and the OK text when nothing matched. The first part is
display.c, the second part display_broken3.c, whose texts embed the values. -/
theorem display_zeile2_formatieren_erste_passende (C : Libc) (daten : SensorDaten)
    (jetzt : Int) :
    ((daten.gueltig = 0 →
        display_zeile2_formatieren daten jetzt = zeile_auffuellen TEXT_SENSOR_FEHLER.toList)
      ∧ (daten.gueltig ≠ 0 → CFloat.gt daten.temperatur (.fin 8) = true →
        display_zeile2_formatieren daten jetzt
          = zeile_auffuellen TEXT_TEMPERATUR_ZU_HOCH.toList)
      ∧ (daten.gueltig ≠ 0 → CFloat.gt daten.temperatur (.fin 8) = false →
        CFloat.lt daten.temperatur (.fin (-2)) = true →
        display_zeile2_formatieren daten jetzt
          = zeile_auffuellen TEXT_TEMPERATUR_ZU_NIEDRIG.toList)
      ∧ (daten.gueltig ≠ 0 → CFloat.gt daten.temperatur (.fin 8) = false →
        CFloat.lt daten.temperatur (.fin (-2)) = false → daten.tuer_offen ≠ 0 →
        long_sub jetzt daten.tuer_offen_seit > 30 →
        display_zeile2_formatieren daten jetzt
          = zeile_auffuellen TEXT_TUER_ZU_LANGE_OFFEN.toList)
      ∧ (daten.gueltig ≠ 0 → CFloat.gt daten.temperatur (.fin 8) = false →
        CFloat.lt daten.temperatur (.fin (-2)) = false → daten.tuer_offen ≠ 0 →
        ¬ long_sub jetzt daten.tuer_offen_seit > 30 →
        display_zeile2_formatieren daten jetzt = zeile_auffuellen TEXT_TUER_IST_OFFEN.toList)
      ∧ (daten.gueltig ≠ 0 → CFloat.gt daten.temperatur (.fin 8) = false →
        CFloat.lt daten.temperatur (.fin (-2)) = false → daten.tuer_offen = 0 →
        CFloat.gt daten.energie_verbrauch (.fin 200) = true →
        display_zeile2_formatieren daten jetzt
          = zeile_auffuellen TEXT_ENERGIEVERBRAUCH_ZU_HOCH.toList)
      ∧ (daten.gueltig ≠ 0 → CFloat.gt daten.temperatur (.fin 8) = false →
        CFloat.lt daten.temperatur (.fin (-2)) = false → daten.tuer_offen = 0 →
        CFloat.gt daten.energie_verbrauch (.fin 200) = false →
        display_zeile2_formatieren daten jetzt = zeile_auffuellen TEXT_STATUS_OK.toList))
    ∧
    ((daten.gueltig = 0 →
        display_zeile2_formatieren_broken3 C daten jetzt = zeile3 TEXT3_SENSOR_FEHLER.toList)
      ∧ (daten.gueltig ≠ 0 → CFloat.gt daten.temperatur (.fin 8) = true →
        display_zeile2_formatieren_broken3 C daten jetzt
          = zeile3 (text3_temp_hoch C daten.temperatur))
      ∧ (daten.gueltig ≠ 0 → CFloat.gt daten.temperatur (.fin 8) = false →
        CFloat.lt daten.temperatur (.fin (-2)) = true →
        display_zeile2_formatieren_broken3 C daten jetzt
          = zeile3 (text3_temp_niedrig C daten.temperatur))
      ∧ (daten.gueltig ≠ 0 → CFloat.gt daten.temperatur (.fin 8) = false →
        CFloat.lt daten.temperatur (.fin (-2)) = false → daten.tuer_offen ≠ 0 →
        long_sub jetzt daten.tuer_offen_seit > 30 →
        display_zeile2_formatieren_broken3 C daten jetzt
          = zeile3 (text3_tuer_zu_lange C (long_sub jetzt daten.tuer_offen_seit)))
      ∧ (daten.gueltig ≠ 0 → CFloat.gt daten.temperatur (.fin 8) = false →
        CFloat.lt daten.temperatur (.fin (-2)) = false → daten.tuer_offen ≠ 0 →
        ¬ long_sub jetzt daten.tuer_offen_seit > 30 →
        display_zeile2_formatieren_broken3 C daten jetzt
          = zeile3 (text3_tuer_offen C (long_sub jetzt daten.tuer_offen_seit)))
      ∧ (daten.gueltig ≠ 0 → CFloat.gt daten.temperatur (.fin 8) = false →
        CFloat.lt daten.temperatur (.fin (-2)) = false → daten.tuer_offen = 0 →
        CFloat.gt daten.energie_verbrauch (.fin 200) = true →
        display_zeile2_formatieren_broken3 C daten jetzt
          = zeile3 (text3_energie_hoch C daten.energie_verbrauch))
      ∧ (daten.gueltig ≠ 0 → CFloat.gt daten.temperatur (.fin 8) = false →
        CFloat.lt daten.temperatur (.fin (-2)) = false → daten.tuer_offen = 0 →
        CFloat.gt daten.energie_verbrauch (.fin 200) = false →
        display_zeile2_formatieren_broken3 C daten jetzt = zeile3 TEXT3_STATUS_OK.toList)) := by
  refine ⟨?_, ?_⟩
  · unfold display_zeile2_formatieren MAX_TEMP_THRESHOLD MIN_TEMP_THRESHOLD
      MAX_ENERGY_THRESHOLD DOOR_OPEN_THRESHOLD
    refine ⟨?_, ?_, ?_, ?_, ?_, ?_, ?_⟩ <;> intros <;> simp_all [not_lt.mpr]
  · unfold display_zeile2_formatieren_broken3 zeile3 MAX_TEMP_THRESHOLD MIN_TEMP_THRESHOLD
      MAX_ENERGY_THRESHOLD DOOR_OPEN_THRESHOLD
    refine ⟨?_, ?_, ?_, ?_, ?_, ?_, ?_⟩ <;> intros <;>
      simp_all [not_lt.mpr, snprintf_zeile, List.take_take]

/-- C2. `sensor_alarme_pruefen` returns the number of the four alarm
conditions that hold, each tested on its own: temperature above 8.0,
temperature below -2.0, door open with an open duration above 30 seconds,
energy above 200.0. The open duration is the `long` difference
`jetzt - tuer_offen_seit`, and 0 when `tuer_offen_seit` is unset (0). -/
theorem sensor_alarme_pruefen_anzahl (daten : SensorDaten) (jetzt : Int) (L : LogZustand) :
    (sensor_alarme_pruefen daten jetzt L).1 =
      (if CFloat.gt daten.temperatur (.fin 8) = true then 1 else 0)
      + (if CFloat.lt daten.temperatur (.fin (-2)) = true then 1 else 0)
      + (if daten.tuer_offen ≠ 0
            ∧ (if daten.tuer_offen_seit = 0 then 0
                else long_sub jetzt daten.tuer_offen_seit) > 30 then 1 else 0)
      + (if CFloat.gt daten.energie_verbrauch (.fin 200) = true then 1 else 0) := by
  rw [show (if daten.tuer_offen_seit = 0 then (0 : Int)
        else long_sub jetzt daten.tuer_offen_seit)
      = tuer_offen_dauer_berechnen daten.tuer_offen_seit jetzt from rfl]
  unfold sensor_alarme_pruefen MAX_TEMP_THRESHOLD MIN_TEMP_THRESHOLD MAX_ENERGY_THRESHOLD
    DOOR_OPEN_THRESHOLD
  cases CFloat.gt daten.temperatur (.fin 8) <;>
  cases CFloat.lt daten.temperatur (.fin (-2)) <;>
  cases CFloat.gt daten.energie_verbrauch (.fin 200) <;>
  by_cases h1 : daten.tuer_offen = 0 <;>
  by_cases h2 : tuer_offen_dauer_berechnen daten.tuer_offen_seit jetzt > 30 <;>
  simp [h1, h2]

/-- C3, evaluated at the failing input: a sample whose temperature is NaN
passes `sensor_werte_validieren`, although NaN does not lie in `[-50, 50]`;
the same holds for a NaN energy value. -/
theorem sensor_werte_validieren_nimmt_nan_an (L : LogZustand) :
    (sensor_werte_validieren ⟨.nan, 0, .fin 120, 0, 0⟩ L).1 = 1
    ∧ im_bereich .nan (-50) 50 = false
    ∧ (sensor_werte_validieren ⟨.fin 4, 0, .nan, 0, 0⟩ L).1 = 1
    ∧ im_bereich .nan 0 1000 = false :=
  ⟨rfl, rfl, rfl, rfl⟩

theorem sensor_werte_validieren_bereich (t : CFloat) (o : Int) (e : CFloat) (seit g : Int)
    (L : LogZustand) (ht : im_bereich t (-50) 50 = true) (ho : o = 0 ∨ o = 1)
    (he : im_bereich e 0 1000 = true) :
    (sensor_werte_validieren ⟨t, o, e, seit, g⟩ L).1 = 1 := by
  rw [im_bereich_iff] at ht he
  exact ((sensor_werte_validieren_wert _ L).1).2 ⟨⟨ht.2.1, ht.2.2⟩, ho, ⟨he.2.1, he.2.2⟩⟩

theorem kein_lesefehler_iff (Q : Quellen) (alt : SensorDaten) :
    kein_lesefehler Q alt ↔
      (∃ t, Q.temperatur = some t) ∧ (∃ o seit, Q.tuer = .voll o seit)
        ∧ (∃ e, Q.energie = some e) := by
  unfold kein_lesefehler temperatur_lesen tuer_status_lesen energie_lesen
  cases Q.temperatur <;> cases Q.tuer <;> cases Q.energie <;> simp

/-- With a non-NULL pointer `sensor_werte_lesen` always hands back a sample,
and its return value is that sample's `gueltig` flag, which is 0 or 1. -/
theorem sensor_werte_lesen_total (Q : Quellen) (alt : SensorDaten) (L : LogZustand) :
    ∃ d, (sensor_werte_lesen Q (some alt) L).1 = some d
      ∧ (sensor_werte_lesen Q (some alt) L).2.1 = d.gueltig
      ∧ (d.gueltig = 0 ∨ d.gueltig = 1) := by
  unfold sensor_werte_lesen temperatur_lesen tuer_status_lesen energie_lesen
  cases Q.temperatur <;> cases Q.tuer <;> cases Q.energie <;> simp <;>
    split_ifs <;> simp

/-- C4. When the sample assembled by `sensor_werte_lesen` has its temperature
in `[-50, 50]`, its door flag in `{0, 1}` and its energy in `[0, 1000]`, the
`gueltig` flag, which is also the return value, is 1 exactly when none of the
three sub-reads failed, and 0 otherwise. -/
theorem sensor_werte_lesen_gueltig_gdw_kein_lesefehler (Q : Quellen) (alt d : SensorDaten)
    (L : LogZustand) (hd : (sensor_werte_lesen Q (some alt) L).1 = some d)
    (htemp : im_bereich d.temperatur (-50) 50 = true)
    (htuer : d.tuer_offen = 0 ∨ d.tuer_offen = 1)
    (henergie : im_bereich d.energie_verbrauch 0 1000 = true) :
    (d.gueltig = 1 ↔ kein_lesefehler Q alt)
    ∧ (d.gueltig = 0 ↔ ¬ kein_lesefehler Q alt)
    ∧ (sensor_werte_lesen Q (some alt) L).2.1 = d.gueltig := by
  rw [kein_lesefehler_iff]
  unfold sensor_werte_lesen temperatur_lesen tuer_status_lesen energie_lesen at hd ⊢
  cases hq1 : Q.temperatur <;> cases hq2 : Q.tuer <;> cases hq3 : Q.energie <;>
    simp [hq1, hq2, hq3] at hd ⊢ <;> subst hd <;> simp at htemp htuer henergie ⊢
  all_goals first
    | simp [sensor_werte_validieren_bereich _ _ _ _ _ _ htemp htuer henergie]
    | (split_ifs <;> simp)

/-- Witness for C4: three readable files with in-range values give a valid
sample; the hypotheses hold at this input. -/
theorem sensor_werte_lesen_gueltig_gdw_kein_lesefehler_witness :
    (sensor_werte_lesen ⟨fun _ => none, some (.fin 5), .voll 1 100, some (.fin 130)⟩
        (some ⟨.nan, 7, .nan, 7, 4⟩) ⟨1, [], []⟩).1 = some ⟨.fin 5, 1, .fin 130, 100, 1⟩
    ∧ kein_lesefehler ⟨fun _ => none, some (.fin 5), .voll 1 100, some (.fin 130)⟩
        ⟨.nan, 7, .nan, 7, 4⟩ :=
  ⟨rfl, ((sensor_werte_lesen_gueltig_gdw_kein_lesefehler
    ⟨fun _ => none, some (.fin 5), .voll 1 100, some (.fin 130)⟩ ⟨.nan, 7, .nan, 7, 4⟩
    ⟨.fin 5, 1, .fin 130, 100, 1⟩ ⟨1, [], []⟩ rfl (by decide) (by decide) (by decide)).1).1 rfl⟩

/-! ### Display refresh -/

theorem zeile_auffuellen_kopf (c : Char) (rest : List Char) :
    (zeile_auffuellen (c :: rest)).head? = some c := by
  simp [zeile_auffuellen, DISPLAY_COLS, List.take_succ_cons]

theorem log_level_zu_zeichen_kein_leerzeichen (log_level : Int) :
    log_level_zu_zeichen log_level ≠ ' ' := by
  unfold log_level_zu_zeichen
  split_ifs <;> decide

/-- Line 1 of a status display starts with the log-level character. -/
theorem display_zeile1_formatieren_kopf (C : Libc) (daten : SensorDaten) (log_level : Int)
    (z1 : List Char) (h : display_zeile1_formatieren C daten log_level = some z1) :
    z1.head? = some (log_level_zu_zeichen log_level) := by
  unfold display_zeile1_formatieren at h
  simp only [] at h
  split_ifs at h <;> simp only [Option.some.injEq] at h <;> subst h <;>
    exact zeile_auffuellen_kopf _ _

theorem display_initialisieren_zeile1 (U : Umgebung) (A : Anzeige) :
    (display_initialisieren U A).display_puffer.zeile1
      = text_zentrieren "Smart Kuehlschrank v1.0".toList := by
  unfold display_initialisieren display_startbildschirm_anzeigen display_ausgeben
    display_in_datei_schreiben
  simp only []
  split_ifs <;> rfl

/-- A status line 1 never equals line 1 of the start screen. -/
theorem display_initialisieren_zeile1_ne (U : Umgebung) (A : Anzeige) (C : Libc)
    (daten : SensorDaten) (log_level : Int) (z1 : List Char)
    (hz1 : display_zeile1_formatieren C daten log_level = some z1) :
    (display_initialisieren U A).display_puffer.zeile1 ≠ z1 := by
  intro h
  have hkopf := display_zeile1_formatieren_kopf _ _ _ _ hz1
  rw [← h, display_initialisieren_zeile1] at hkopf
  have hleer : (text_zentrieren "Smart Kuehlschrank v1.0".toList).head? = some ' ' := by
    decide
  rw [hleer] at hkopf
  exact log_level_zu_zeichen_kein_leerzeichen log_level (Option.some.inj hkopf).symm

/-- The state `display_aktualisieren` produces when the buffer differs from
the freshly formatted lines. -/
theorem display_aktualisieren_ungleich (U : Umgebung) (daten : SensorDaten) (log_level : Int)
    (A : Anzeige) (z1 : List Char)
    (hinit : A.display_puffer.initialisiert ≠ 0)
    (hz1 : display_zeile1_formatieren U.libc daten log_level = some z1)
    (hungleich : A.display_puffer.zeile1 ≠ z1
      ∨ A.display_puffer.zeile2 ≠ display_zeile2_formatieren daten U.jetzt) :
    display_aktualisieren U (some daten) log_level A =
      some { display_in_datei_schreiben U DISPLAY_DATEI (display_ausgeben
            { A with display_puffer := { A.display_puffer with
                zeile1 := z1, zeile2 := display_zeile2_formatieren daten U.jetzt,
                aktualisiert := 1 } }) with
          log := log_nachricht LOG_DEBUG "Display aktualisiert"
            (display_in_datei_schreiben U DISPLAY_DATEI (display_ausgeben
              { A with display_puffer := { A.display_puffer with
                  zeile1 := z1, zeile2 := display_zeile2_formatieren daten U.jetzt,
                  aktualisiert := 1 } })).log } := by
  simp only [display_aktualisieren, if_neg hinit, hz1, if_pos hungleich]

/-- C5 as stated fails: on an initialised display that already shows the
status lines of the sample, the first of two identical calls emits nothing
(the state, its output list included, is unchanged). -/
theorem display_aktualisieren_erster_aufruf_ohne_ausgabe :
    bsp_anzeige.display_puffer.initialisiert = 1
    ∧ display_aktualisieren bsp_umgebung (some bsp_daten) 1 bsp_anzeige = some bsp_anzeige := by
  decide

/-- C5, amended. On an initialised display, for a sample whose line 1 fits
its buffers, `display_aktualisieren` stores the formatted lines; the first
call emits a console frame and a display-file write exactly when the buffer
differed from these lines, which is always so right after
`display_initialisieren`, and otherwise changes nothing; a second call with
the same sample, level and clock changes nothing: no frame, no file write, no
log line, same buffer. -/
theorem display_aktualisieren_zweimal (U : Umgebung) (daten : SensorDaten) (log_level : Int)
    (A : Anzeige) (z1 : List Char)
    (hinit : A.display_puffer.initialisiert ≠ 0)
    (hz1 : display_zeile1_formatieren U.libc daten log_level = some z1) :
    ∃ A1, display_aktualisieren U (some daten) log_level A = some A1
      ∧ A1.display_puffer.zeile1 = z1
      ∧ A1.display_puffer.zeile2 = display_zeile2_formatieren daten U.jetzt
      ∧ (A.display_puffer.zeile1 ≠ z1
          ∨ A.display_puffer.zeile2 ≠ display_zeile2_formatieren daten U.jetzt →
        A1.ausgaben = A.ausgaben
          ++ [.konsole z1 (display_zeile2_formatieren daten U.jetzt)]
          ++ (if U.display_datei_schreibbar = true then
                [.datei DISPLAY_DATEI z1 (display_zeile2_formatieren daten U.jetzt) U.jetzt]
              else []))
      ∧ (A.display_puffer.zeile1 = z1
          ∧ A.display_puffer.zeile2 = display_zeile2_formatieren daten U.jetzt → A1 = A)
      ∧ display_aktualisieren U (some daten) log_level A1 = some A1
      ∧ (∀ U0 A0, A = display_initialisieren U0 A0 → A.display_puffer.zeile1 ≠ z1) := by
  have hfrisch : ∀ U0 A0, A = display_initialisieren U0 A0 → A.display_puffer.zeile1 ≠ z1 := by
    intro U0 A0 hA
    rw [hA]
    exact display_initialisieren_zeile1_ne U0 A0 _ _ _ _ hz1
  by_cases hgleich : A.display_puffer.zeile1 = z1
      ∧ A.display_puffer.zeile2 = display_zeile2_formatieren daten U.jetzt
  · refine ⟨A, ?_, hgleich.1, hgleich.2, ?_, fun _ => rfl, ?_, ?_⟩
    · simp [display_aktualisieren, hinit, hz1, hgleich.1, hgleich.2]
    · intro h
      rcases h with h | h
      · exact absurd hgleich.1 h
      · exact absurd hgleich.2 h
    · simp [display_aktualisieren, hinit, hz1, hgleich.1, hgleich.2]
    · exact hfrisch
  · have hungleich : A.display_puffer.zeile1 ≠ z1
        ∨ A.display_puffer.zeile2 ≠ display_zeile2_formatieren daten U.jetzt := by
      by_cases h1 : A.display_puffer.zeile1 = z1
      · exact Or.inr (fun h2 => hgleich ⟨h1, h2⟩)
      · exact Or.inl h1
    have hres := display_aktualisieren_ungleich U daten log_level A z1 hinit hz1 hungleich
    refine ⟨_, hres, ?_, ?_, ?_, fun h => absurd h hgleich, ?_, hfrisch⟩
    · cases hs : U.display_datei_schreibbar <;>
        simp [display_ausgeben, display_in_datei_schreiben, hs]
    · cases hs : U.display_datei_schreibbar <;>
        simp [display_ausgeben, display_in_datei_schreiben, hs]
    · intro _
      cases hs : U.display_datei_schreibbar <;>
        simp [display_ausgeben, display_in_datei_schreiben, hs]
    · cases hs : U.display_datei_schreibbar <;>
        simp [display_aktualisieren, display_ausgeben, display_in_datei_schreiben, hs, hinit,
          hz1]

/-- Witness for C5: the theorem applied to the display right after
`display_initialisieren`, where the first refresh is emitted and the second
changes nothing. -/
theorem display_aktualisieren_zweimal_witness :
    bsp_startanzeige.display_puffer.initialisiert ≠ 0
    ∧ display_zeile1_formatieren bsp_umgebung.libc bsp_daten 1
        = some "1 T:9.0C D:ZU E:120W                    ".toList
    ∧ ∃ A1, display_aktualisieren bsp_umgebung (some bsp_daten) 1 bsp_startanzeige = some A1
        ∧ A1.ausgaben = bsp_startanzeige.ausgaben
            ++ [.konsole "1 T:9.0C D:ZU E:120W                    ".toList
                  "TEMPERATUR ZU HOCH!                     ".toList,
                .datei DISPLAY_DATEI "1 T:9.0C D:ZU E:120W                    ".toList
                  "TEMPERATUR ZU HOCH!                     ".toList 100]
        ∧ display_aktualisieren bsp_umgebung (some bsp_daten) 1 A1 = some A1 := by
  refine ⟨by decide, by decide, ?_⟩
  obtain ⟨A1, h1, _, _, h4, _, h6, h7⟩ :=
    display_aktualisieren_zweimal bsp_umgebung bsp_daten 1 bsp_startanzeige
      "1 T:9.0C D:ZU E:120W                    ".toList (by decide) (by decide)
  refine ⟨A1, h1, ?_, h6⟩
  rw [h4 (Or.inl (h7 bsp_umgebung _ rfl))]
  decide

/-! ### Button debounce and log level -/

theorem log_schreiben_stufe (level : Int) (format : String) (args : List Arg)
    (L : LogZustand) :
    (log_schreiben level format args L).aktuelle_log_stufe = L.aktuelle_log_stufe := by
  unfold log_schreiben
  split_ifs <;> rfl

theorem log_nachricht_stufe (level : Int) (nachricht : String) (L : LogZustand) :
    (log_nachricht level nachricht L).aktuelle_log_stufe = L.aktuelle_log_stufe := by
  unfold log_nachricht
  rw [log_schreiben_stufe]

theorem log_formatiert_stufe (level : Int) (format : String) (args : List Arg)
    (L : LogZustand) :
    (log_formatiert level format args L).aktuelle_log_stufe = L.aktuelle_log_stufe := by
  unfold log_formatiert
  simp only []
  split_ifs
  · rfl
  · rw [log_schreiben_stufe]

/-- The level after `log_level_setzen`: the old one for a rejected request,
the requested one otherwise. -/
theorem log_level_setzen_stufe (neues_level : Int) (L : LogZustand) :
    (log_level_setzen neues_level L).aktuelle_log_stufe =
      if neues_level < 0 ∨ neues_level > 3 then L.aktuelle_log_stufe else neues_level := by
  unfold log_level_setzen LOG_DEBUG LOG_ERROR
  split_ifs <;> simp [log_formatiert_stufe]

/-- One poll that reads a number: the number read becomes the stored previous
value; with the level in `[0, 3]` the level moves to its cyclic successor when
a 1 is read after a stored 0 and stays as it is otherwise. -/
theorem taster_schritt (v : Int) (w : Bool) (T : TasterZustand)
    (h0 : 0 ≤ T.log.aktuelle_log_stufe) (h3 : T.log.aktuelle_log_stufe ≤ 3) :
    (taster_pruefen_und_log_level_erhoehen (.wert v) w T).letzter_taster_zustand = v
    ∧ (taster_pruefen_und_log_level_erhoehen (.wert v) w T).log.aktuelle_log_stufe =
        (if v = 1 ∧ T.letzter_taster_zustand = 0 then (T.log.aktuelle_log_stufe + 1) % 4
         else T.log.aktuelle_log_stufe) := by
  have hmod : Int.tmod (T.log.aktuelle_log_stufe + 1) 4 = (T.log.aktuelle_log_stufe + 1) % 4 := by
    rw [Int.tmod_eq_emod] <;> omega
  unfold taster_pruefen_und_log_level_erhoehen
  refine ⟨rfl, ?_⟩
  simp only []
  by_cases h : v = 1 ∧ T.letzter_taster_zustand = 0
  · rw [if_pos h, if_pos h]
    cases w <;> simp [log_level_setzen_stufe, hmod] <;> omega
  · rw [if_neg h, if_neg h]

theorem taster_ereignisse_eq (polls : List (Int × Bool)) :
    ∀ (T : TasterZustand) (pos : Nat), 0 ≤ T.log.aktuelle_log_stufe →
      T.log.aktuelle_log_stufe ≤ 3 →
      taster_ereignisse T pos polls
          = steigende_flanken T.letzter_taster_zustand pos (polls.map Prod.fst)
        ∧ (taster_abfragen T polls).letzter_taster_zustand
          = letzter_wert T.letzter_taster_zustand (polls.map Prod.fst)
        ∧ (taster_abfragen T polls).log.aktuelle_log_stufe
          = stufe_nach T.log.aktuelle_log_stufe T.letzter_taster_zustand
              (polls.map Prod.fst) := by
  induction polls with
  | nil => intro T pos _ _; exact ⟨rfl, rfl, rfl⟩
  | cons p rest ih =>
    intro T pos h0 h3
    obtain ⟨v, w⟩ := p
    obtain ⟨hv, hl⟩ := taster_schritt v w T h0 h3
    have h0' : 0 ≤ (taster_pruefen_und_log_level_erhoehen (.wert v) w T).log.aktuelle_log_stufe := by
      rw [hl]; split_ifs <;> omega
    have h3' : (taster_pruefen_und_log_level_erhoehen (.wert v) w T).log.aktuelle_log_stufe ≤ 3 := by
      rw [hl]; split_ifs <;> omega
    obtain ⟨ih1, ih2, ih3⟩ := ih _ (pos + 1) h0' h3'
    refine ⟨?_, ?_, ?_⟩
    · simp only [taster_ereignisse, List.map_cons, steigende_flanken, ih1, hv, hl]
      congr 1
      by_cases h : v = 1 ∧ T.letzter_taster_zustand = 0
      · rw [if_pos h, if_pos h, if_pos]
        omega
      · rw [if_neg h, if_neg h, if_neg]
        simp
    · simp only [taster_abfragen, List.map_cons, ih2, hv, letzter_wert]
    · simp only [taster_abfragen, List.map_cons, ih3, hv, hl, stufe_nach]

/-- C6. Starting with stored previous value 0 (and the level in `[0, 3]`),
for every sequence of raw button values read, the code bumps the log level at
exactly the positions where the value read is 1 and the value stored before
is 0; every poll stores the value it read, bump or not; for the reads
`[0,1,1,0,1]` the bumps are at positions 2 and 5. -/
theorem taster_entprellung (T : TasterZustand) (polls : List (Int × Bool))
    (hprev : T.letzter_taster_zustand = 0)
    (h0 : 0 ≤ T.log.aktuelle_log_stufe) (h3 : T.log.aktuelle_log_stufe ≤ 3) :
    taster_ereignisse T 1 polls = steigende_flanken 0 1 (polls.map Prod.fst)
    ∧ (taster_abfragen T polls).letzter_taster_zustand = letzter_wert 0 (polls.map Prod.fst)
    ∧ (∀ (v : Int) (w : Bool) (T1 : TasterZustand),
        (taster_pruefen_und_log_level_erhoehen (.wert v) w T1).letzter_taster_zustand = v)
    ∧ (∀ w1 w2 w3 w4 w5 : Bool,
        taster_ereignisse T 1 [(0, w1), (1, w2), (1, w3), (0, w4), (1, w5)] = [2, 5]) := by
  refine ⟨?_, ?_, fun v w T1 => rfl, ?_⟩
  · rw [(taster_ereignisse_eq polls T 1 h0 h3).1, hprev]
  · rw [(taster_ereignisse_eq polls T 1 h0 h3).2.1, hprev]
  · intro w1 w2 w3 w4 w5
    rw [(taster_ereignisse_eq _ T 1 h0 h3).1, hprev]
    rfl

/-- Witness for C6: the initial globals of logging_broken.c (level INFO,
previous value 0) and the reads `[0,1,1,0,1]`. -/
theorem taster_entprellung_witness :
    taster_ereignisse ⟨⟨1, [], []⟩, 0, []⟩ 1
        [(0, true), (1, true), (1, true), (0, true), (1, true)] = [2, 5]
    ∧ (taster_abfragen ⟨⟨1, [], []⟩, 0, []⟩
        [(0, true), (1, true), (1, true), (0, true), (1, true)]).log.aktuelle_log_stufe = 3 :=
  ⟨(taster_entprellung ⟨⟨1, [], []⟩, 0, []⟩
      [(0, true), (1, true), (1, true), (0, true), (1, true)] rfl (by decide) (by decide)).1,
    by decide⟩

/-- C7. A bump, the level change made on a pressed event, takes the level
`l` in `{0,1,2,3}` to `(l + 1) mod 4`, so Error (3) wraps to Debug (0), and
four pressed events in a row (reads 1,0,1,0,1,0,1) bring the level back to
where it started. -/
theorem taster_bump_zyklisch (T : TasterZustand) (w : Bool)
    (hprev : T.letzter_taster_zustand = 0)
    (h0 : 0 ≤ T.log.aktuelle_log_stufe) (h3 : T.log.aktuelle_log_stufe ≤ 3) :
    (taster_pruefen_und_log_level_erhoehen (.wert 1) w T).log.aktuelle_log_stufe
        = (T.log.aktuelle_log_stufe + 1) % 4
    ∧ (T.log.aktuelle_log_stufe = LOG_ERROR →
        (taster_pruefen_und_log_level_erhoehen (.wert 1) w T).log.aktuelle_log_stufe = LOG_DEBUG)
    ∧ taster_ereignisse T 1 [(1, w), (0, w), (1, w), (0, w), (1, w), (0, w), (1, w)]
        = [1, 3, 5, 7]
    ∧ (taster_abfragen T [(1, w), (0, w), (1, w), (0, w), (1, w), (0, w), (1, w)]
        ).log.aktuelle_log_stufe = T.log.aktuelle_log_stufe := by
  have hs := (taster_schritt 1 w T h0 h3).2
  rw [hprev, if_pos ⟨rfl, rfl⟩] at hs
  refine ⟨hs, ?_, ?_, ?_⟩
  · intro h
    rw [hs, h]
    rfl
  · rw [(taster_ereignisse_eq _ T 1 h0 h3).1, hprev]
    rfl
  · rw [(taster_ereignisse_eq _ T 1 h0 h3).2.2, hprev]
    simp [stufe_nach]
    omega

/-- Witness for C7: starting at Error with the button released, one press
gives Debug and four presses give Error again. -/
theorem taster_bump_zyklisch_witness :
    (taster_pruefen_und_log_level_erhoehen (.wert 1) true
        ⟨⟨LOG_ERROR, [], []⟩, 0, []⟩).log.aktuelle_log_stufe = LOG_DEBUG
    ∧ (taster_abfragen ⟨⟨LOG_ERROR, [], []⟩, 0, []⟩
        [(1, true), (0, true), (1, true), (0, true), (1, true), (0, true), (1, true)]
        ).log.aktuelle_log_stufe = LOG_ERROR :=
  ⟨(taster_bump_zyklisch ⟨⟨LOG_ERROR, [], []⟩, 0, []⟩ true rfl (by decide) (by decide)).2.1 rfl,
    (taster_bump_zyklisch ⟨⟨LOG_ERROR, [], []⟩, 0, []⟩ true rfl (by decide) (by decide)).2.2.2⟩

/-- C8. `log_level_setzen n` leaves `aktuelle_log_stufe` as it is for every
`n` outside `[0, 3]`, for example 5 and -1, and sets it to `n` for every `n`
in `[0, 3]`. -/
theorem log_level_setzen_gueltigkeit (n : Int) (L : LogZustand) :
    ((n < 0 ∨ 3 < n) →
        log_level_abfragen (log_level_setzen n L) = log_level_abfragen L)
    ∧ ((0 ≤ n ∧ n ≤ 3) → log_level_abfragen (log_level_setzen n L) = n)
    ∧ log_level_abfragen (log_level_setzen 5 L) = log_level_abfragen L
    ∧ log_level_abfragen (log_level_setzen (-1) L) = log_level_abfragen L := by
  unfold log_level_abfragen
  refine ⟨?_, ?_, ?_, ?_⟩
  · intro h
    rw [log_level_setzen_stufe, if_pos (by omega)]
  · intro h
    rw [log_level_setzen_stufe, if_neg (by omega)]
  · rw [log_level_setzen_stufe, if_pos (by omega)]
  · rw [log_level_setzen_stufe, if_pos (by omega)]

/-! ### Change tracking -/

/-- The call `datei_wurde_geaendert(name, i)` leaves every entry other than
`datei_infos[i]` as it is. -/
theorem datei_wurde_geaendert_andere (Q : Quellen) (dateiname : String) (i j : Fin 4)
    (infos : Fin 4 → DateiInfo) (L : LogZustand) (hj : j ≠ i) :
    (datei_wurde_geaendert Q dateiname i infos L).2.1 j = infos j := by
  unfold datei_wurde_geaendert
  cases hs : Q.stat dateiname <;> simp only [] <;> split_ifs <;>
    simp [Function.update_noteq hj]

/-- C9. `datei_wurde_geaendert` on the entry `datei_infos[i]`: a missing
source with the entry marked existing marks it nonexistent and returns 1; a
missing source with the entry marked nonexistent returns 0 and changes
nothing, so a second call after a reported disappearance returns 0; a present
source with the entry marked nonexistent marks it existing, stores the marker
and returns 1; a present source whose marker differs from the stored one
stores the new marker and returns 1; otherwise 0 is returned and the array is
unchanged. Entries other than `i` are never touched. -/
theorem datei_wurde_geaendert_faelle (Q : Quellen) (dateiname : String) (i : Fin 4)
    (infos : Fin 4 → DateiInfo) (L : LogZustand) :
    (Q.stat dateiname = none → (infos i).datei_existiert ≠ 0 →
        (datei_wurde_geaendert Q dateiname i infos L).1 = 1
        ∧ (datei_wurde_geaendert Q dateiname i infos L).2.1 i
            = { infos i with datei_existiert := 0 }
        ∧ (datei_wurde_geaendert Q dateiname i
            (datei_wurde_geaendert Q dateiname i infos L).2.1
            (datei_wurde_geaendert Q dateiname i infos L).2.2).1 = 0)
    ∧ (Q.stat dateiname = none → (infos i).datei_existiert = 0 →
        (datei_wurde_geaendert Q dateiname i infos L).1 = 0
        ∧ (datei_wurde_geaendert Q dateiname i infos L).2.1 = infos)
    ∧ (∀ m, Q.stat dateiname = some m → (infos i).datei_existiert = 0 →
        (datei_wurde_geaendert Q dateiname i infos L).1 = 1
        ∧ (datei_wurde_geaendert Q dateiname i infos L).2.1 i
            = { letzte_aenderung := m, datei_existiert := 1 })
    ∧ (∀ m, Q.stat dateiname = some m → (infos i).datei_existiert ≠ 0 →
        m ≠ (infos i).letzte_aenderung →
        (datei_wurde_geaendert Q dateiname i infos L).1 = 1
        ∧ (datei_wurde_geaendert Q dateiname i infos L).2.1 i
            = { infos i with letzte_aenderung := m })
    ∧ (∀ m, Q.stat dateiname = some m → (infos i).datei_existiert ≠ 0 →
        m = (infos i).letzte_aenderung →
        (datei_wurde_geaendert Q dateiname i infos L).1 = 0
        ∧ (datei_wurde_geaendert Q dateiname i infos L).2.1 = infos)
    ∧ (∀ j, j ≠ i → (datei_wurde_geaendert Q dateiname i infos L).2.1 j = infos j) := by
  refine ⟨?_, ?_, ?_, ?_, ?_, ?_⟩ <;> try unfold datei_wurde_geaendert
  · intro hs he
    simp [hs, he]
  · intro hs he
    simp [hs, he]
  · intro m hs he
    simp [hs, he]
  · intro m hs he hm
    simp [hs, he, hm]
  · intro m hs he hm
    simp [hs, he, hm]
  · intro j hj
    exact datei_wurde_geaendert_andere Q dateiname i j infos L hj

theorem ruhig_refl (L : LogZustand) : ruhig L L := ⟨rfl, rfl⟩

theorem ruhig_trans {L L1 L2 : LogZustand} (h1 : ruhig L L1) (h2 : ruhig L1 L2) :
    ruhig L L2 :=
  ⟨h2.1.trans h1.1, h2.2.trans h1.2⟩

theorem log_schreiben_aufrufe (level : Int) (format : String) (args : List Arg)
    (L : LogZustand) : (log_schreiben level format args L).aufrufe = L.aufrufe := by
  unfold log_schreiben
  split_ifs <;> rfl

theorem log_nachricht_aufrufe (level : Int) (nachricht : String) (L : LogZustand) :
    (log_nachricht level nachricht L).aufrufe = L.aufrufe ++ [⟨level, nachricht, []⟩] := by
  unfold log_nachricht
  rw [log_schreiben_aufrufe]

theorem log_formatiert_aufrufe (level : Int) (format : String) (args : List Arg)
    (L : LogZustand) :
    (log_formatiert level format args L).aufrufe = L.aufrufe ++ [⟨level, format, args⟩] := by
  unfold log_formatiert
  simp only []
  split_ifs
  · rfl
  · rw [log_schreiben_aufrufe]

theorem ruhig_log_nachricht (level : Int) (nachricht : String) (L : LogZustand)
    (h : nachricht ≠ "Sensor-Daten aktualisiert") : ruhig L (log_nachricht level nachricht L) := by
  refine ⟨log_nachricht_stufe _ _ _, ?_⟩
  rw [log_nachricht_aufrufe, List.count_append]
  have : (⟨level, nachricht, []⟩ : LogEintrag) ≠ e_aktualisiert := by
    intro hh
    exact h (congrArg LogEintrag.format hh)
  simp [List.count_singleton, this]

theorem ruhig_log_formatiert (level : Int) (format : String) (args : List Arg)
    (L : LogZustand) (h : format ≠ "Sensor-Daten aktualisiert") :
    ruhig L (log_formatiert level format args L) := by
  refine ⟨log_formatiert_stufe _ _ _ _, ?_⟩
  rw [log_formatiert_aufrufe, List.count_append]
  have : (⟨level, format, args⟩ : LogEintrag) ≠ e_aktualisiert := by
    intro hh
    exact h (congrArg LogEintrag.format hh)
  simp [List.count_singleton, this]

theorem ruhig_datei_wurde_geaendert (Q : Quellen) (dateiname : String) (i : Fin 4)
    (infos : Fin 4 → DateiInfo) (L : LogZustand) :
    ruhig L (datei_wurde_geaendert Q dateiname i infos L).2.2 := by
  unfold datei_wurde_geaendert
  cases Q.stat dateiname <;> simp only [] <;> split_ifs <;>
    first
      | exact ruhig_refl _
      | exact ruhig_log_formatiert _ _ _ _ (by decide)

theorem ruhig_sensor_werte_validieren (daten : SensorDaten) (L : LogZustand) :
    ruhig L (sensor_werte_validieren daten L).2 := by
  unfold sensor_werte_validieren
  split_ifs <;>
    first
      | exact ruhig_refl _
      | exact ruhig_log_formatiert _ _ _ _ (by decide)

theorem ruhig_sensor_alarme_pruefen (daten : SensorDaten) (jetzt : Int) (L : LogZustand) :
    ruhig L (sensor_alarme_pruefen daten jetzt L).2 := by
  unfold sensor_alarme_pruefen
  cases CFloat.gt daten.temperatur MAX_TEMP_THRESHOLD <;>
  cases CFloat.lt daten.temperatur MIN_TEMP_THRESHOLD <;>
  cases CFloat.gt daten.energie_verbrauch MAX_ENERGY_THRESHOLD <;>
  by_cases h1 : daten.tuer_offen = 0 <;>
  by_cases h2 : tuer_offen_dauer_berechnen daten.tuer_offen_seit jetzt > DOOR_OPEN_THRESHOLD <;>
  simp only [h1, h2, if_true, if_false, ne_eq, not_true_eq_false, not_false_eq_true,
    Bool.false_eq_true] <;>
  repeat first
    | exact ruhig_refl _
    | refine ruhig_trans ?_ (ruhig_log_formatiert _ _ _ _ (by decide))

theorem ruhig_wenn (c : Prop) [Decidable c] {L L1 L2 : LogZustand} (h1 : ruhig L L1)
    (h2 : ruhig L L2) : ruhig L (if c then L1 else L2) := by
  split_ifs
  · exact h1
  · exact h2

theorem sensor_werte_validieren_unabhaengig (d1 d2 : SensorDaten) (L1 L2 : LogZustand)
    (ht : d1.temperatur = d2.temperatur) (ho : d1.tuer_offen = d2.tuer_offen)
    (he : d1.energie_verbrauch = d2.energie_verbrauch) :
    (sensor_werte_validieren d1 L1).1 = (sensor_werte_validieren d2 L2).1 := by
  have h1 := sensor_werte_validieren_wert d1 L1
  have h2 := sensor_werte_validieren_wert d2 L2
  rw [ht, ho, he] at h1
  rcases h1.2 with a | a <;> rcases h2.2 with b | b
  · rw [a, b]
  · have := h2.1.2 (h1.1.1 a)
    omega
  · have := h1.1.2 (h2.1.1 b)
    omega
  · rw [a, b]

theorem sensor_werte_validieren_eq_plausibel (d : SensorDaten) (L : LogZustand) :
    (sensor_werte_validieren d L).1 = plausibel d.temperatur d.tuer_offen d.energie_verbrauch :=
  sensor_werte_validieren_unabhaengig d _ L _ rfl rfl rfl

/-- The sample and the return value of `sensor_werte_lesen` depend on the
sensor files only, not on the previous content of the struct or on the log. -/
theorem sensor_werte_lesen_unabhaengig (Q : Quellen) (alt1 alt2 : SensorDaten)
    (L1 L2 : LogZustand) :
    (sensor_werte_lesen Q (some alt1) L1).1 = (sensor_werte_lesen Q (some alt2) L2).1
    ∧ (sensor_werte_lesen Q (some alt1) L1).2.1 = (sensor_werte_lesen Q (some alt2) L2).2.1 := by
  unfold sensor_werte_lesen temperatur_lesen tuer_status_lesen energie_lesen
  cases Q.temperatur <;> cases Q.tuer <;> cases Q.energie <;>
    simp [sensor_werte_validieren_eq_plausibel] <;> split_ifs <;> simp

theorem ruhig_sensor_werte_lesen (Q : Quellen) (alt : SensorDaten) (L : LogZustand) :
    ruhig L (sensor_werte_lesen Q (some alt) L).2.2 := by
  unfold sensor_werte_lesen temperatur_lesen tuer_status_lesen energie_lesen
  cases Q.temperatur <;> cases Q.tuer <;> cases Q.energie <;> simp <;> split_ifs <;>
    simp only [] <;>
    repeat first
      | exact ruhig_refl _
      | refine ruhig_trans ?_ (ruhig_log_nachricht _ _ _ (by decide))
      | refine ruhig_trans ?_ (ruhig_sensor_werte_validieren _ _)

theorem ruhig_display_in_datei_schreiben (U : Umgebung) (dateiname : String) (A : Anzeige) :
    ruhig A.log (display_in_datei_schreiben U dateiname A).log := by
  unfold display_in_datei_schreiben
  split_ifs
  · exact ruhig_log_formatiert _ _ _ _ (by decide)
  · exact ruhig_refl _

theorem ruhig_display_aktualisieren (U : Umgebung) (daten : Option SensorDaten)
    (log_level : Int) (A A1 : Anzeige)
    (h : display_aktualisieren U daten log_level A = some A1) : ruhig A.log A1.log := by
  unfold display_aktualisieren at h
  split_ifs at h with hi
  · simp only [Option.some.injEq] at h
    subst h
    exact ruhig_log_nachricht _ "Display nicht initialisiert!" _ (by decide)
  · cases daten with
    | none =>
      simp only [Option.some.injEq] at h
      subst h
      exact ruhig_log_nachricht _ _ _ (by decide)
    | some d =>
      simp only [] at h
      cases hz : display_zeile1_formatieren U.libc d log_level with
      | none => simp [hz] at h
      | some z1 =>
        simp only [hz] at h
        split_ifs at h
        · simp only [Option.some.injEq] at h
          subst h
          refine ruhig_trans ?_ (ruhig_log_nachricht LOG_DEBUG "Display aktualisiert" _ (by decide))
          exact ruhig_display_in_datei_schreiben U DISPLAY_DATEI (display_ausgeben _)
        · simp only [Option.some.injEq] at h
          subst h
          exact ruhig_refl _

/-- The return value of `datei_wurde_geaendert` is 0 or 1 and depends on the
array only through the entry at the given index. -/
theorem datei_wurde_geaendert_wert (Q : Quellen) (dateiname : String) (i : Fin 4)
    (infos : Fin 4 → DateiInfo) (L : LogZustand) :
    ((datei_wurde_geaendert Q dateiname i infos L).1 = 0
      ∨ (datei_wurde_geaendert Q dateiname i infos L).1 = 1)
    ∧ ∀ (infos1 : Fin 4 → DateiInfo) (L1 : LogZustand), infos1 i = infos i →
        (datei_wurde_geaendert Q dateiname i infos1 L1).1
          = (datei_wurde_geaendert Q dateiname i infos L).1 := by
  unfold datei_wurde_geaendert
  refine ⟨?_, ?_⟩
  · cases Q.stat dateiname <;> simp only [] <;> split_ifs <;> simp
  · intro infos1 L1 h
    rw [h]
    cases Q.stat dateiname <;> simp only [] <;> split_ifs <;> rfl

theorem aenderung_protokollieren_log (C : Libc) (alt neue_daten : SensorDaten)
    (L : LogZustand) :
    (aenderung_protokollieren C alt neue_daten L).aktuelle_log_stufe = L.aktuelle_log_stufe
    ∧ (aenderung_protokollieren C alt neue_daten L).aufrufe.count e_aktualisiert
        = L.aufrufe.count e_aktualisiert + 1 := by
  have h0 : (log_nachricht LOG_DEBUG "Sensor-Daten aktualisiert" L).aktuelle_log_stufe
        = L.aktuelle_log_stufe
      ∧ (log_nachricht LOG_DEBUG "Sensor-Daten aktualisiert" L).aufrufe.count e_aktualisiert
        = L.aufrufe.count e_aktualisiert + 1 := by
    refine ⟨log_nachricht_stufe _ _ _, ?_⟩
    rw [log_nachricht_aufrufe, List.count_append]
    rfl
  have hruhig : ruhig (log_nachricht LOG_DEBUG "Sensor-Daten aktualisiert" L)
      (aenderung_protokollieren C alt neue_daten L) := by
    unfold aenderung_protokollieren
    simp only []
    refine ruhig_wenn _ (ruhig_trans ?_ (ruhig_log_formatiert _ _ _ _ (by decide))) ?_ <;>
      refine ruhig_wenn _ (ruhig_trans ?_ (ruhig_log_formatiert _ _ _ _ (by decide))) ?_ <;>
      refine ruhig_wenn _ (ruhig_trans ?_ (ruhig_log_formatiert _ _ _ _ (by decide))) ?_ <;>
      exact ruhig_refl _
  exact ⟨hruhig.1.trans h0.1, hruhig.2.trans h0.2⟩

/-- A refresh whose line 1 fits its buffers returns a display state. -/
theorem display_aktualisieren_some (U : Umgebung) (daten : SensorDaten) (log_level : Int)
    (A : Anzeige) (z1 : List Char)
    (hz1 : display_zeile1_formatieren U.libc daten log_level = some z1) :
    ∃ A1, display_aktualisieren U (some daten) log_level A = some A1 := by
  unfold display_aktualisieren
  split_ifs
  · exact ⟨_, rfl⟩
  · simp only [hz1]
    split_ifs
    · exact ⟨_, rfl⟩
    · exact ⟨_, rfl⟩

/-- The change branch of a read tick whose sample is valid and whose line 1
fits its buffers: `sensor_daten_verarbeiten` makes the log call
"Sensor-Daten aktualisiert" exactly when one of the temperature, door or
energy markers reported a change or `memcmp` reports a difference, that is
when the field values differ or the bytes that the field values do not
determine differ; after the tick the remembered sample equals the fresh
sample. -/
theorem sensor_daten_verarbeiten_aenderung (E : Abfrage) (S : System) (neu : SensorDaten)
    (z1 : List Char)
    (hneu : (sensor_werte_lesen E.quellen (some E.stapel) S.anzeige.log).1 = some neu)
    (hg : neu.gueltig ≠ 0)
    (hz1 : display_zeile1_formatieren E.umgebung.libc neu S.anzeige.log.aktuelle_log_stufe
      = some z1) :
    ∃ S1, sensor_daten_verarbeiten E S = some S1
      ∧ S1.aktuelle_sensordaten = neu
      ∧ S1.anzeige.log.aufrufe.count e_aktualisiert
          = S.anzeige.log.aufrufe.count e_aktualisiert
            + (if ((datei_wurde_geaendert E.quellen TEMPERATURE_FILE TEMP_DATEI_INDEX
                      S.datei_infos S.anzeige.log).1 = 1
                  ∨ (datei_wurde_geaendert E.quellen DOOR_FILE TUER_DATEI_INDEX
                      S.datei_infos S.anzeige.log).1 = 1
                  ∨ (datei_wurde_geaendert E.quellen ENERGY_FILE ENERGIE_DATEI_INDEX
                      S.datei_infos S.anzeige.log).1 = 1)
                ∨ (S.aktuelle_sensordaten ≠ neu ∨ E.restbytes_gleich = false)
               then 1 else 0) := by
  rcases hm1 : datei_wurde_geaendert E.quellen TEMPERATURE_FILE TEMP_DATEI_INDEX
    S.datei_infos S.anzeige.log with ⟨g1, infos1, L1⟩
  rcases hm2 : datei_wurde_geaendert E.quellen DOOR_FILE TUER_DATEI_INDEX infos1 L1
    with ⟨g2, infos2, L2⟩
  rcases hm3 : datei_wurde_geaendert E.quellen ENERGY_FILE ENERGIE_DATEI_INDEX infos2 L2
    with ⟨g3, infos3, L3⟩
  rcases hr : sensor_werte_lesen E.quellen (some E.stapel) L3 with ⟨dopt, ok, L4⟩
  -- the fresh sample and the return value
  have hu := sensor_werte_lesen_unabhaengig E.quellen E.stapel E.stapel L3 S.anzeige.log
  obtain ⟨d, hd1, hd2, _⟩ := sensor_werte_lesen_total E.quellen E.stapel L3
  rw [hr] at hu hd1 hd2
  simp only [] at hu hd1 hd2
  have hdneu : d = neu := by
    rw [hu.1, hneu] at hd1
    exact (Option.some.inj hd1).symm
  subst hdneu
  subst hd1
  subst hd2
  -- the markers
  have hg1 : g1 = (datei_wurde_geaendert E.quellen TEMPERATURE_FILE TEMP_DATEI_INDEX
      S.datei_infos S.anzeige.log).1 := by rw [hm1]
  have hi1 : infos1 = (datei_wurde_geaendert E.quellen TEMPERATURE_FILE TEMP_DATEI_INDEX
      S.datei_infos S.anzeige.log).2.1 := by rw [hm1]
  have hg2 : g2 = (datei_wurde_geaendert E.quellen DOOR_FILE TUER_DATEI_INDEX
      S.datei_infos S.anzeige.log).1 := by
    have := (datei_wurde_geaendert_wert E.quellen DOOR_FILE TUER_DATEI_INDEX
      S.datei_infos S.anzeige.log).2 infos1 L1
      (by rw [hi1]; exact datei_wurde_geaendert_andere _ _ _ _ _ _ (by decide))
    rw [hm2] at this
    exact this
  have hi2 : infos2 = (datei_wurde_geaendert E.quellen DOOR_FILE TUER_DATEI_INDEX
      infos1 L1).2.1 := by rw [hm2]
  have hg3 : g3 = (datei_wurde_geaendert E.quellen ENERGY_FILE ENERGIE_DATEI_INDEX
      S.datei_infos S.anzeige.log).1 := by
    have := (datei_wurde_geaendert_wert E.quellen ENERGY_FILE ENERGIE_DATEI_INDEX
      S.datei_infos S.anzeige.log).2 infos2 L2
      (by rw [hi2, datei_wurde_geaendert_andere _ _ _ _ _ _ (by decide), hi1];
          exact datei_wurde_geaendert_andere _ _ _ _ _ _ (by decide))
    rw [hm3] at this
    exact this
  have hw1 : g1 = 0 ∨ g1 = 1 := by
    have := (datei_wurde_geaendert_wert E.quellen TEMPERATURE_FILE TEMP_DATEI_INDEX
      S.datei_infos S.anzeige.log).1
    rw [hm1] at this
    exact this
  have hw2 : g2 = 0 ∨ g2 = 1 := by
    rw [hg2]
    exact (datei_wurde_geaendert_wert E.quellen DOOR_FILE TUER_DATEI_INDEX
      S.datei_infos S.anzeige.log).1
  have hw3 : g3 = 0 ∨ g3 = 1 := by
    rw [hg3]
    exact (datei_wurde_geaendert_wert E.quellen ENERGY_FILE ENERGIE_DATEI_INDEX
      S.datei_infos S.anzeige.log).1
  simp only [← hg2, ← hg3]
  -- the log up to the change branch
  have hL4 : ruhig S.anzeige.log L4 := by
    have r1 := ruhig_datei_wurde_geaendert E.quellen TEMPERATURE_FILE TEMP_DATEI_INDEX
      S.datei_infos S.anzeige.log
    have r2 := ruhig_datei_wurde_geaendert E.quellen DOOR_FILE TUER_DATEI_INDEX infos1 L1
    have r3 := ruhig_datei_wurde_geaendert E.quellen ENERGY_FILE ENERGIE_DATEI_INDEX infos2 L2
    have r4 := ruhig_sensor_werte_lesen E.quellen E.stapel L3
    rw [hm1] at r1
    rw [hm2] at r2
    rw [hm3] at r3
    rw [hr] at r4
    exact ruhig_trans (ruhig_trans (ruhig_trans r1 r2) r3) r4
  simp only [sensor_daten_verarbeiten, hm1, hm2, hm3, hr, Option.getD_some, if_pos hg]
  -- the change branch
  have hcond : (memcmp_ungleich E S.aktuelle_sensordaten d = true ∨ 0 + g1 + g2 + g3 > 0)
      ↔ ((g1 = 1 ∨ g2 = 1 ∨ g3 = 1)
          ∨ S.aktuelle_sensordaten ≠ d ∨ E.restbytes_gleich = false) := by
    have hsum : 0 + g1 + g2 + g3 > 0 ↔ (g1 = 1 ∨ g2 = 1 ∨ g3 = 1) := by omega
    rw [hsum]
    have hmem : memcmp_ungleich E S.aktuelle_sensordaten d = true
        ↔ (S.aktuelle_sensordaten ≠ d ∨ E.restbytes_gleich = false) := by
      unfold memcmp_ungleich
      rw [Bool.or_eq_true, decide_eq_true_eq, Bool.not_eq_true']
    rw [hmem]
    exact or_comm
  have hP : ∃ akt Lb,
      (if memcmp_ungleich E S.aktuelle_sensordaten d = true ∨ 0 + g1 + g2 + g3 > 0 then
          (d, aenderung_protokollieren E.umgebung.libc S.aktuelle_sensordaten d L4)
        else (S.aktuelle_sensordaten, L4)) = (akt, Lb)
      ∧ akt = d ∧ Lb.aktuelle_log_stufe = L4.aktuelle_log_stufe
      ∧ Lb.aufrufe.count e_aktualisiert = L4.aufrufe.count e_aktualisiert
          + (if (g1 = 1 ∨ g2 = 1 ∨ g3 = 1)
                ∨ S.aktuelle_sensordaten ≠ d ∨ E.restbytes_gleich = false then 1 else 0) := by
    by_cases hc : memcmp_ungleich E S.aktuelle_sensordaten d = true ∨ 0 + g1 + g2 + g3 > 0
    · refine ⟨_, _, if_pos hc, rfl, ?_, ?_⟩
      · exact (aenderung_protokollieren_log _ _ _ _).1
      · rw [if_pos (hcond.mp hc)]
        exact (aenderung_protokollieren_log _ _ _ _).2
    · refine ⟨_, _, if_neg hc, ?_, rfl, ?_⟩
      · by_contra hne
        exact hc (hcond.mpr (Or.inr (Or.inl hne)))
      · rw [if_neg (fun h => hc (hcond.mpr h))]
        rfl
  obtain ⟨akt, Lb, hPeq, hakt, hlev, hcnt⟩ := hP
  simp only [hPeq]
  -- the alarms
  rcases ha : sensor_alarme_pruefen d E.umgebung.jetzt Lb with ⟨p, L5⟩
  have r5 : ruhig Lb L5 := by
    have := ruhig_sensor_alarme_pruefen d E.umgebung.jetzt Lb
    rw [ha] at this
    exact this
  have r6 : ruhig L5 (if p > 0 then
      log_formatiert LOG_WARNING "Sensor-Alarme erkannt: %d Problem(e)" [.d p] L5 else L5) :=
    ruhig_wenn _ (ruhig_log_formatiert _ _ _ _ (by decide)) (ruhig_refl _)
  generalize (if p > 0 then
      log_formatiert LOG_WARNING "Sensor-Alarme erkannt: %d Problem(e)" [.d p] L5 else L5) = L6
    at r6 ⊢
  -- the display refresh
  have hlev6 : log_level_abfragen L6 = S.anzeige.log.aktuelle_log_stufe := by
    unfold log_level_abfragen
    rw [r6.1, r5.1, hlev, hL4.1]
  rw [hlev6]
  obtain ⟨A, hA⟩ := display_aktualisieren_some E.umgebung d S.anzeige.log.aktuelle_log_stufe
    { S.anzeige with log := L6 } z1 hz1
  have r7 := ruhig_display_aktualisieren _ _ _ _ _ hA
  simp only [hA]
  refine ⟨_, rfl, hakt, ?_⟩
  show A.log.aufrufe.count e_aktualisiert = _
  rw [r7.2, r6.2, r5.2, hcnt, hL4.2]

/-- An instance of the lemma above: no marker changed, the fresh sample (9.0
degrees) differs from the remembered one (4.0 degrees); the change branch is
taken once and the fresh sample is remembered. -/
theorem sensor_daten_verarbeiten_aenderung_witness :
    (sensor_werte_lesen bsp_abfrage.quellen (some bsp_abfrage.stapel)
        bsp_system.anzeige.log).1 = some bsp_daten
    ∧ bsp_daten.gueltig ≠ 0
    ∧ ∃ S1, sensor_daten_verarbeiten bsp_abfrage bsp_system = some S1
        ∧ S1.aktuelle_sensordaten = bsp_daten
        ∧ S1.anzeige.log.aufrufe.count e_aktualisiert = 1 := by
  refine ⟨rfl, by decide, ?_⟩
  obtain ⟨S1, h1, h2, h3⟩ := sensor_daten_verarbeiten_aenderung bsp_abfrage bsp_system bsp_daten
    "1 T:9.0C D:ZU E:120W                    ".toList rfl (by decide) (by decide)
  refine ⟨S1, h1, h2, ?_⟩
  rw [h3]
  decide

/-- C10, evaluated at the failing input. Second of two ticks over unchanged
sensor files at level Debug: each of the three markers returns 0 and the
fresh sample equals the remembered sample field by field. When the padding
bytes of the uninitialised local `neue_daten` differ from those of
`aktuelle_sensordaten`, `memcmp` reports a difference and the tick takes the
change branch: "Sensor-Daten aktualisiert" is the one line written to the log,
while nothing is rendered. When those bytes are equal the same tick writes
nothing at all. -/
theorem sensor_daten_verarbeiten_fuellbytes :
    (datei_wurde_geaendert bsp_quellen_ruhe TEMPERATURE_FILE TEMP_DATEI_INDEX
        bsp_system_ruhe.datei_infos bsp_system_ruhe.anzeige.log).1 = 0
    ∧ (datei_wurde_geaendert bsp_quellen_ruhe DOOR_FILE TUER_DATEI_INDEX
        bsp_system_ruhe.datei_infos bsp_system_ruhe.anzeige.log).1 = 0
    ∧ (datei_wurde_geaendert bsp_quellen_ruhe ENERGY_FILE ENERGIE_DATEI_INDEX
        bsp_system_ruhe.datei_infos bsp_system_ruhe.anzeige.log).1 = 0
    ∧ (sensor_werte_lesen bsp_quellen_ruhe (some (bsp_abfrage_ruhe false).stapel)
        bsp_system_ruhe.anzeige.log).1 = some bsp_system_ruhe.aktuelle_sensordaten
    ∧ bsp_system_ruhe.aktuelle_sensordaten.gueltig = 1
    ∧ (sensor_daten_verarbeiten (bsp_abfrage_ruhe false) bsp_system_ruhe).map
        (fun S1 => (S1.anzeige.log.senke, S1.anzeige.ausgaben, S1.aktuelle_sensordaten))
      = some ([⟨LOG_DEBUG, "Sensor-Daten aktualisiert", []⟩], [],
          bsp_system_ruhe.aktuelle_sensordaten)
    ∧ (sensor_daten_verarbeiten (bsp_abfrage_ruhe true) bsp_system_ruhe).map
        (fun S1 => (S1.anzeige.log.senke, S1.anzeige.ausgaben, S1.aktuelle_sensordaten))
      = some ([], [], bsp_system_ruhe.aktuelle_sensordaten) := by
  refine ⟨rfl, rfl, rfl, rfl, rfl, ?_, ?_⟩ <;> decide!

/-! ### Width of the display lines -/

theorem zeile_auffuellen_length (zeile : List Char) :
    (zeile_auffuellen zeile).length = DISPLAY_COLS := by
  unfold zeile_auffuellen
  rw [List.length_take, List.length_append, List.length_replicate]
  omega

theorem zeile_auffuellen_mem (zeile : List Char) (c : Char)
    (h : c ∈ zeile_auffuellen zeile) : c ∈ zeile ∨ c = ' ' := by
  unfold zeile_auffuellen at h
  have h1 := List.mem_of_mem_take h
  rw [List.mem_append] at h1
  rcases h1 with h1 | h1
  · exact Or.inl h1
  · exact Or.inr (List.eq_of_mem_replicate h1)

theorem zeile_auffuellen_gueltig (zeile : List Char) (h : NUL ∉ zeile) :
    zeile_gueltig (zeile_auffuellen zeile) := by
  refine ⟨zeile_auffuellen_length zeile, ?_⟩
  intro hn
  rcases zeile_auffuellen_mem zeile NUL hn with h1 | h1
  · exact h h1
  · exact absurd h1 (by decide)

theorem text_zentrieren_length (text : List Char) :
    (text_zentrieren text).length = DISPLAY_COLS := by
  unfold text_zentrieren
  simp only []
  split_ifs with h
  · simp only [List.length_append, List.length_replicate]
    omega
  · exact List.length_replicate _ _

theorem text_zentrieren_mem (text : List Char) (c : Char)
    (h : c ∈ text_zentrieren text) : c ∈ text ∨ c = ' ' := by
  unfold text_zentrieren at h
  simp only [] at h
  split_ifs at h
  · rw [List.mem_append, List.mem_append] at h
    rcases h with (h | h) | h
    · exact Or.inr (List.eq_of_mem_replicate h)
    · exact Or.inl h
    · exact Or.inr (List.eq_of_mem_replicate h)
  · exact Or.inr (List.eq_of_mem_replicate h)

theorem text_zentrieren_gueltig (text : List Char) (h : NUL ∉ text) :
    zeile_gueltig (text_zentrieren text) := by
  refine ⟨text_zentrieren_length text, ?_⟩
  intro hn
  rcases text_zentrieren_mem text NUL hn with h1 | h1
  · exact h h1
  · exact absurd h1 (by decide)

theorem display_in_datei_schreiben_puffer (U : Umgebung) (dateiname : String) (A : Anzeige) :
    (display_in_datei_schreiben U dateiname A).display_puffer = A.display_puffer := by
  unfold display_in_datei_schreiben
  split_ifs <;> rfl

/-- C11, evaluated at the failing input: after `display_systeminfo_anzeigen`
of display.c, whatever the display held before, line 1 holds 40 characters
but line 2 holds only 39, so column 40 of line 2 is the terminating NUL; this
is the state `system_initialisieren` leaves behind, as it calls
`display_initialisieren` and then `display_systeminfo_anzeigen`. -/
theorem display_systeminfo_anzeigen_zeile2_zu_kurz (U U0 : Umgebung) (A : Anzeige) :
    (display_systeminfo_anzeigen U A).display_puffer.zeile1.length = 40
    ∧ (display_systeminfo_anzeigen U A).display_puffer.zeile2.length = 39
    ∧ ¬ puffer_gueltig (display_systeminfo_anzeigen U A).display_puffer
    ∧ ¬ puffer_gueltig
        (display_systeminfo_anzeigen U (display_initialisieren U0 A)).display_puffer := by
  have h : ∀ B : Anzeige, (display_systeminfo_anzeigen U B).display_puffer.zeile2.length = 39 := by
    intro B
    unfold display_systeminfo_anzeigen
    simp only [display_in_datei_schreiben_puffer]
    rfl
  have hn : ∀ B : Anzeige, ¬ puffer_gueltig (display_systeminfo_anzeigen U B).display_puffer := by
    intro B hg
    have := hg.2.1
    rw [h B] at this
    exact absurd this (by decide)
  refine ⟨?_, h A, hn A, hn _⟩
  unfold display_systeminfo_anzeigen
  simp only [display_in_datei_schreiben_puffer]
  rfl

theorem nul_nicht_in_take {l : List Char} (n : Nat) (h : NUL ∉ l) : NUL ∉ l.take n :=
  fun hn => h (List.mem_of_mem_take hn)

/-- The screens with fixed texts leave both lines 40 characters wide and free
of NUL. -/
theorem display_feste_bildschirme_gueltig (U : Umgebung) (A : Anzeige) :
    puffer_gueltig (display_startbildschirm_anzeigen U A).display_puffer
    ∧ puffer_gueltig (display_initialisieren U A).display_puffer
    ∧ puffer_gueltig (display_beenden U A).display_puffer
    ∧ puffer_gueltig (display_loeschen A).display_puffer := by
  refine ⟨?_, ?_, ?_, ?_⟩
  · unfold display_startbildschirm_anzeigen
    simp only [display_in_datei_schreiben_puffer]
    exact ⟨text_zentrieren_gueltig "Smart Kuehlschrank v1.0".toList (by decide),
      text_zentrieren_gueltig "System wird gestartet...".toList (by decide)⟩
  · unfold display_initialisieren display_startbildschirm_anzeigen
    simp only [display_in_datei_schreiben_puffer]
    exact ⟨text_zentrieren_gueltig "Smart Kuehlschrank v1.0".toList (by decide),
      text_zentrieren_gueltig "System wird gestartet...".toList (by decide)⟩
  · unfold display_beenden
    simp only [display_in_datei_schreiben_puffer]
    exact ⟨text_zentrieren_gueltig "System wird beendet...".toList (by decide),
      text_zentrieren_gueltig "Auf Wiedersehen!".toList (by decide)⟩
  · have hleer : zeile_gueltig LEER_ZEILE.toList := ⟨by decide, by decide⟩
    exact ⟨hleer, hleer⟩

/-- The error screen and the warning line are 40 characters wide and free of
NUL for every C string passed in. -/
theorem display_meldungen_gueltig (U : Umgebung) (A : Anzeige) (text : String)
    (htext : NUL ∉ text.toList) :
    puffer_gueltig (display_fehler_anzeigen U (some text) A).display_puffer
    ∧ zeile_gueltig (display_warnung_anzeigen U (some text) A).display_puffer.zeile2
    ∧ (display_warnung_anzeigen U (some text) A).display_puffer.zeile1
        = A.display_puffer.zeile1 := by
  refine ⟨?_, ?_, ?_⟩
  · unfold display_fehler_anzeigen
    simp only [display_in_datei_schreiben_puffer]
    refine ⟨zeile_auffuellen_gueltig _ ?_, zeile_auffuellen_gueltig _ (by decide)⟩
    intro hn
    rw [List.mem_append] at hn
    rcases hn with hn | hn
    · exact absurd hn (by decide)
    · exact nul_nicht_in_take _ htext hn
  · unfold display_warnung_anzeigen
    simp only [display_in_datei_schreiben_puffer]
    refine zeile_auffuellen_gueltig _ ?_
    intro hn
    rw [List.mem_append] at hn
    rcases hn with hn | hn
    · exact absurd hn (by decide)
    · exact nul_nicht_in_take _ htext hn
  · unfold display_warnung_anzeigen
    simp only [display_in_datei_schreiben_puffer]
    rfl

theorem display_zeile2_formatieren_gueltig (daten : SensorDaten) (jetzt : Int) :
    zeile_gueltig (display_zeile2_formatieren daten jetzt) := by
  unfold display_zeile2_formatieren
  simp only []
  split_ifs <;> exact zeile_auffuellen_gueltig _ (by decide)

theorem log_level_zu_zeichen_kein_nul (log_level : Int) :
    log_level_zu_zeichen log_level ≠ NUL := by
  unfold log_level_zu_zeichen
  split_ifs <;> decide

theorem display_zeile1_formatieren_gueltig (C : Libc) (daten : SensorDaten) (log_level : Int)
    (z1 : List Char) (hlibc : libc_ohne_nul C)
    (h : display_zeile1_formatieren C daten log_level = some z1) : zeile_gueltig z1 := by
  unfold display_zeile1_formatieren at h
  simp only [] at h
  have hkopf := log_level_zu_zeichen_kein_nul log_level
  have ht := hlibc.1 1 daten.temperatur
  have he := hlibc.1 0 daten.energie_verbrauch
  have hoffen : NUL ∉ "OFFEN".toList := by decide
  have hzu : NUL ∉ "ZU".toList := by decide
  split_ifs at h <;> simp only [Option.some.injEq] at h <;> subst h <;>
    refine zeile_auffuellen_gueltig _ ?_ <;>
    simp only [List.mem_append, List.mem_singleton, not_or] <;>
    exact ⟨⟨⟨⟨⟨⟨⟨fun hh => hkopf hh.symm, by decide⟩, ht⟩, by decide⟩, by assumption⟩,
      by decide⟩, he⟩, by decide⟩

/-- A status refresh keeps both lines 40 characters wide and free of NUL. -/
theorem display_aktualisieren_gueltig (U : Umgebung) (daten : SensorDaten) (log_level : Int)
    (A A1 : Anzeige) (hlibc : libc_ohne_nul U.libc) (hA : puffer_gueltig A.display_puffer)
    (h : display_aktualisieren U (some daten) log_level A = some A1) :
    puffer_gueltig A1.display_puffer := by
  unfold display_aktualisieren at h
  split_ifs at h with hi
  · simp only [Option.some.injEq] at h
    subst h
    exact hA
  · simp only [] at h
    cases hz : display_zeile1_formatieren U.libc daten log_level with
    | none => simp [hz] at h
    | some z1 =>
      simp only [hz] at h
      split_ifs at h
      · simp only [Option.some.injEq] at h
        subst h
        simp only [display_in_datei_schreiben_puffer]
        exact ⟨display_zeile1_formatieren_gueltig _ _ _ _ hlibc hz,
          display_zeile2_formatieren_gueltig daten U.jetzt⟩
      · simp only [Option.some.injEq] at h
        subst h
        exact hA

/-- The variant of display_broken3.c pads the system information lines: both
are 40 characters wide. -/
theorem display_systeminfo_anzeigen_broken3_breite (U : Umgebung) (A : Anzeige) :
    (display_systeminfo_anzeigen_broken3 U A).display_puffer.zeile1.length = DISPLAY_COLS
    ∧ (display_systeminfo_anzeigen_broken3 U A).display_puffer.zeile2.length = DISPLAY_COLS := by
  unfold display_systeminfo_anzeigen_broken3
  simp only [display_in_datei_schreiben_puffer]
  exact ⟨zeile_auffuellen_length _, zeile_auffuellen_length _⟩

/-! ### Door timer and alarm count -/

/-- The count of `sensor_alarme_pruefen` splits into the door alarm and the
three alarms that do not look at the door. -/
theorem sensor_alarme_pruefen_wert (daten : SensorDaten) (jetzt : Int) (L : LogZustand) :
    (sensor_alarme_pruefen daten jetzt L).1 = alarme_ohne_tuer daten + alarm_tuer daten jetzt := by
  unfold sensor_alarme_pruefen alarme_ohne_tuer alarm_tuer MAX_TEMP_THRESHOLD
    MIN_TEMP_THRESHOLD MAX_ENERGY_THRESHOLD DOOR_OPEN_THRESHOLD
  cases CFloat.gt daten.temperatur (.fin 8) <;>
  cases CFloat.lt daten.temperatur (.fin (-2)) <;>
  cases CFloat.gt daten.energie_verbrauch (.fin 200) <;>
  by_cases h1 : daten.tuer_offen = 0 <;>
  by_cases h2 : tuer_offen_dauer_berechnen daten.tuer_offen_seit jetzt > 30 <;>
  simp [h1, h2]

/-- C13. `tuer_offen_dauer_berechnen` returns 0 for an unset `offen_seit` (0)
and the `long` difference `jetzt - offen_seit` otherwise, which is the
difference of the integers when it fits a `long`; hence a sample with
`tuer_offen_seit` unset, its door open or not, gets no door-open-too-long
alarm at any clock value: the count consists of the temperature and energy
alarms only. -/
theorem tuer_offen_dauer_berechnen_unset (daten : SensorDaten) (jetzt : Int) (L : LogZustand)
    (hseit : daten.tuer_offen_seit = 0) :
    tuer_offen_dauer_berechnen 0 jetzt = 0
    ∧ (∀ offen_seit : Int, offen_seit ≠ 0 →
        tuer_offen_dauer_berechnen offen_seit jetzt = long_sub jetzt offen_seit)
    ∧ (∀ offen_seit : Int, offen_seit ≠ 0 → -(2 ^ 63) ≤ jetzt - offen_seit →
        jetzt - offen_seit < 2 ^ 63 →
        tuer_offen_dauer_berechnen offen_seit jetzt = jetzt - offen_seit)
    ∧ alarm_tuer daten jetzt = 0
    ∧ (sensor_alarme_pruefen daten jetzt L).1 = alarme_ohne_tuer daten := by
  have htuer : alarm_tuer daten jetzt = 0 := by
    unfold alarm_tuer tuer_offen_dauer_berechnen
    rw [hseit]
    simp
  refine ⟨rfl, ?_, ?_, htuer, ?_⟩
  · intro offen_seit h
    unfold tuer_offen_dauer_berechnen
    rw [if_neg h]
  · intro offen_seit h hlo hhi
    unfold tuer_offen_dauer_berechnen
    rw [if_neg h, long_sub_eq _ _ hlo hhi]
  · rw [sensor_alarme_pruefen_wert, htuer, add_zero]

/-- Witness for C13: door open, open-since unset, clock far past the limit;
no alarm is counted. -/
theorem tuer_offen_dauer_berechnen_unset_witness :
    (sensor_alarme_pruefen ⟨.fin 4, 1, .fin 120, 0, 1⟩ 1700000000 ⟨1, [], []⟩).1 = 0 :=
  ((tuer_offen_dauer_berechnen_unset ⟨.fin 4, 1, .fin 120, 0, 1⟩ 1700000000 ⟨1, [], []⟩
    rfl).2.2.2.2).trans (by decide)

/-- C14 as stated fails: a sample whose door is open with open-since
timestamp 0, evaluated at clock 31, gets no alarm at all, because the code
reads the timestamp 0 as "unset" and takes the open duration to be 0. -/
theorem sensor_alarme_pruefen_zeitstempel_null :
    (sensor_alarme_pruefen ⟨.fin 4, 1, .fin 120, 0, 1⟩ 31 ⟨1, [], []⟩).1 = 0
    ∧ (sensor_alarme_pruefen ⟨.fin 4, 1, .fin 120, 0, 1⟩ 31 ⟨1, [], []⟩).2.aufrufe = []
    ∧ tuer_offen_dauer_berechnen 0 31 = 0 := by
  decide

/-- C14, amended. With `DOOR_OPEN_THRESHOLD` = 30 and a sample whose door is
open with a set open-since timestamp `t0` (not 0), `sensor_alarme_pruefen`
counts the door-open-too-long alarm at clock `t0 + 31` and does not count it
at clock `t0 + 10`; the other alarms are counted as for any sample. -/
theorem sensor_alarme_pruefen_tuer_szenario (daten : SensorDaten) (L : LogZustand)
    (hoffen : daten.tuer_offen ≠ 0) (hseit : daten.tuer_offen_seit ≠ 0) :
    DOOR_OPEN_THRESHOLD = 30
    ∧ alarm_tuer daten (daten.tuer_offen_seit + 31) = 1
    ∧ (sensor_alarme_pruefen daten (daten.tuer_offen_seit + 31) L).1
        = alarme_ohne_tuer daten + 1
    ∧ alarm_tuer daten (daten.tuer_offen_seit + 10) = 0
    ∧ (sensor_alarme_pruefen daten (daten.tuer_offen_seit + 10) L).1
        = alarme_ohne_tuer daten := by
  have h31 : alarm_tuer daten (daten.tuer_offen_seit + 31) = 1 := by
    unfold alarm_tuer tuer_offen_dauer_berechnen long_sub wrap_long
    rw [if_neg hseit, if_pos]
    refine ⟨hoffen, ?_⟩
    omega
  have h10 : alarm_tuer daten (daten.tuer_offen_seit + 10) = 0 := by
    unfold alarm_tuer tuer_offen_dauer_berechnen long_sub wrap_long
    rw [if_neg hseit, if_neg]
    intro h
    omega
  refine ⟨rfl, h31, ?_, h10, ?_⟩
  · rw [sensor_alarme_pruefen_wert, h31]
  · rw [sensor_alarme_pruefen_wert, h10, add_zero]

/-- Witness for C14: the door opened at timestamp 1000; at clock 1031 the
door alarm is the one alarm counted, at clock 1010 none is. -/
theorem sensor_alarme_pruefen_tuer_szenario_witness :
    (sensor_alarme_pruefen ⟨.fin 4, 1, .fin 120, 1000, 1⟩ 1031 ⟨1, [], []⟩).1 = 1
    ∧ (sensor_alarme_pruefen ⟨.fin 4, 1, .fin 120, 1000, 1⟩ 1010 ⟨1, [], []⟩).1 = 0 :=
  ⟨((sensor_alarme_pruefen_tuer_szenario ⟨.fin 4, 1, .fin 120, 1000, 1⟩ ⟨1, [], []⟩
      (by decide) (by decide)).2.2.1).trans (by decide),
    ((sensor_alarme_pruefen_tuer_szenario ⟨.fin 4, 1, .fin 120, 1000, 1⟩ ⟨1, [], []⟩
      (by decide) (by decide)).2.2.2.2).trans (by decide)⟩

/-- C12 as stated fails: a door file holding `0 12345` is read successfully
and yields a valid sample with the door closed and `tuer_offen_seit` =
12345. -/
theorem sensor_werte_lesen_tuer_zu_mit_zeitstempel :
    (sensor_werte_lesen ⟨fun _ => none, some (.fin 4), .voll 0 12345, some (.fin 120)⟩
        (some ⟨.nan, 7, .nan, 7, 7⟩) ⟨1, [], []⟩).1
      = some ⟨.fin 4, 0, .fin 120, 12345, 1⟩ := by
  decide

/-- The door fields of the sample assembled by `sensor_werte_lesen`: the pair
of the door file when both numbers were read, closed and unset otherwise. -/
theorem sensor_werte_lesen_tuer (Q : Quellen) (alt d : SensorDaten) (L : LogZustand)
    (hd : (sensor_werte_lesen Q (some alt) L).1 = some d) :
    (d.tuer_offen, d.tuer_offen_seit) =
      (match Q.tuer with
        | .voll o seit => (o, seit)
        | _ => (0, 0)) := by
  unfold sensor_werte_lesen temperatur_lesen tuer_status_lesen energie_lesen at hd
  cases hq1 : Q.temperatur <;> cases hq2 : Q.tuer <;> cases hq3 : Q.energie <;>
    simp [hq1, hq2, hq3] at hd <;> subst hd <;> rfl

/-- C12, amended. `sensor_werte_lesen` hands the pair of the door file on
unchanged and substitutes closed and unset when the door read fails; so the
sample satisfies "door closed implies open-since unset" whenever the door
file does, that is, does not pair a 0 flag with a timestamp other than 0. -/
theorem sensor_werte_lesen_tuer_invariante (Q : Quellen) (alt d : SensorDaten)
    (L : LogZustand) (hd : (sensor_werte_lesen Q (some alt) L).1 = some d)
    (hquelle : ∀ seit : Int, Q.tuer = .voll 0 seit → seit = 0) :
    d.tuer_offen = 0 → d.tuer_offen_seit = 0 := by
  have h := sensor_werte_lesen_tuer Q alt d L hd
  intro hzu
  cases hq : Q.tuer with
  | fehlt =>
    rw [hq] at h
    exact (Prod.mk.inj h).2
  | teilweise o =>
    rw [hq] at h
    exact (Prod.mk.inj h).2
  | voll o seit =>
    rw [hq] at h
    obtain ⟨ho, hs⟩ := Prod.mk.inj h
    rw [hs]
    apply hquelle
    rw [hq, ← ho, hzu]

/-- Witness for C12: a door file as the simulator writes it for a closed
door, `0 0`. -/
theorem sensor_werte_lesen_tuer_invariante_witness :
    (sensor_werte_lesen bsp_quellen (some ⟨.nan, 7, .nan, 7, 7⟩) ⟨1, [], []⟩).1 = some bsp_daten
    ∧ bsp_daten.tuer_offen_seit = 0 :=
  ⟨rfl, sensor_werte_lesen_tuer_invariante bsp_quellen ⟨.nan, 7, .nan, 7, 7⟩ bsp_daten
    ⟨1, [], []⟩ rfl (fun _ h => (TuerDatei.voll.inj h).2.symm) rfl⟩

/-- C16. For every combination of sub-read failures `sensor_werte_lesen`
returns a sample in which each failed field holds its fallback (temperature
4.0, door closed with open-since 0, energy 120.0) and each field read
successfully holds the value read; as soon as one sub-read failed, `gueltig`
and the return value are 0. -/
theorem sensor_werte_lesen_fallbacks (Q : Quellen) (alt : SensorDaten) (L : LogZustand) :
    ∃ d, (sensor_werte_lesen Q (some alt) L).1 = some d
      ∧ ((temperatur_lesen Q alt.temperatur).1 = 0 → d.temperatur = .fin 4)
      ∧ (∀ t, Q.temperatur = some t → d.temperatur = t)
      ∧ ((tuer_status_lesen Q alt.tuer_offen alt.tuer_offen_seit).1 = 0 →
          d.tuer_offen = 0 ∧ d.tuer_offen_seit = 0)
      ∧ (∀ o seit, Q.tuer = .voll o seit → d.tuer_offen = o ∧ d.tuer_offen_seit = seit)
      ∧ ((energie_lesen Q alt.energie_verbrauch).1 = 0 → d.energie_verbrauch = .fin 120)
      ∧ (∀ e, Q.energie = some e → d.energie_verbrauch = e)
      ∧ (¬ kein_lesefehler Q alt →
          d.gueltig = 0 ∧ (sensor_werte_lesen Q (some alt) L).2.1 = 0) := by
  unfold kein_lesefehler sensor_werte_lesen temperatur_lesen tuer_status_lesen energie_lesen
    TARGET_TEMPERATURE TARGET_ENERGY
  cases Q.temperatur <;> cases Q.tuer <;> cases Q.energie <;> simp <;> split_ifs <;> simp

/-! ### Log filter -/

theorem log_schreiben_senke (level : Int) (format : String) (args : List Arg)
    (L : LogZustand) :
    (log_schreiben level format args L).senke =
      if L.aktuelle_log_stufe ≤ level then L.senke ++ [⟨level, format, args⟩] else L.senke := by
  unfold log_schreiben
  by_cases h : level < L.aktuelle_log_stufe
  · rw [if_pos h, if_neg (by omega)]
  · rw [if_neg h, if_pos (by omega)]

theorem log_nachricht_senke (level : Int) (nachricht : String) (L : LogZustand) :
    (log_nachricht level nachricht L).senke =
      if L.aktuelle_log_stufe ≤ level then L.senke ++ [⟨level, nachricht, []⟩]
      else L.senke := by
  unfold log_nachricht
  rw [log_schreiben_senke]

theorem log_formatiert_senke (level : Int) (format : String) (args : List Arg)
    (L : LogZustand) :
    (log_formatiert level format args L).senke =
      if L.aktuelle_log_stufe ≤ level then L.senke ++ [⟨level, format, args⟩]
      else L.senke := by
  unfold log_formatiert
  simp only []
  by_cases h : level < L.aktuelle_log_stufe
  · rw [if_pos h, if_neg (by omega)]
  · rw [if_neg h, log_schreiben_senke]

/-- C17. For `log_nachricht` and for `log_formatiert` alike, a message reaches
the log sink exactly when its level is at least `aktuelle_log_stufe`: then
the sink grows by this one entry, and below the current level the sink stays
as it is. -/
theorem log_filter (level : Int) (nachricht format : String) (args : List Arg)
    (L : LogZustand) :
    ((log_nachricht level nachricht L).senke = L.senke ++ [⟨level, nachricht, []⟩]
        ↔ L.aktuelle_log_stufe ≤ level)
    ∧ (level < L.aktuelle_log_stufe → (log_nachricht level nachricht L).senke = L.senke)
    ∧ ((log_formatiert level format args L).senke = L.senke ++ [⟨level, format, args⟩]
        ↔ L.aktuelle_log_stufe ≤ level)
    ∧ (level < L.aktuelle_log_stufe → (log_formatiert level format args L).senke = L.senke) := by
  have hne : ∀ (l : List LogEintrag) (e : LogEintrag), l ≠ l ++ [e] := by
    intro l e h
    have := congrArg List.length h
    simp at this
  rw [log_nachricht_senke, log_formatiert_senke]
  refine ⟨⟨?_, ?_⟩, ?_, ⟨?_, ?_⟩, ?_⟩
  · intro h
    by_contra hc
    rw [if_neg hc] at h
    exact hne _ _ h
  · intro h
    rw [if_pos h]
  · intro h
    rw [if_neg (by omega)]
  · intro h
    by_contra hc
    rw [if_neg hc] at h
    exact hne _ _ h
  · intro h
    rw [if_pos h]
  · intro h
    rw [if_neg (by omega)]

/-- The log call `log_level_setzen` makes for an accepted request: Info
level, the names of the level before and after. -/
theorem log_level_setzen_aufruf (n : Int) (L : LogZustand) (h0 : 0 ≤ n) (h3 : n ≤ 3) :
    log_level_setzen n L =
      log_formatiert LOG_INFO "Log-Level geändert von %s zu %s"
        [.s (log_level_zu_string L.aktuelle_log_stufe), .s (log_level_zu_string n)]
        { L with aktuelle_log_stufe := n } := by
  unfold log_level_setzen LOG_DEBUG LOG_ERROR
  rw [if_neg (by omega)]

/-- C18 as stated fails: raising the level from Info to Error leaves the log
sink empty; the Info entry about the change is filtered by the level just
set. -/
theorem log_level_setzen_ohne_eintrag :
    (log_level_setzen 3 ⟨1, [], []⟩).senke = []
    ∧ (log_level_setzen 3 ⟨1, [], []⟩).aktuelle_log_stufe = 3 := by
  decide

/-- C18, amended. For every current level and every requested level `n` in
`[0, 3]`, `log_level_setzen n` calls the logger once, at Info level, with the
names of the level before and the level after; the entry reaches the log sink
when `n` is Debug or Info and is filtered out when `n` is Warning or Error,
because the filter compares with the level just set. -/
theorem log_level_setzen_protokoll (n : Int) (L : LogZustand) (h0 : 0 ≤ n) (h3 : n ≤ 3) :
    (log_level_setzen n L).aufrufe = L.aufrufe ++
        [⟨LOG_INFO, "Log-Level geändert von %s zu %s",
          [.s (log_level_zu_string L.aktuelle_log_stufe), .s (log_level_zu_string n)]⟩]
    ∧ (n ≤ LOG_INFO → (log_level_setzen n L).senke = L.senke ++
        [⟨LOG_INFO, "Log-Level geändert von %s zu %s",
          [.s (log_level_zu_string L.aktuelle_log_stufe), .s (log_level_zu_string n)]⟩])
    ∧ (LOG_INFO < n → (log_level_setzen n L).senke = L.senke) := by
  rw [log_level_setzen_aufruf n L h0 h3, log_formatiert_aufrufe, log_formatiert_senke]
  refine ⟨rfl, ?_, ?_⟩
  · intro h
    rw [if_pos h]
  · intro h
    rw [if_neg (by simp only []; omega)]

/-- Witness for C18: lowering the level from Warning to Debug writes the
entry that names WARNUNG and DEBUG. -/
theorem log_level_setzen_protokoll_witness :
    (log_level_setzen 0 ⟨2, [], []⟩).senke
      = [⟨LOG_INFO, "Log-Level geändert von %s zu %s", [.s "WARNUNG", .s "DEBUG"]⟩] :=
  (log_level_setzen_protokoll 0 ⟨2, [], []⟩ (by decide) (by decide)).2.1 (by decide)

/-! ### Warning line and centred text -/

/-- C19. For every warning text and every prior display state,
`display_warnung_anzeigen` stores in line 2 the text "WARNUNG: " followed by
the first 31 characters of the warning, padded with blanks to exactly 40
characters, keeps line 1, and emits a console frame and a display-file write
of the new content whatever line 2 held before; texts of any length, so also
of up to 39 characters, are taken, and one of at most 31 characters is shown
in full. -/
theorem display_warnung_anzeigen_wirkung (U : Umgebung) (A : Anzeige) (text : String) :
    (display_warnung_anzeigen U (some text) A).display_puffer.zeile2
        = zeile_auffuellen ("WARNUNG: ".toList ++ text.toList.take 31)
    ∧ (display_warnung_anzeigen U (some text) A).display_puffer.zeile2.length = 40
    ∧ (display_warnung_anzeigen U (some text) A).display_puffer.zeile2.take 9
        = "WARNUNG: ".toList
    ∧ (text.length ≤ 31 →
        (display_warnung_anzeigen U (some text) A).display_puffer.zeile2
          = "WARNUNG: ".toList ++ text.toList ++ List.replicate (31 - text.length) ' ')
    ∧ (display_warnung_anzeigen U (some text) A).display_puffer.zeile1
        = A.display_puffer.zeile1
    ∧ (display_warnung_anzeigen U (some text) A).ausgaben = A.ausgaben
        ++ [.konsole A.display_puffer.zeile1
              (zeile_auffuellen ("WARNUNG: ".toList ++ text.toList.take 31))]
        ++ (if U.display_datei_schreibbar = true then
              [.datei DISPLAY_DATEI A.display_puffer.zeile1
                (zeile_auffuellen ("WARNUNG: ".toList ++ text.toList.take 31)) U.jetzt]
            else []) := by
  have hz2 : (display_warnung_anzeigen U (some text) A).display_puffer.zeile2
      = zeile_auffuellen ("WARNUNG: ".toList ++ text.toList.take 31) := by
    unfold display_warnung_anzeigen
    simp only [display_in_datei_schreiben_puffer]
    rfl
  refine ⟨hz2, ?_, ?_, ?_, ?_, ?_⟩
  · rw [hz2]
    exact zeile_auffuellen_length _
  · rw [hz2]
    simp [zeile_auffuellen, DISPLAY_COLS, List.take_take]
  · intro hlen
    rw [hz2]
    have hl : text.toList.length ≤ 31 := hlen
    rw [List.take_of_length_le hl]
    unfold zeile_auffuellen DISPLAY_COLS
    rw [List.take_of_length_le]
    · simp only [List.length_append]
      have h9 : "WARNUNG: ".toList.length = 9 := by decide
      rw [h9]
      have : 40 - (9 + text.toList.length) = 31 - text.length := by
        have : text.toList.length = text.length := rfl
        omega
      rw [this]
    · simp only [List.length_append, List.length_replicate]
      have h9 : "WARNUNG: ".toList.length = 9 := by decide
      omega
  · unfold display_warnung_anzeigen
    simp only [display_in_datei_schreiben_puffer]
    rfl
  · unfold display_warnung_anzeigen display_in_datei_schreiben display_ausgeben
    cases hs : U.display_datei_schreibbar <;> simp [DISPLAY_COLS]

/-- C20 as stated fails: for a text of 41 characters `text_zentrieren` yields
40 blanks, not the first 40 characters of the text. -/
theorem text_zentrieren_langer_text :
    text_zentrieren (List.replicate 41 'x') = List.replicate 40 ' '
    ∧ text_zentrieren (List.replicate 41 'x') ≠ (List.replicate 41 'x').take 40 := by
  decide

/-- C20, amended. For every text `text_zentrieren` produces a line of exactly
40 characters; a text of at most 40 characters stands at offset
`(40 - len) / 2`, rounded down, with blanks in every other column; for a text
of more than 40 characters the guard skips the copy and the line is 40
blanks. -/
theorem text_zentrieren_inhalt (text : List Char) :
    (text_zentrieren text).length = 40
    ∧ (text.length ≤ 40 → ∀ i : Nat, i < 40 →
        (text_zentrieren text)[i]? =
          if (40 - text.length) / 2 ≤ i ∧ i < (40 - text.length) / 2 + text.length then
            text[i - (40 - text.length) / 2]?
          else some ' ')
    ∧ (40 < text.length → text_zentrieren text = List.replicate 40 ' ') := by
  refine ⟨text_zentrieren_length text, ?_, ?_⟩
  · intro hlen i hi
    unfold text_zentrieren DISPLAY_COLS
    simp only [if_pos hlen]
    by_cases h1 : i < (40 - text.length) / 2
    · rw [if_neg (by omega), List.append_assoc, List.getElem?_append_left (by simpa using h1)]
      simp [h1]
    · by_cases h2 : i < (40 - text.length) / 2 + text.length
      · rw [if_pos ⟨by omega, h2⟩, List.getElem?_append_left (by simp; omega),
          List.getElem?_append_right (by simp; omega)]
        simp
      · rw [if_neg (by omega), List.getElem?_append_right (by simp; omega)]
        simp only [List.length_append, List.length_replicate]
        rw [List.getElem?_replicate, if_pos (by omega)]
  · intro hlen
    unfold text_zentrieren DISPLAY_COLS
    simp only [if_neg (by omega : ¬ text.length ≤ 40)]

/-- Witness for C20: the banner of the start screen, 23 characters, stands at
offset 8. -/
theorem text_zentrieren_inhalt_witness :
    "Smart Kuehlschrank v1.0".toList.length ≤ 40
    ∧ (text_zentrieren "Smart Kuehlschrank v1.0".toList)[8]? = some 'S'
    ∧ (text_zentrieren "Smart Kuehlschrank v1.0".toList)[7]? = some ' ' :=
  ⟨by decide,
    ((text_zentrieren_inhalt "Smart Kuehlschrank v1.0".toList).2.1 (by decide) 8
      (by decide)).trans (by decide),
    ((text_zentrieren_inhalt "Smart Kuehlschrank v1.0".toList).2.1 (by decide) 7
      (by decide)).trans (by decide)⟩

/-! ### Button tick -/

/-- On an initialised display a refresh whose line 1 fits its buffers leaves
the formatted lines in the buffer, keeps the display initialised and only
appends to the outputs. -/
theorem display_aktualisieren_zeilen (U : Umgebung) (daten : SensorDaten) (log_level : Int)
    (A : Anzeige) (z1 : List Char)
    (hinit : A.display_puffer.initialisiert ≠ 0)
    (hz1 : display_zeile1_formatieren U.libc daten log_level = some z1) :
    ∃ A1, display_aktualisieren U (some daten) log_level A = some A1
      ∧ A1.display_puffer.zeile1 = z1
      ∧ A1.display_puffer.zeile2 = display_zeile2_formatieren daten U.jetzt
      ∧ A1.display_puffer.initialisiert = A.display_puffer.initialisiert
      ∧ A.ausgaben <+: A1.ausgaben := by
  by_cases hgleich : A.display_puffer.zeile1 = z1
      ∧ A.display_puffer.zeile2 = display_zeile2_formatieren daten U.jetzt
  · refine ⟨A, ?_, hgleich.1, hgleich.2, rfl, List.prefix_refl _⟩
    simp [display_aktualisieren, hinit, hz1, hgleich.1, hgleich.2]
  · have hungleich : A.display_puffer.zeile1 ≠ z1
        ∨ A.display_puffer.zeile2 ≠ display_zeile2_formatieren daten U.jetzt := by
      by_cases h1 : A.display_puffer.zeile1 = z1
      · exact Or.inr (fun h2 => hgleich ⟨h1, h2⟩)
      · exact Or.inl h1
    refine ⟨_, display_aktualisieren_ungleich U daten log_level A z1 hinit hz1 hungleich,
      ?_, ?_, ?_, ?_⟩
    · simp only [display_in_datei_schreiben_puffer]
      rfl
    · simp only [display_in_datei_schreiben_puffer]
      rfl
    · simp only [display_in_datei_schreiben_puffer]
      rfl
    · cases hs : U.display_datei_schreibbar <;>
        simp [display_ausgeben, display_in_datei_schreiben, hs]

/-- No status text of line 2 starts with the letter W. -/
theorem display_zeile2_formatieren_kopf (daten : SensorDaten) (jetzt : Int) :
    (display_zeile2_formatieren daten jetzt).head? ≠ some 'W' := by
  unfold display_zeile2_formatieren
  simp only []
  split_ifs <;> decide

/-- The warning screen: line 2 starts with the letter W, line 1 and the
initialisation flag stay, the console frame with the warning line is the
first output appended, and the log level stays. -/
theorem display_warnung_anzeigen_zustand (U : Umgebung) (text : String) (A : Anzeige) :
    (display_warnung_anzeigen U (some text) A).display_puffer.zeile2.head? = some 'W'
    ∧ (display_warnung_anzeigen U (some text) A).display_puffer.zeile1
        = A.display_puffer.zeile1
    ∧ (display_warnung_anzeigen U (some text) A).display_puffer.initialisiert
        = A.display_puffer.initialisiert
    ∧ (A.ausgaben ++ [.konsole A.display_puffer.zeile1
          (zeile_auffuellen ("WARNUNG: ".toList ++ text.toList.take 31))])
        <+: (display_warnung_anzeigen U (some text) A).ausgaben
    ∧ (display_warnung_anzeigen U (some text) A).log.aktuelle_log_stufe
        = A.log.aktuelle_log_stufe := by
  unfold display_warnung_anzeigen
  simp only [display_in_datei_schreiben_puffer]
  refine ⟨?_, rfl, rfl, ?_, ?_⟩
  · exact zeile_auffuellen_kopf 'W' _
  · cases hs : U.display_datei_schreibbar <;>
      simp [display_ausgeben, display_in_datei_schreiben, hs, DISPLAY_COLS]
  · rw [log_formatiert_stufe]
    exact (ruhig_display_in_datei_schreiben U DISPLAY_DATEI _).1

/-- C21. On an initialised display, with the level in `[0, 3]` and the sample
fitting line 1, a poll that reads 1 after a stored 0 makes `taster_verarbeiten`
complete with the level at its cyclic successor and both display lines equal
to the status lines formatted from the remembered sample and the new level,
line 2 at the clock after the pause; the confirmation "WARNUNG: Log-Level:
name" was rendered on the console in between and is no longer on line 2. -/
theorem taster_verarbeiten_wiederherstellung (E : TasterAbfrage) (S : System)
    (z1 z1n : List Char)
    (htaster : E.taster = .wert 1) (hprev : S.letzter_taster_zustand = 0)
    (hinit : S.anzeige.display_puffer.initialisiert ≠ 0)
    (h0 : 0 ≤ S.anzeige.log.aktuelle_log_stufe) (h3 : S.anzeige.log.aktuelle_log_stufe ≤ 3)
    (hz1 : display_zeile1_formatieren E.umgebung.libc S.aktuelle_sensordaten
      ((S.anzeige.log.aktuelle_log_stufe + 1) % 4) = some z1)
    (hz1n : display_zeile1_formatieren E.nach_pause.libc S.aktuelle_sensordaten
      ((S.anzeige.log.aktuelle_log_stufe + 1) % 4) = some z1n) :
    ∃ S1, taster_verarbeiten E S = some S1
      ∧ S1.anzeige.log.aktuelle_log_stufe = (S.anzeige.log.aktuelle_log_stufe + 1) % 4
      ∧ S1.anzeige.display_puffer.zeile1 = z1n
      ∧ S1.anzeige.display_puffer.zeile2
          = display_zeile2_formatieren S.aktuelle_sensordaten E.nach_pause.jetzt
      ∧ S1.anzeige.display_puffer.zeile2
          ≠ zeile_auffuellen ("WARNUNG: Log-Level: ".toList
              ++ (log_level_zu_string ((S.anzeige.log.aktuelle_log_stufe + 1) % 4)).toList)
      ∧ Ausgabe.konsole z1 (zeile_auffuellen ("WARNUNG: Log-Level: ".toList
              ++ (log_level_zu_string ((S.anzeige.log.aktuelle_log_stufe + 1) % 4)).toList))
          ∈ S1.anzeige.ausgaben
      ∧ S1.aktuelle_sensordaten = S.aktuelle_sensordaten := by
  obtain ⟨-, hl⟩ := taster_schritt 1 E.taster_schreibbar
    ⟨S.anzeige.log, S.letzter_taster_zustand, S.geschrieben⟩ h0 h3
  rw [if_pos ⟨rfl, hprev⟩] at hl
  have hne : S.anzeige.log.aktuelle_log_stufe ≠ (S.anzeige.log.aktuelle_log_stufe + 1) % 4 := by
    omega
  have hwarn : ("WARNUNG: ".toList ++ (meldung_formatieren (log_level_zu_string
        ((S.anzeige.log.aktuelle_log_stufe + 1) % 4))).toList.take 31)
      = "WARNUNG: Log-Level: ".toList
          ++ (log_level_zu_string ((S.anzeige.log.aktuelle_log_stufe + 1) % 4)).toList := by
    have hn : (S.anzeige.log.aktuelle_log_stufe + 1) % 4 = 0
        ∨ (S.anzeige.log.aktuelle_log_stufe + 1) % 4 = 1
        ∨ (S.anzeige.log.aktuelle_log_stufe + 1) % 4 = 2
        ∨ (S.anzeige.log.aktuelle_log_stufe + 1) % 4 = 3 := by omega
    rcases hn with hn | hn | hn | hn <;> rw [hn] <;> decide
  generalize (S.anzeige.log.aktuelle_log_stufe + 1) % 4 = n at hl hne hwarn hz1 hz1n ⊢
  rcases hT : taster_pruefen_und_log_level_erhoehen (.wert 1) E.taster_schreibbar
    ⟨S.anzeige.log, S.letzter_taster_zustand, S.geschrieben⟩ with ⟨TL, Tp, Tg⟩
  rw [hT] at hl
  simp only [] at hl
  subst hl
  simp only [taster_verarbeiten, htaster, hT, log_level_abfragen, ne_eq, hne,
    not_false_eq_true, if_true]
  -- the first refresh
  obtain ⟨A1, hA1, h11, -, h13, -⟩ := display_aktualisieren_zeilen E.umgebung
    S.aktuelle_sensordaten TL.aktuelle_log_stufe
    { S.anzeige with log := (log_formatiert LOG_INFO "Log-Level durch Taster geändert: %d -> %d"
        [.d S.anzeige.log.aktuelle_log_stufe, .d TL.aktuelle_log_stufe] TL) } z1 hinit hz1
  have r1 := ruhig_display_aktualisieren _ _ _ _ _ hA1
  simp only [hA1]
  -- the confirmation
  obtain ⟨w1, w2, w3, w4, w5⟩ := display_warnung_anzeigen_zustand E.umgebung
    (meldung_formatieren (log_level_zu_string TL.aktuelle_log_stufe)) A1
  rw [hwarn, h11] at w4
  -- the second refresh
  have hungleich : (display_warnung_anzeigen E.umgebung
        (some (meldung_formatieren (log_level_zu_string TL.aktuelle_log_stufe)))
        A1).display_puffer.zeile2
      ≠ display_zeile2_formatieren S.aktuelle_sensordaten E.nach_pause.jetzt := by
    intro h
    rw [h] at w1
    exact display_zeile2_formatieren_kopf _ _ w1
  obtain ⟨A2, hA2, h21, h22, -, h24⟩ := display_aktualisieren_zeilen E.nach_pause
    S.aktuelle_sensordaten TL.aktuelle_log_stufe
    (display_warnung_anzeigen E.umgebung
      (some (meldung_formatieren (log_level_zu_string TL.aktuelle_log_stufe))) A1) z1n
    (by rw [w3, h13]; exact hinit) hz1n
  have r2 := ruhig_display_aktualisieren _ _ _ _ _ hA2
  simp only [hA2]
  refine ⟨_, rfl, ?_, h21, h22, ?_, ?_, rfl⟩
  · show A2.log.aktuelle_log_stufe = _
    rw [r2.1, w5, r1.1]
    exact log_formatiert_stufe _ _ _ _
  · show A2.display_puffer.zeile2 ≠ _
    rw [h22]
    intro h
    have hk := display_zeile2_formatieren_kopf S.aktuelle_sensordaten E.nach_pause.jetzt
    rw [h] at hk
    exact hk (zeile_auffuellen_kopf 'W' _)
  · show _ ∈ A2.ausgaben
    exact (w4.trans h24).subset (by simp)

/-- Witness for C21: a press at level Info on the start screen, remembered
sample 4.0 degrees, door closed, 120 W; afterwards the level is Warning and
the display shows the status lines of that sample at level 2. -/
theorem taster_verarbeiten_wiederherstellung_witness :
    bsp_system.anzeige.display_puffer.initialisiert ≠ 0
    ∧ bsp_system.letzter_taster_zustand = 0
    ∧ ∃ S1, taster_verarbeiten bsp_taster_abfrage bsp_system = some S1
        ∧ S1.anzeige.log.aktuelle_log_stufe = 2
        ∧ S1.anzeige.display_puffer.zeile1 = "2 T:4.0C D:ZU E:120W                    ".toList
        ∧ S1.anzeige.display_puffer.zeile2
            = "Status: OK - Alle Werte normal          ".toList := by
  refine ⟨by decide, rfl, ?_⟩
  obtain ⟨S1, h1, h2, h3, h4, -, -, -⟩ :=
    taster_verarbeiten_wiederherstellung bsp_taster_abfrage bsp_system
      "2 T:4.0C D:ZU E:120W                    ".toList
      "2 T:4.0C D:ZU E:120W                    ".toList
      rfl rfl (by decide) (by decide) (by decide) (by decide) (by decide)
  refine ⟨S1, h1, h2.trans (by decide), h3, h4.trans (by decide)⟩

/-! ### Invalid read tick -/

/-- The state after a read tick whose sample is invalid: the error screen of
`display_fehler_anzeigen` on top of the log call of the tick, the remembered
sample and the other globals as before, the file tracker as the three marker
calls left it. -/
theorem sensor_daten_verarbeiten_ungueltig (E : Abfrage) (S : System) (neu : SensorDaten)
    (hneu : (sensor_werte_lesen E.quellen (some E.stapel) S.anzeige.log).1 = some neu)
    (hg : neu.gueltig = 0) :
    ∃ infos L, sensor_daten_verarbeiten E S =
      some { S with
        anzeige := (display_fehler_anzeigen E.umgebung (some "Sensor-Lesefehler")
          { S.anzeige with log := L }),
        datei_infos := infos } := by
  rcases hm1 : datei_wurde_geaendert E.quellen TEMPERATURE_FILE TEMP_DATEI_INDEX
    S.datei_infos S.anzeige.log with ⟨g1, infos1, L1⟩
  rcases hm2 : datei_wurde_geaendert E.quellen DOOR_FILE TUER_DATEI_INDEX infos1 L1
    with ⟨g2, infos2, L2⟩
  rcases hm3 : datei_wurde_geaendert E.quellen ENERGY_FILE ENERGIE_DATEI_INDEX infos2 L2
    with ⟨g3, infos3, L3⟩
  rcases hr : sensor_werte_lesen E.quellen (some E.stapel) L3 with ⟨dopt, ok, L4⟩
  have hu := sensor_werte_lesen_unabhaengig E.quellen E.stapel E.stapel L3 S.anzeige.log
  obtain ⟨d, hd1, hd2, _⟩ := sensor_werte_lesen_total E.quellen E.stapel L3
  rw [hr] at hu hd1 hd2
  simp only [] at hu hd1 hd2
  have hdneu : d = neu := by
    rw [hu.1, hneu] at hd1
    exact (Option.some.inj hd1).symm
  subst hdneu
  have hok : ok = 0 := hd2.trans hg
  subst hok
  refine ⟨infos3, log_nachricht LOG_ERROR "Fehler beim Lesen der Sensor-Daten" L4, ?_⟩
  simp only [sensor_daten_verarbeiten, hm1, hm2, hm3, hr, ne_eq, not_true_eq_false, if_false]

/-- C23 as stated fails: at level Info the handler called with `SIGINT`
appends an entry to the log sink. -/
theorem signal_handler_schreibt_in_senke :
    bsp_system.anzeige.log.aktuelle_log_stufe = LOG_INFO
    ∧ (signal_handler SIGINT bsp_system).anzeige.log.senke
        = bsp_system.anzeige.log.senke
            ++ [⟨LOG_INFO, "SIGINT empfangen - Programm wird beendet", []⟩]
    ∧ (signal_handler SIGINT bsp_system).anzeige.log.senke ≠ bsp_system.anzeige.log.senke := by
  decide

/-- C23, amended. For every signal number `signal_handler` sets
`programm_laeuft` to 0 and leaves the display, the remembered sample, the file
tracker, the debounce variable, the files written and the log level as they
are; it makes one log call, at Info level for `SIGINT` and `SIGTERM` and at
Warning level with the number for every other signal, and this entry is
appended to the log sink exactly when its level is not below the current
level. -/
theorem signal_handler_wirkung (signal : Int) (S : System) :
    (signal_handler signal S).programm_laeuft = 0
    ∧ (signal_handler signal S).anzeige.display_puffer = S.anzeige.display_puffer
    ∧ (signal_handler signal S).anzeige.ausgaben = S.anzeige.ausgaben
    ∧ (signal_handler signal S).aktuelle_sensordaten = S.aktuelle_sensordaten
    ∧ (signal_handler signal S).datei_infos = S.datei_infos
    ∧ (signal_handler signal S).letzter_taster_zustand = S.letzter_taster_zustand
    ∧ (signal_handler signal S).geschrieben = S.geschrieben
    ∧ (signal_handler signal S).anzeige.log.aktuelle_log_stufe
        = S.anzeige.log.aktuelle_log_stufe
    ∧ (signal = SIGINT →
        (signal_handler signal S).anzeige.log.senke
          = if S.anzeige.log.aktuelle_log_stufe ≤ LOG_INFO then
              S.anzeige.log.senke
                ++ [⟨LOG_INFO, "SIGINT empfangen - Programm wird beendet", []⟩]
            else S.anzeige.log.senke)
    ∧ (signal = SIGTERM →
        (signal_handler signal S).anzeige.log.senke
          = if S.anzeige.log.aktuelle_log_stufe ≤ LOG_INFO then
              S.anzeige.log.senke
                ++ [⟨LOG_INFO, "SIGTERM empfangen - Programm wird beendet", []⟩]
            else S.anzeige.log.senke)
    ∧ (signal ≠ SIGINT ∧ signal ≠ SIGTERM →
        (signal_handler signal S).anzeige.log.senke
          = if S.anzeige.log.aktuelle_log_stufe ≤ LOG_WARNING then
              S.anzeige.log.senke
                ++ [⟨LOG_WARNING, "Unbekanntes Signal empfangen: %d", [.d signal]⟩]
            else S.anzeige.log.senke) := by
  refine ⟨rfl, rfl, rfl, rfl, rfl, rfl, rfl, ?_, ?_, ?_, ?_⟩
  · unfold signal_handler
    simp only []
    split_ifs
    · exact log_nachricht_stufe _ _ _
    · exact log_nachricht_stufe _ _ _
    · exact log_formatiert_stufe _ _ _ _
  · intro h
    simp only [signal_handler, if_pos h]
    exact log_nachricht_senke _ _ _
  · intro h
    have h1 : signal ≠ SIGINT := by rw [h]; decide
    simp only [signal_handler, if_neg h1, if_pos h]
    exact log_nachricht_senke _ _ _
  · intro h
    simp only [signal_handler, if_neg h.1, if_neg h.2]
    exact log_formatiert_senke _ _ _ _

/-! ### Alarm evaluator and status line -/

/-- C24. For the valid sample with temperature 9.0, door closed and 120 W,
whatever its open-since field and the clock, with the maximum temperature at
8.0: `sensor_alarme_pruefen` returns 1 and its only log call is the
temperature-too-high alarm, and `display_zeile2_formatieren` gives the text
"TEMPERATUR ZU HOCH!" padded to 40 characters. -/
theorem szenario_temperatur_zu_hoch (seit jetzt : Int) (L : LogZustand) :
    MAX_TEMP_THRESHOLD = .fin 8
    ∧ (sensor_alarme_pruefen ⟨.fin 9, 0, .fin 120, seit, 1⟩ jetzt L).1 = 1
    ∧ (sensor_alarme_pruefen ⟨.fin 9, 0, .fin 120, seit, 1⟩ jetzt L).2
        = log_formatiert LOG_WARNING "ALARM: Temperatur zu hoch! %.2f°C (Max: %.2f°C)"
            [.f (.fin 9), .f (.fin 8)] L
    ∧ display_zeile2_formatieren ⟨.fin 9, 0, .fin 120, seit, 1⟩ jetzt
        = zeile_auffuellen TEXT_TEMPERATUR_ZU_HOCH.toList
    ∧ display_zeile2_formatieren ⟨.fin 9, 0, .fin 120, seit, 1⟩ jetzt
        = "TEMPERATUR ZU HOCH!".toList ++ List.replicate 21 ' ' :=
  ⟨rfl, rfl, rfl, rfl, rfl⟩

/-- Line 2 for a valid sample with the temperature in `[-2, 8]` and the door
open: the too-long text when `jetzt - tuer_offen_seit` exceeds 30, the
door-is-open text otherwise. -/
theorem display_zeile2_formatieren_tuer (daten : SensorDaten) (jetzt : Int)
    (hg : daten.gueltig ≠ 0) (ht : im_bereich daten.temperatur (-2) 8 = true)
    (ho : daten.tuer_offen ≠ 0) :
    display_zeile2_formatieren daten jetzt
      = zeile_auffuellen (if long_sub jetzt daten.tuer_offen_seit > 30 then
          TEXT_TUER_ZU_LANGE_OFFEN.toList else TEXT_TUER_IST_OFFEN.toList) := by
  rw [im_bereich_iff] at ht
  unfold display_zeile2_formatieren MAX_TEMP_THRESHOLD MIN_TEMP_THRESHOLD DOOR_OPEN_THRESHOLD
  simp only [hg, ht.2.1, ht.2.2, ho, if_false, if_true, ne_eq, not_false_eq_true,
    Bool.false_eq_true]

/-- On a valid sample with the temperature in `[-2, 8]` and the door open,
line 2 shows the too-long text exactly when `jetzt - tuer_offen_seit` exceeds
30. -/
theorem display_zeile2_formatieren_tuer_iff (daten : SensorDaten) (jetzt : Int)
    (hg : daten.gueltig ≠ 0) (ht : im_bereich daten.temperatur (-2) 8 = true)
    (ho : daten.tuer_offen ≠ 0) :
    display_zeile2_formatieren daten jetzt = zeile_auffuellen TEXT_TUER_ZU_LANGE_OFFEN.toList
      ↔ long_sub jetzt daten.tuer_offen_seit > 30 := by
  rw [display_zeile2_formatieren_tuer daten jetzt hg ht ho]
  by_cases h : long_sub jetzt daten.tuer_offen_seit > 30
  · simp only [h, if_true]
  · simp only [h, if_false, iff_false]
    decide

/-- C25, evaluated at the failing input. The door file `1 0` is read as a
valid sample with the door open and `tuer_offen_seit` 0; at the clock value
1700000000 (and at 31) line 2 shows "TUER ZU LANGE OFFEN!" while
`sensor_alarme_pruefen` counts no alarm and logs nothing. In general, for a
valid sample with the temperature in `[-2, 8]` and the door open, the display
and the alarm evaluator agree on the door when `tuer_offen_seit` is not 0;
when it is 0 the evaluator never counts the door alarm, but the display shows
the too-long text as soon as the clock exceeds 30. -/
theorem display_und_alarm_uneins (L : LogZustand) :
    (sensor_werte_lesen ⟨fun _ => none, some (.fin 4), .voll 1 0, some (.fin 120)⟩
        (some ⟨.nan, 7, .nan, 7, 7⟩) L).1 = some ⟨.fin 4, 1, .fin 120, 0, 1⟩
    ∧ display_zeile2_formatieren ⟨.fin 4, 1, .fin 120, 0, 1⟩ 1700000000
        = zeile_auffuellen TEXT_TUER_ZU_LANGE_OFFEN.toList
    ∧ sensor_alarme_pruefen ⟨.fin 4, 1, .fin 120, 0, 1⟩ 1700000000 L = (0, L)
    ∧ display_zeile2_formatieren ⟨.fin 4, 1, .fin 120, 0, 1⟩ 31
        = zeile_auffuellen TEXT_TUER_ZU_LANGE_OFFEN.toList
    ∧ sensor_alarme_pruefen ⟨.fin 4, 1, .fin 120, 0, 1⟩ 31 L = (0, L)
    ∧ (∀ (daten : SensorDaten) (jetzt : Int), daten.gueltig ≠ 0 →
        im_bereich daten.temperatur (-2) 8 = true → daten.tuer_offen ≠ 0 →
        daten.tuer_offen_seit ≠ 0 →
        (display_zeile2_formatieren daten jetzt
            = zeile_auffuellen TEXT_TUER_ZU_LANGE_OFFEN.toList
          ↔ alarm_tuer daten jetzt = 1))
    ∧ (∀ (daten : SensorDaten) (jetzt : Int), daten.gueltig ≠ 0 →
        im_bereich daten.temperatur (-2) 8 = true → daten.tuer_offen ≠ 0 →
        daten.tuer_offen_seit = 0 →
        alarm_tuer daten jetzt = 0
        ∧ (display_zeile2_formatieren daten jetzt
            = zeile_auffuellen TEXT_TUER_ZU_LANGE_OFFEN.toList
          ↔ long_sub jetzt 0 > 30)) := by
  refine ⟨rfl, rfl, rfl, rfl, rfl, ?_, ?_⟩
  · intro daten jetzt hg ht ho hs
    rw [display_zeile2_formatieren_tuer_iff daten jetzt hg ht ho]
    unfold alarm_tuer tuer_offen_dauer_berechnen
    rw [if_neg hs]
    by_cases h : long_sub jetzt daten.tuer_offen_seit > 30
    · simp [h, ho]
    · simp [h]
  · intro daten jetzt hg ht ho hs
    refine ⟨?_, ?_⟩
    · unfold alarm_tuer tuer_offen_dauer_berechnen
      rw [if_pos hs]
      simp
    · rw [display_zeile2_formatieren_tuer_iff daten jetzt hg ht ho, hs]

/-- C26. For every valid sample, clock value and log state,
`display_zeile2_formatieren` gives the text "Status: OK - Alle Werte normal"
(padded) exactly when `sensor_alarme_pruefen` returns 0 at that clock value
and the door is closed. -/
theorem display_status_ok_gdw_kein_alarm (daten : SensorDaten) (jetzt : Int) (L : LogZustand)
    (hg : daten.gueltig ≠ 0) :
    display_zeile2_formatieren daten jetzt = zeile_auffuellen TEXT_STATUS_OK.toList
      ↔ ((sensor_alarme_pruefen daten jetzt L).1 = 0 ∧ daten.tuer_offen = 0) := by
  rw [sensor_alarme_pruefen_wert]
  unfold display_zeile2_formatieren alarme_ohne_tuer alarm_tuer MAX_TEMP_THRESHOLD
    MIN_TEMP_THRESHOLD MAX_ENERGY_THRESHOLD DOOR_OPEN_THRESHOLD
  cases h1 : CFloat.gt daten.temperatur (.fin 8) <;>
  cases h2 : CFloat.lt daten.temperatur (.fin (-2)) <;>
  cases h3 : CFloat.gt daten.energie_verbrauch (.fin 200) <;>
  by_cases h4 : daten.tuer_offen = 0 <;>
  by_cases h5 : tuer_offen_dauer_berechnen daten.tuer_offen_seit jetzt > 30 <;>
  by_cases h6 : long_sub jetzt daten.tuer_offen_seit > 30 <;>
  simp [hg, h4, h5, h6] <;>
  decide

/-- Witness for C26: the valid sample with 4.0 degrees, door closed and 120 W
raises no alarm at clock 100, so line 2 is the OK text. -/
theorem display_status_ok_gdw_kein_alarm_witness :
    (⟨.fin 4, 0, .fin 120, 0, 1⟩ : SensorDaten).gueltig ≠ 0
    ∧ (sensor_alarme_pruefen ⟨.fin 4, 0, .fin 120, 0, 1⟩ 100 ⟨1, [], []⟩).1 = 0
    ∧ display_zeile2_formatieren ⟨.fin 4, 0, .fin 120, 0, 1⟩ 100
        = "Status: OK - Alle Werte normal".toList ++ List.replicate 10 ' ' :=
  ⟨by decide, rfl,
    ((display_status_ok_gdw_kein_alarm ⟨.fin 4, 0, .fin 120, 0, 1⟩ 100 ⟨1, [], []⟩
      (by decide)).2 ⟨rfl, rfl⟩).trans (by decide)⟩

/-! ### Range of the log level -/

/-- One operation keeps the level within `[0, 3]`. -/
theorem aktion_ausfuehren_bereich (T : TasterZustand) (a : LogAktion)
    (h0 : 0 ≤ T.log.aktuelle_log_stufe) (h3 : T.log.aktuelle_log_stufe ≤ 3) :
    0 ≤ (aktion_ausfuehren T a).log.aktuelle_log_stufe
    ∧ (aktion_ausfuehren T a).log.aktuelle_log_stufe ≤ 3 := by
  cases a with
  | setzen n =>
    show 0 ≤ (log_level_setzen n T.log).aktuelle_log_stufe
      ∧ (log_level_setzen n T.log).aktuelle_log_stufe ≤ 3
    rw [log_level_setzen_stufe]
    split_ifs <;> omega
  | abfrage datei w =>
    cases datei with
    | fehlt =>
      simp only [aktion_ausfuehren, taster_pruefen_und_log_level_erhoehen]
      split_ifs <;> exact ⟨h0, h3⟩
    | unlesbar => exact ⟨h0, h3⟩
    | wert v =>
      simp only [aktion_ausfuehren]
      rw [(taster_schritt v w T h0 h3).2]
      split_ifs <;> omega

/-- A sequence of operations keeps the level within `[0, 3]`. -/
theorem aktionen_ausfuehren_bereich (aktionen : List LogAktion) :
    ∀ T : TasterZustand, 0 ≤ T.log.aktuelle_log_stufe → T.log.aktuelle_log_stufe ≤ 3 →
      0 ≤ (aktionen_ausfuehren T aktionen).log.aktuelle_log_stufe
      ∧ (aktionen_ausfuehren T aktionen).log.aktuelle_log_stufe ≤ 3 := by
  induction aktionen with
  | nil => intro T h0 h3; exact ⟨h0, h3⟩
  | cons a rest ih =>
    intro T h0 h3
    obtain ⟨h0', h3'⟩ := aktion_ausfuehren_bereich T a h0 h3
    exact ih (aktion_ausfuehren T a) h0' h3'

/-- C27. Starting from the initial globals of logging_broken.c (level Info),
after every finite sequence of `log_level_setzen` calls with arbitrary integer
arguments and button polls with arbitrary outcomes, `aktuelle_log_stufe` is
one of 0, 1, 2, 3. -/
theorem log_stufe_bleibt_im_bereich (aktionen : List LogAktion) :
    (aktionen_ausfuehren logging_start aktionen).log.aktuelle_log_stufe = 0
    ∨ (aktionen_ausfuehren logging_start aktionen).log.aktuelle_log_stufe = 1
    ∨ (aktionen_ausfuehren logging_start aktionen).log.aktuelle_log_stufe = 2
    ∨ (aktionen_ausfuehren logging_start aktionen).log.aktuelle_log_stufe = 3 := by
  obtain ⟨h0, h3⟩ := aktionen_ausfuehren_bereich aktionen logging_start (by decide) (by decide)
  omega

/-! ### The remembered sample -/

/-- Whether line 1 fits its buffers does not depend on the log level. -/
theorem display_zeile1_formatieren_passt (C : Libc) (daten : SensorDaten) (l1 l2 : Int)
    (z1 : List Char) (h : display_zeile1_formatieren C daten l1 = some z1) :
    ∃ z2, display_zeile1_formatieren C daten l2 = some z2 := by
  unfold display_zeile1_formatieren at h ⊢
  simp only [List.length_append, List.length_singleton] at h ⊢
  split_ifs at h ⊢ <;> exact ⟨_, rfl⟩

/-- What a read tick with a valid sample can leave as the remembered sample:
the fresh sample or the one remembered before. -/
theorem sensor_daten_verarbeiten_gueltig_gemerkt (E : Abfrage) (S S1 : System)
    (neu : SensorDaten)
    (hneu : (sensor_werte_lesen E.quellen (some E.stapel) S.anzeige.log).1 = some neu)
    (hg : neu.gueltig ≠ 0) (h : sensor_daten_verarbeiten E S = some S1) :
    S1.aktuelle_sensordaten = neu ∨ S1.aktuelle_sensordaten = S.aktuelle_sensordaten := by
  rcases hm1 : datei_wurde_geaendert E.quellen TEMPERATURE_FILE TEMP_DATEI_INDEX
    S.datei_infos S.anzeige.log with ⟨g1, infos1, L1⟩
  rcases hm2 : datei_wurde_geaendert E.quellen DOOR_FILE TUER_DATEI_INDEX infos1 L1
    with ⟨g2, infos2, L2⟩
  rcases hm3 : datei_wurde_geaendert E.quellen ENERGY_FILE ENERGIE_DATEI_INDEX infos2 L2
    with ⟨g3, infos3, L3⟩
  rcases hr : sensor_werte_lesen E.quellen (some E.stapel) L3 with ⟨dopt, ok, L4⟩
  have hu := sensor_werte_lesen_unabhaengig E.quellen E.stapel E.stapel L3 S.anzeige.log
  obtain ⟨d, hd1, hd2, _⟩ := sensor_werte_lesen_total E.quellen E.stapel L3
  rw [hr] at hu hd1 hd2
  simp only [] at hu hd1 hd2
  have hdneu : d = neu := by
    rw [hu.1, hneu] at hd1
    exact (Option.some.inj hd1).symm
  subst hdneu
  subst hd1
  subst hd2
  simp only [sensor_daten_verarbeiten, hm1, hm2, hm3, hr, Option.getD_some, if_pos hg] at h
  split_ifs at h <;> simp only [] at h <;> split at h <;> cases h <;>
    first
      | exact Or.inl rfl
      | exact Or.inr rfl

/-- A refresh completes as soon as line 1 of the sample fits its buffers at
some level. -/
theorem display_aktualisieren_ne_none (U : Umgebung) (daten : SensorDaten) (l l0 : Int)
    (A : Anzeige) (z1 : List Char)
    (hz1 : display_zeile1_formatieren U.libc daten l0 = some z1) :
    display_aktualisieren U (some daten) l A ≠ none := by
  obtain ⟨z2, hz2⟩ := display_zeile1_formatieren_passt U.libc daten l0 l z1 hz1
  obtain ⟨A1, hA1⟩ := display_aktualisieren_some U daten l A z2 hz2
  rw [hA1]
  exact Option.some_ne_none A1

/-- A read tick with a valid sample whose line 1 fits its buffers
completes. -/
theorem sensor_daten_verarbeiten_gueltig_some (E : Abfrage) (S : System) (neu : SensorDaten)
    (l : Int) (z1 : List Char)
    (hneu : (sensor_werte_lesen E.quellen (some E.stapel) S.anzeige.log).1 = some neu)
    (hg : neu.gueltig ≠ 0)
    (hz1 : display_zeile1_formatieren E.umgebung.libc neu l = some z1) :
    ∃ S1, sensor_daten_verarbeiten E S = some S1 := by
  rcases hm1 : datei_wurde_geaendert E.quellen TEMPERATURE_FILE TEMP_DATEI_INDEX
    S.datei_infos S.anzeige.log with ⟨g1, infos1, L1⟩
  rcases hm2 : datei_wurde_geaendert E.quellen DOOR_FILE TUER_DATEI_INDEX infos1 L1
    with ⟨g2, infos2, L2⟩
  rcases hm3 : datei_wurde_geaendert E.quellen ENERGY_FILE ENERGIE_DATEI_INDEX infos2 L2
    with ⟨g3, infos3, L3⟩
  rcases hr : sensor_werte_lesen E.quellen (some E.stapel) L3 with ⟨dopt, ok, L4⟩
  have hu := sensor_werte_lesen_unabhaengig E.quellen E.stapel E.stapel L3 S.anzeige.log
  obtain ⟨d, hd1, hd2, _⟩ := sensor_werte_lesen_total E.quellen E.stapel L3
  rw [hr] at hu hd1 hd2
  simp only [] at hu hd1 hd2
  have hdneu : d = neu := by
    rw [hu.1, hneu] at hd1
    exact (Option.some.inj hd1).symm
  subst hdneu
  subst hd1
  subst hd2
  simp only [sensor_daten_verarbeiten, hm1, hm2, hm3, hr, Option.getD_some, if_pos hg]
  split_ifs <;> simp only [] <;> split <;>
    first
      | exact ⟨_, rfl⟩
      | (rename_i heq
         exact absurd heq (display_aktualisieren_ne_none _ _ _ l _ z1 hz1))

/-- C28. A read tick whose sample is invalid completes and leaves the
remembered sample `aktuelle_sensordaten` as it was. After any completed tick
the remembered sample is the one remembered before or the fresh sample, the
latter only when that sample is valid (`gueltig` = 1); so a remembered sample
that was valid before the tick is valid after it. A tick with a valid sample
completes whenever line 1 of the sample fits its buffers. -/
theorem sensor_daten_verarbeiten_gemerkt (E : Abfrage) (S : System) (neu : SensorDaten)
    (hneu : (sensor_werte_lesen E.quellen (some E.stapel) S.anzeige.log).1 = some neu) :
    (neu.gueltig = 0 →
      ∃ S1, sensor_daten_verarbeiten E S = some S1
        ∧ S1.aktuelle_sensordaten = S.aktuelle_sensordaten)
    ∧ (∀ S1, sensor_daten_verarbeiten E S = some S1 →
        (S1.aktuelle_sensordaten = S.aktuelle_sensordaten
          ∨ (S1.aktuelle_sensordaten = neu ∧ neu.gueltig = 1))
        ∧ (S.aktuelle_sensordaten.gueltig ≠ 0 → S1.aktuelle_sensordaten.gueltig ≠ 0))
    ∧ (neu.gueltig ≠ 0 →
        ∀ (l : Int) (z1 : List Char),
          display_zeile1_formatieren E.umgebung.libc neu l = some z1 →
          ∃ S1, sensor_daten_verarbeiten E S = some S1) := by
  have hwert : neu.gueltig = 0 ∨ neu.gueltig = 1 := by
    obtain ⟨d, hd1, -, hd3⟩ := sensor_werte_lesen_total E.quellen E.stapel S.anzeige.log
    rw [hneu] at hd1
    rw [Option.some.inj hd1]
    exact hd3
  have hungueltig : neu.gueltig = 0 →
      ∃ S1, sensor_daten_verarbeiten E S = some S1
        ∧ S1.aktuelle_sensordaten = S.aktuelle_sensordaten := by
    intro hg
    obtain ⟨infos, L, h⟩ := sensor_daten_verarbeiten_ungueltig E S neu hneu hg
    exact ⟨_, h, rfl⟩
  have hfall : ∀ S1, sensor_daten_verarbeiten E S = some S1 →
      (S1.aktuelle_sensordaten = S.aktuelle_sensordaten
        ∨ (S1.aktuelle_sensordaten = neu ∧ neu.gueltig = 1)) := by
    intro S1 h
    by_cases hg : neu.gueltig = 0
    · obtain ⟨S2, h2, h3⟩ := hungueltig hg
      rw [h2] at h
      rw [← Option.some.inj h]
      exact Or.inl h3
    · rcases sensor_daten_verarbeiten_gueltig_gemerkt E S S1 neu hneu hg h with h1 | h1
      · exact Or.inr ⟨h1, by omega⟩
      · exact Or.inl h1
  refine ⟨hungueltig, ?_, ?_⟩
  · intro S1 h
    refine ⟨hfall S1 h, ?_⟩
    intro hvor
    rcases hfall S1 h with h1 | ⟨h1, h2⟩
    · rw [h1]
      exact hvor
    · rw [h1, h2]
      decide
  · intro hg l z1 hz1
    exact sensor_daten_verarbeiten_gueltig_some E S neu l z1 hneu hg hz1

/-- Witness for C28: the temperature file is unreadable, the fresh sample is
invalid, and the remembered sample (valid, 4.0 degrees) is still there after
the tick. -/
theorem sensor_daten_verarbeiten_gemerkt_witness :
    (sensor_werte_lesen bsp_abfrage_fehler.quellen (some bsp_abfrage_fehler.stapel)
        bsp_system.anzeige.log).1 = some ⟨.fin 4, 0, .fin 120, 0, 0⟩
    ∧ ∃ S1, sensor_daten_verarbeiten bsp_abfrage_fehler bsp_system = some S1
        ∧ S1.aktuelle_sensordaten = ⟨.fin 4, 0, .fin 120, 0, 1⟩
        ∧ S1.aktuelle_sensordaten.gueltig ≠ 0 := by
  refine ⟨rfl, ?_⟩
  have h := sensor_daten_verarbeiten_gemerkt bsp_abfrage_fehler bsp_system
    ⟨.fin 4, 0, .fin 120, 0, 0⟩ rfl
  obtain ⟨S1, h1, h2⟩ := h.1 rfl
  exact ⟨S1, h1, h2, (h.2.1 S1 h1).2 (by decide)⟩

/-! ### Simulated values -/

/-- A monotone rounding keeps a value between two values it leaves as they
are. -/
theorem gerundet_zwischen (rd : ℚ → ℚ) (hmono : ∀ a b : ℚ, a ≤ b → rd a ≤ rd b)
    (lo hi q : ℚ) (hlo : rd lo = lo) (hhi : rd hi = hi) (h1 : lo ≤ q) (h2 : q ≤ hi) :
    lo ≤ rd q ∧ rd q ≤ hi := by
  have a := hmono lo q h1
  have b := hmono q hi h2
  rw [hlo] at a
  rw [hhi] at b
  exact ⟨a, b⟩

/-- The sample of the simulator on a float unit that rounds as IEEE 754 asks:
finite temperature in `[2, 6]`, finite energy in `[90, 150]` with the door
closed and in `[140, 200]` with the door open. -/
theorem zufaellige_sensor_werte_generieren_form (R : Rechenwerk)
    (rand1 rand2 rand3 jetzt : Int) (hR : ieee_gerundet R)
    (h1 : 0 ≤ rand1 ∧ rand1 ≤ R.RAND_MAX) (h3 : 0 ≤ rand3 ∧ rand3 ≤ R.RAND_MAX) :
    ∃ t e : ℚ, 2 ≤ t ∧ t ≤ 6
      ∧ (if Int.tmod rand2 10 = 0 then 140 ≤ e ∧ e ≤ 200 else 90 ≤ e ∧ e ≤ 150)
      ∧ zufaellige_sensor_werte_generieren R rand1 rand2 rand3 jetzt
          = ⟨.fin t, if Int.tmod rand2 10 = 0 then 1 else 0, .fin e,
              if Int.tmod rand2 10 = 0 then jetzt else 0, 1⟩ := by
  obtain ⟨hM0, hM1, rd, hmono, hhalb, hnhalb, hint, hconv, hadd, hsub, hmul, hdiv⟩ := hR
  have f0 : rd 0 = 0 := by simpa using hint 0 (by norm_num) (by norm_num)
  have f1 : rd 1 = 1 := by simpa using hint 1 (by norm_num) (by norm_num)
  have f2 : rd 2 = 2 := by simpa using hint 2 (by norm_num) (by norm_num)
  have fn2 : rd (-2) = -2 := by simpa using hint (-2) (by norm_num) (by norm_num)
  have f6 : rd 6 = 6 := by simpa using hint 6 (by norm_num) (by norm_num)
  have f30 : rd 30 = 30 := by simpa using hint 30 (by norm_num) (by norm_num)
  have fn30 : rd (-30) = -30 := by simpa using hint (-30) (by norm_num) (by norm_num)
  have f90 : rd 90 = 90 := by simpa using hint 90 (by norm_num) (by norm_num)
  have f140 : rd 140 = 140 := by simpa using hint 140 (by norm_num) (by norm_num)
  have f150 : rd 150 = 150 := by simpa using hint 150 (by norm_num) (by norm_num)
  have f200 : rd 200 = 200 := by simpa using hint 200 (by norm_num) (by norm_num)
  -- the factor `(float)rand() / RAND_MAX - 0.5f`
  have hfaktor : ∀ r : Int, 0 ≤ r → r ≤ R.RAND_MAX →
      ∃ s : ℚ, -(1 / 2) ≤ s ∧ s ≤ 1 / 2
        ∧ R.float_sub (R.float_div (R.int_zu_float r) (R.int_zu_float R.RAND_MAX))
            (.fin (1 / 2)) = .fin s := by
    intro r hr0 hrM
    rw [hconv r hr0 (by omega), hconv R.RAND_MAX (by omega) hM1]
    have ha0 : 0 ≤ rd r := by
      have := hmono 0 r (Int.cast_nonneg.mpr hr0)
      rwa [f0] at this
    have hab : rd r ≤ rd R.RAND_MAX := hmono _ _ (Int.cast_le.mpr hrM)
    have hb1 : 1 ≤ rd R.RAND_MAX := by
      have := hmono 1 R.RAND_MAX (by exact_mod_cast (show (1 : Int) ≤ R.RAND_MAX by omega))
      rwa [f1] at this
    have hbpos : 0 < rd R.RAND_MAX := by linarith
    have hq0 : 0 ≤ rd r / rd R.RAND_MAX := div_nonneg ha0 hbpos.le
    have hq1 : rd r / rd R.RAND_MAX ≤ 1 := (div_le_one hbpos).mpr hab
    rw [hdiv _ _ hbpos.ne' (abs_le.mpr ⟨by linarith, by linarith⟩)]
    obtain ⟨hx0, hx1⟩ := gerundet_zwischen rd hmono 0 1 _ f0 f1 hq0 hq1
    rw [hsub _ _ (abs_le.mpr ⟨by linarith, by linarith⟩)]
    obtain ⟨hs0, hs1⟩ := gerundet_zwischen rd hmono (-(1 / 2)) (1 / 2)
      (rd (rd r / rd R.RAND_MAX) - 1 / 2) hnhalb hhalb (by linarith) (by linarith)
    exact ⟨_, hs0, hs1, rfl⟩
  obtain ⟨s1, hs1a, hs1b, hs1⟩ := hfaktor rand1 h1.1 h1.2
  obtain ⟨s3, hs3a, hs3b, hs3⟩ := hfaktor rand3 h3.1 h3.2
  -- temperature
  obtain ⟨hm1a, hm1b⟩ := gerundet_zwischen rd hmono (-2) 2 (s1 * 4) fn2 f2
    (by linarith) (by linarith)
  obtain ⟨ht1, ht2⟩ := gerundet_zwischen rd hmono 2 6 (4 + rd (s1 * 4)) f2 f6
    (by linarith) (by linarith)
  -- energy
  obtain ⟨hm3a, hm3b⟩ := gerundet_zwischen rd hmono (-30) 30 (s3 * 60) fn30 f30
    (by linarith) (by linarith)
  obtain ⟨he1, he2⟩ := gerundet_zwischen rd hmono 90 150 (120 + rd (s3 * 60)) f90 f150
    (by linarith) (by linarith)
  obtain ⟨ho1, ho2⟩ := gerundet_zwischen rd hmono 140 200 (rd (120 + rd (s3 * 60)) + 50)
    f140 f200 (by linarith) (by linarith)
  have htemp : R.float_add basis_temperatur (R.float_mul (.fin s1) (.fin 4))
      = .fin (rd (4 + rd (s1 * 4))) := by
    rw [hmul _ _ (abs_le.mpr ⟨by linarith, by linarith⟩), basis_temperatur,
      hadd _ _ (abs_le.mpr ⟨by linarith, by linarith⟩)]
  have henergie : R.float_add TARGET_ENERGY (R.float_mul (.fin s3) (.fin 60))
      = .fin (rd (120 + rd (s3 * 60))) := by
    rw [hmul _ _ (abs_le.mpr ⟨by linarith, by linarith⟩), TARGET_ENERGY,
      hadd _ _ (abs_le.mpr ⟨by linarith, by linarith⟩)]
  have hoffen : R.float_add (.fin (rd (120 + rd (s3 * 60)))) (.fin 50)
      = .fin (rd (rd (120 + rd (s3 * 60)) + 50)) :=
    hadd _ _ (abs_le.mpr ⟨by linarith, by linarith⟩)
  by_cases hz : Int.tmod rand2 10 = 0
  · refine ⟨rd (4 + rd (s1 * 4)), rd (rd (120 + rd (s3 * 60)) + 50), ht1, ht2, ?_, ?_⟩
    · rw [if_pos hz]
      exact ⟨ho1, ho2⟩
    · simp only [zufaellige_sensor_werte_generieren, hs1, hs3, htemp, henergie, hoffen, hz,
        if_true, ne_eq, one_ne_zero, not_false_eq_true]
  · refine ⟨rd (4 + rd (s1 * 4)), rd (120 + rd (s3 * 60)), ht1, ht2, ?_, ?_⟩
    · rw [if_neg hz]
      exact ⟨he1, he2⟩
    · simp only [zufaellige_sensor_werte_generieren, hs1, hs3, htemp, henergie, hz,
        if_false, ne_eq, not_true_eq_false]

theorem im_bereich_fin (q lo hi : ℚ) :
    im_bereich (.fin q) lo hi = true ↔ lo ≤ q ∧ q ≤ hi := by
  simp [im_bereich, CFloat.le, CFloat.lt]

/-- A door that was opened at the instant of evaluation has been open for 0
seconds. -/
theorem tuer_offen_dauer_berechnen_sofort (jetzt : Int) :
    tuer_offen_dauer_berechnen jetzt jetzt = 0 := by
  unfold tuer_offen_dauer_berechnen long_sub wrap_long
  split_ifs <;> omega

/-- C29. On a float unit that rounds as IEEE 754 asks, for every outcome of
the first and third `rand()` draw in `[0, RAND_MAX]`, every outcome of the
second draw and every clock value, the sample of
`zufaellige_sensor_werte_generieren` has its temperature in `[2, 6]`, its
energy in `[90, 200]`, `tuer_offen_seit` 0 when the door is closed (and the
clock value when it is open), is marked valid, passes
`sensor_werte_validieren`, and makes `sensor_alarme_pruefen` return 0 at the
clock value of its generation. -/
theorem zufaellige_sensor_werte_generieren_grenzen (R : Rechenwerk)
    (rand1 rand2 rand3 jetzt : Int) (L : LogZustand) (hR : ieee_gerundet R)
    (h1 : 0 ≤ rand1 ∧ rand1 ≤ R.RAND_MAX) (h3 : 0 ≤ rand3 ∧ rand3 ≤ R.RAND_MAX) :
    im_bereich (zufaellige_sensor_werte_generieren R rand1 rand2 rand3 jetzt).temperatur 2 6
        = true
    ∧ im_bereich (zufaellige_sensor_werte_generieren R rand1 rand2 rand3 jetzt).energie_verbrauch
        90 200 = true
    ∧ ((zufaellige_sensor_werte_generieren R rand1 rand2 rand3 jetzt).tuer_offen = 0 →
        (zufaellige_sensor_werte_generieren R rand1 rand2 rand3 jetzt).tuer_offen_seit = 0)
    ∧ ((zufaellige_sensor_werte_generieren R rand1 rand2 rand3 jetzt).tuer_offen ≠ 0 →
        (zufaellige_sensor_werte_generieren R rand1 rand2 rand3 jetzt).tuer_offen_seit = jetzt)
    ∧ (zufaellige_sensor_werte_generieren R rand1 rand2 rand3 jetzt).gueltig = 1
    ∧ (sensor_werte_validieren
        (zufaellige_sensor_werte_generieren R rand1 rand2 rand3 jetzt) L).1 = 1
    ∧ (sensor_alarme_pruefen
        (zufaellige_sensor_werte_generieren R rand1 rand2 rand3 jetzt) jetzt L).1 = 0 := by
  obtain ⟨t, e, ht1, ht2, he, hform⟩ :=
    zufaellige_sensor_werte_generieren_form R rand1 rand2 rand3 jetzt hR h1 h3
  rw [hform]
  have he' : 90 ≤ e ∧ e ≤ 200 := by
    split_ifs at he
    · exact ⟨by linarith [he.1], he.2⟩
    · exact ⟨he.1, by linarith [he.2]⟩
  have hg8 : CFloat.gt (.fin t) (.fin 8) = false := by
    simp only [CFloat.gt, CFloat.lt, decide_eq_false_iff_not, not_lt]
    linarith
  have hl2 : CFloat.lt (.fin t) (.fin (-2)) = false := by
    simp only [CFloat.lt, decide_eq_false_iff_not, not_lt]
    linarith
  have hg200 : CFloat.gt (.fin e) (.fin 200) = false := by
    simp only [CFloat.gt, CFloat.lt, decide_eq_false_iff_not, not_lt]
    exact he'.2
  refine ⟨(im_bereich_fin _ _ _).2 ⟨ht1, ht2⟩, (im_bereich_fin _ _ _).2 he', ?_, ?_, rfl, ?_, ?_⟩
  · show (if Int.tmod rand2 10 = 0 then (1 : Int) else 0) = 0 →
      (if Int.tmod rand2 10 = 0 then jetzt else 0) = 0
    split_ifs <;> simp
  · show (if Int.tmod rand2 10 = 0 then (1 : Int) else 0) ≠ 0 →
      (if Int.tmod rand2 10 = 0 then jetzt else 0) = jetzt
    split_ifs <;> simp
  · refine sensor_werte_validieren_bereich _ _ _ _ _ L
      ((im_bereich_fin _ _ _).2 ⟨by linarith, by linarith⟩) ?_
      ((im_bereich_fin _ _ _).2 ⟨by linarith [he'.1], by linarith [he'.2]⟩)
    split_ifs
    · exact Or.inr rfl
    · exact Or.inl rfl
  · rw [sensor_alarme_pruefen_wert]
    unfold alarme_ohne_tuer alarm_tuer
    simp only [hg8, hl2, hg200]
    by_cases hz : Int.tmod rand2 10 = 0
    · simp [hz, tuer_offen_dauer_berechnen_sofort]
    · simp [hz]

/-- The float unit without rounding error rounds as IEEE 754 asks, the
rounding being the identity. -/
theorem rechenwerk_exakt_ieee : ieee_gerundet rechenwerk_exakt := by
  refine ⟨by decide, by decide, id, fun a b h => h, rfl, rfl, fun n _ _ => rfl,
    fun n _ _ => rfl, fun a b _ => rfl, fun a b _ => rfl, fun a b _ => rfl, ?_⟩
  intro a b hb _
  simp [rechenwerk_exakt, hb]

/-- Witness for C29: the draws 0, 0 and `RAND_MAX` at clock 100 on the float
unit without rounding error. The door is open, the sample sits on the lower
temperature bound 2 and on the upper energy bound 200, passes the validation
and raises no alarm at clock 100. -/
theorem zufaellige_sensor_werte_generieren_grenzen_witness :
    ieee_gerundet rechenwerk_exakt
    ∧ zufaellige_sensor_werte_generieren rechenwerk_exakt 0 0 2147483647 100
        = ⟨.fin 2, 1, .fin 200, 100, 1⟩
    ∧ (sensor_werte_validieren ⟨.fin 2, 1, .fin 200, 100, 1⟩ ⟨1, [], []⟩).1 = 1
    ∧ (sensor_alarme_pruefen ⟨.fin 2, 1, .fin 200, 100, 1⟩ 100 ⟨1, [], []⟩).1 = 0 := by
  have hwert : zufaellige_sensor_werte_generieren rechenwerk_exakt 0 0 2147483647 100
      = ⟨.fin 2, 1, .fin 200, 100, 1⟩ := by
    simp [zufaellige_sensor_werte_generieren, rechenwerk_exakt, basis_temperatur, TARGET_ENERGY]
    norm_num
  have h := zufaellige_sensor_werte_generieren_grenzen rechenwerk_exakt 0 0 2147483647 100
    ⟨1, [], []⟩ rechenwerk_exakt_ieee ⟨by decide, by decide⟩ ⟨by decide, by decide⟩
  rw [hwert] at h
  exact ⟨rechenwerk_exakt_ieee, hwert, h.2.2.2.2.2.1, h.2.2.2.2.2.2⟩

end Kuehlschrank
